import Mathlib

/-!
# mrcal: the Python wrapper (`mrcal_pywrap.c`) and its header (`mrcal.h`)

A shallow embedding of the wrapper functions `optimize`, `project` and
`queryIntrinsicOutliernessAt`: their argument validation, the observation
unmarshalling of `optimize`, the calls they make into the library and the
objects they return, together with the distortion registry of `mrcal.h`.

Conventions of the embedding.

* C integers are mathematical integers.  A narrowing conversion of a *value*
  (a Python integer to `int`, an `int` to a 31-bit bit-field) is written out
  with `wrap_signed`, the two's-complement wrap-around of GCC on LP64, and so
  is the `int` product `Npoints_fromBoards` of `optimize`, which can exceed an
  `int` for an array that holds no element.
* Sizes (array dimensions, sequence lengths, observation counts) are natural
  numbers and their conversion to `int` preserves the value: the embedding
  covers objects whose sizes fit a C `int`.
* A C array is a function from indices to elements.  A local array that the
  code does not initialise starts from an arbitrary function (`stack`).
* A C `double` is its IEEE 754 binary64 fields.
* A pointer that may be `NULL` is an `Option`.
-/

namespace Mrcal

/-! ## Machine integers and doubles -/

/-- Conversion of an integer to a signed integer type of `w` bits: the value is
reduced modulo `2 ^ w` into the range `[-2 ^ (w-1), 2 ^ (w-1))`. -/
def wrap_signed (w : Nat) (x : Int) : Int :=
  (x + 2 ^ (w - 1)) % 2 ^ w - 2 ^ (w - 1)

/-- The cast `(int)x` of a `long`. -/
def to_int (x : Int) : Int := wrap_signed 32 x

/-- Store into a bit-field declared `int f : 31`. -/
def to_bitfield31 (x : Int) : Int := wrap_signed 31 x

/-- An IEEE 754 binary64 value, by its fields: sign bit, 11-bit biased
exponent, 52-bit fraction. -/
structure double where
  sign : Bool
  exponent : Nat
  fraction : Nat
  deriving DecidableEq

namespace double

/-- Not-a-number: exponent all ones, fraction not zero. -/
def isNaN (x : double) : Bool := x.exponent == 2047 && x.fraction != 0

/-- Plus or minus zero. -/
def isZero (x : double) : Bool := x.exponent == 0 && x.fraction == 0

/-- The C comparison `x <= 0.0`: false on NaN. -/
def le_zero (x : double) : Bool := !x.isNaN && (x.sign || x.isZero)

/-- The C comparison `x > 0.0`: false on NaN. -/
def gt_zero (x : double) : Bool := !x.isNaN && !x.sign && !x.isZero

/-- The double `1.0`. -/
def one : double := ⟨false, 1023, 0⟩

/-- The double `0.0`. -/
def zero : double := ⟨false, 0, 0⟩

/-- The double `-1.0`. -/
def neg_one : double := ⟨true, 1023, 0⟩

/-- A quiet NaN, `float('nan')`. -/
def nan : double := ⟨false, 2047, 2251799813685248⟩

end double

/-! ## `mrcal.h` -/

/-- The record `struct observation_board_t`.  `i_camera` and `i_frame` are
31-bit signed bit-fields, each sharing its word with a 1-bit flag; `px` is the
offset, counted in `point2_t`, of the first pixel of the observation inside
the data of `observations_board`. -/
structure observation_board_t where
  i_camera : Int
  skip_frame : Bool
  i_frame : Int
  skip_observation : Bool
  px : Int
  deriving DecidableEq

/-- The record `struct observation_point_t`.  `px` is the observed pixel and
`dist` the reference distance. -/
structure observation_point_t where
  i_camera : Int
  skip_point : Bool
  i_point : Int
  skip_observation : Bool
  px : double × double
  dist : double
  deriving DecidableEq

/-- The record `struct intrinsics_core_t`: `focal_xy[2]` and `center_xy[2]`,
given by the number of doubles of each member. -/
def intrinsics_core_t : List Nat := [2, 2]

/-- The width `sizeof(double)`. -/
def sizeof_double : Nat := 8

/-- The macro `N_INTRINSICS_CORE`:
`sizeof(struct intrinsics_core_t)/sizeof(double)`. -/
def N_INTRINSICS_CORE : Int :=
  (((intrinsics_core_t.map (· * sizeof_double)).sum / sizeof_double : Nat) : Int)

/-- The enumeration `enum distortion_model_t`: `DISTORTION_INVALID` followed
by the names of `DISTORTION_LIST`. -/
inductive distortion_model_t
  | DISTORTION_INVALID
  | DISTORTION_NONE
  | DISTORTION_OPENCV4
  | DISTORTION_OPENCV5
  | DISTORTION_OPENCV8
  | DISTORTION_OPENCV12
  | DISTORTION_OPENCV14
  | DISTORTION_CAHVOR
  | DISTORTION_CAHVORE
  deriving DecidableEq

open distortion_model_t

/-- The X-macro `DISTORTION_LIST`: names of the distortion models with their
number of distortion parameters, in the order of the header. -/
def DISTORTION_LIST : List (distortion_model_t × Int) :=
  [ (DISTORTION_NONE,     0),
    (DISTORTION_OPENCV4,  4),
    (DISTORTION_OPENCV5,  5),
    (DISTORTION_OPENCV8,  8),
    (DISTORTION_OPENCV12, 12),
    (DISTORTION_OPENCV14, 14),
    (DISTORTION_CAHVOR,   5),
    (DISTORTION_CAHVORE,  9) ]

/-- The enumerators of `enum distortion_model_t` in declaration order:
`{ DISTORTION_INVALID DISTORTION_LIST( LIST_WITH_COMMA ) }`. -/
def distortion_model_t_enumerators : List distortion_model_t :=
  DISTORTION_INVALID :: DISTORTION_LIST.map Prod.fst

/-- The integer value of an enumerator: its position in the declaration. -/
def distortion_model_t.value (m : distortion_model_t) : Nat :=
  distortion_model_t_enumerators.indexOf m

/-- The record `struct mrcal_variable_select`, with the field
`cahvor_radial_only` that `mrcal_pywrap.c` sets in its problem details. -/
structure mrcal_variable_select where
  do_optimize_intrinsic_core : Bool
  do_optimize_intrinsic_distortions : Bool
  do_optimize_extrinsics : Bool
  do_optimize_frames : Bool
  cahvor_radial_only : Bool
  do_skip_regularization : Bool
  deriving DecidableEq

/-- The functions of the library that `mrcal.h` declares and whose bodies are
not part of the sources at hand; the wrapper is embedded over any
implementation of them. -/
structure mrcal_library where
  mrcal_distortion_model_from_name : String → distortion_model_t
  mrcal_getNdistortionParams : distortion_model_t → Int

/-- Modelled from the spec: `mrcal_getNdistortionParams`, whose body is not
among the sources.  The registry maps a family to its parameter count
(section 4.1), the counts being those of `DISTORTION_LIST`; an error is
signalled by a negative count. -/
def getNdistortionParams_of_list (m : distortion_model_t) : Int :=
  match DISTORTION_LIST.lookup m with
  | some n => n
  | none => -1

/-- Modelled from the spec: `mrcal_distortion_model_from_name`, whose body is
not among the sources.  Names are the tokens of the family list, compared
exactly; any other string gives `DISTORTION_INVALID` (section 4.1).  The
tokens are written as the error messages of the wrapper list them
(`QUOTED_LIST_WITH_COMMA` over `DISTORTION_LIST`). -/
def distortion_model_from_name_of_list (name : String) : distortion_model_t :=
  if name = "DISTORTION_NONE" then DISTORTION_NONE
  else if name = "DISTORTION_OPENCV4" then DISTORTION_OPENCV4
  else if name = "DISTORTION_OPENCV5" then DISTORTION_OPENCV5
  else if name = "DISTORTION_OPENCV8" then DISTORTION_OPENCV8
  else if name = "DISTORTION_OPENCV12" then DISTORTION_OPENCV12
  else if name = "DISTORTION_OPENCV14" then DISTORTION_OPENCV14
  else if name = "DISTORTION_CAHVOR" then DISTORTION_CAHVOR
  else if name = "DISTORTION_CAHVORE" then DISTORTION_CAHVORE
  else DISTORTION_INVALID

/-- The library as the spec describes it. -/
def library_of_list : mrcal_library :=
  ⟨distortion_model_from_name_of_list, getNdistortionParams_of_list⟩

/-! ## Python objects as the wrapper sees them -/

/-- The record `SolverContext` of the wrapper: the solver state `ctx`
(`none` is `NULL`, an empty context) and the settings of the solve that
made it. -/
structure SolverContext where
  ctx : Option Nat
  distortion_model : distortion_model_t
  do_optimize_intrinsic_core : Bool
  do_optimize_intrinsic_distortions : Bool
  cahvor_radial_only : Bool
  deriving DecidableEq

/-- A Python object, as far as the wrapper tells objects apart: `None`, an
`int` (a C `long`; `True` and `False` are the ints 1 and 0), a `float` (a C
`double`), a `str`, a list or tuple, a `mrcal.SolverContext`, or anything
else. -/
inductive PyObject
  | Py_None
  | PyInt (ob_ival : Int)
  | PyFloat (ob_fval : double)
  | PyString (ob_sval : String)
  | PyList (ob_item : List PyObject)
  | PySolverContext (c : SolverContext)
  | PyOther

open PyObject

/-- The object `Py_True`. -/
def Py_True : PyObject := PyInt 1

/-- The object `Py_False`. -/
def Py_False : PyObject := PyInt 0

/-- The test `PyFloat_Check`. -/
def PyFloat_Check : PyObject → Bool
  | PyFloat _ => true
  | _ => false

/-- The test `PyInt_Check`. -/
def PyInt_Check : PyObject → Bool
  | PyInt _ => true
  | _ => false

/-- The accessor `PyFloat_AS_DOUBLE`, meaningful on a float. -/
def PyFloat_AS_DOUBLE : PyObject → double
  | PyFloat d => d
  | _ => double.zero

/-- The conversion `PyInt_AsLong` (and `PyInt_AS_LONG`) on an int; on another
object the error value `-1`. -/
def PyInt_AsLong : PyObject → Int
  | PyInt v => v
  | _ => -1

/-- The conversion `PyString_AsString`: `NULL` (`none`) unless the object is
a string. -/
def PyString_AsString : PyObject → Option String
  | PyString s => some s
  | _ => none

/-- The items of a sequence object: those of a list or tuple, the characters
of a string; `none` for an object that is not a sequence. -/
def sequence_items : PyObject → Option (List PyObject)
  | PyList items => some items
  | PyString s => some (s.toList.map fun c => PyString (String.singleton c))
  | _ => none

/-- The test `PySequence_Check`. -/
def PySequence_Check (o : PyObject) : Bool := (sequence_items o).isSome

/-- The length `PySequence_Size`; `-1` on an object that is not a sequence. -/
def PySequence_Size (o : PyObject) : Int :=
  match sequence_items o with
  | some items => items.length
  | none => -1

/-- The item `PySequence_GetItem(o, i)`; out of range, or on an object that
is not a sequence, the item is `PyOther`. -/
def PySequence_GetItem (o : PyObject) (i : Nat) : PyObject :=
  match sequence_items o with
  | some items => items.getD i PyOther
  | none => PyOther

/-- The test `Py_TYPE(o) == &SolverContextType`. -/
def is_SolverContext : PyObject → Bool
  | PySolverContext _ => true
  | _ => false

/-- The numpy element types the wrapper asks for, and any other. -/
inductive NPY_TYPES
  | NPY_INT
  | NPY_DOUBLE
  | NPY_OTHER
  deriving DecidableEq

open NPY_TYPES

/-- A numpy array: its shape (`PyArray_DIMS`, of length `PyArray_NDIM`), its
element type (`PyArray_TYPE`), whether it is C-contiguous, and its data in C
order (`int_data` for an array of `int`, `double_data` for one of
`double`). -/
structure PyArrayObject where
  dims : List Nat
  type : NPY_TYPES
  c_contiguous : Bool
  int_data : List Int
  double_data : List double

/-- The value `PyArray_DIMS(a)[i]`. -/
def PyArray_DIMS (a : PyArrayObject) (i : Nat) : Int := ((a.dims.getD i 0 : Nat) : Int)

/-- The value `PyArray_NDIM(a)`. -/
def PyArray_NDIM (a : PyArrayObject) : Nat := a.dims.length

/-- A new array `PyArray_SimpleNew(nd, dims, type)`; its data is not
initialised, and is empty when a dimension is 0. -/
def PyArray_SimpleNew (dims : List Nat) (type : NPY_TYPES) : PyArrayObject :=
  ⟨dims, type, true, [], []⟩

/-- An argument parsed with `PyArray_Converter_leaveNone` into a
`PyArrayObject*` variable that starts as `NULL`: still `NULL`, `None`, or an
array. -/
inductive PyArrayArg
  | NULL
  | None
  | array (a : PyArrayObject)

/-- The macro `CHECK_LAYOUT` on an array argument declared with element type
`npy_type` and shape `dims_ref` (a negative entry means any size): `true` when
the macro falls through, `false` when it returns `false`.  On the arguments
declared with `npy_type = -1` the macro does nothing. -/
def CHECK_LAYOUT (x : PyArrayArg) (npy_type : NPY_TYPES) (dims_ref : List Int) : Bool :=
  match x with
  | PyArrayArg.array a =>
    (if 0 < dims_ref.length then
       decide (PyArray_NDIM a = dims_ref.length) &&
       (List.range dims_ref.length).all fun i =>
         !(decide (0 ≤ dims_ref.getD i 0) && decide (dims_ref.getD i 0 ≠ PyArray_DIMS a i))
     else true) &&
    decide (a.type = npy_type) && a.c_contiguous
  | _ => true

/-! ## `optimize`: building the observation records -/

/-- The number `Nskipped_observations_board` (and `..._point`) of `optimize`:
0 for an absent or `None` list, else `(int)PySequence_Size(...)`. -/
def Nskipped_observations (skipped : Option PyObject) : Int :=
  match skipped with
  | none => 0
  | some Py_None => 0
  | some o => PySequence_Size o

/-- The read `(int)PyInt_AsLong(PySequence_GetItem(skipped, i))`. -/
def next_skip (skipped : Option PyObject) (i : Nat) : Int :=
  match skipped with
  | none => -1
  | some o => to_int (PyInt_AsLong (PySequence_GetItem o i))

/-- The element `((int*)PyArray_DATA(a))[i]` of the data of an index array. -/
def int_at (data : List Int) (i : Nat) : Int := data.getD i 0

/-- The local variables of the loop of `optimize` over the board
observations. -/
structure board_loop_state where
  c_observations_board : Nat → observation_board_t
  i_skipped_observation_board : Nat
  i_observation_board_next_skip : Int
  i_frame_current_skipped : Int
  i_frame_last : Int

/-- The inner loop
`for(k = n-1; k >= 0 && c[k].i_frame == i_frame_current_skipped; k--)
c[k].skip_frame = true;`, its first argument being `n`. -/
def mark_skip_frame (i_frame_current_skipped : Int) :
    Nat → (Nat → observation_board_t) → (Nat → observation_board_t)
  | 0, c => c
  | k + 1, c =>
    if (c k).i_frame = i_frame_current_skipped then
      mark_skip_frame i_frame_current_skipped k
        (Function.update c k { c k with skip_frame := true })
    else c

/-- The state of the board loop before its first iteration; `stack` is the
content of the array `c_observations_board`, which is not initialised. -/
def board_loop_init (stack : Nat → observation_board_t) (skipped : Option PyObject) :
    board_loop_state :=
  { c_observations_board := stack
    i_skipped_observation_board := 0
    i_observation_board_next_skip :=
      if (0 : Int) < Nskipped_observations skipped then next_skip skipped 0 else -1
    i_frame_current_skipped := -1
    i_frame_last := -1 }

/-- One iteration of the loop of `optimize` over the board observations, for
the observation `i_observation`.  The offset `px` is an index into the data of
`observations_board` and is kept as the product of the three numbers, as the
sizes of arrays are. -/
def board_loop_body (indices_frame_camera_board : List Int) (skipped : Option PyObject)
    (c_calibration_object_width_n : Int) (i_observation : Nat) (s : board_loop_state) :
    board_loop_state :=
  let i_frame := int_at indices_frame_camera_board (i_observation * 2 + 0)
  let i_camera := int_at indices_frame_camera_board (i_observation * 2 + 1)
  let c1 := Function.update s.c_observations_board i_observation
    { s.c_observations_board i_observation with
      i_camera := to_bitfield31 i_camera
      i_frame := to_bitfield31 i_frame
      px := c_calibration_object_width_n * c_calibration_object_width_n * i_observation }
  let c2 :=
    if 0 ≤ s.i_frame_current_skipped ∧ s.i_frame_current_skipped ≠ i_frame then
      mark_skip_frame s.i_frame_current_skipped i_observation c1
    else
      Function.update c1 i_observation { c1 i_observation with skip_frame := false }
  if (i_observation : Int) = s.i_observation_board_next_skip then
    let i_skipped := s.i_skipped_observation_board + 1
    { c_observations_board :=
        Function.update c2 i_observation { c2 i_observation with skip_observation := true }
      i_skipped_observation_board := i_skipped
      i_observation_board_next_skip :=
        if (i_skipped : Int) < Nskipped_observations skipped then next_skip skipped i_skipped
        else -1
      i_frame_current_skipped :=
        if s.i_frame_last ≠ i_frame then i_frame else s.i_frame_current_skipped
      i_frame_last := i_frame }
  else
    { c_observations_board :=
        Function.update c2 i_observation { c2 i_observation with skip_observation := false }
      i_skipped_observation_board := s.i_skipped_observation_board
      i_observation_board_next_skip := s.i_observation_board_next_skip
      i_frame_current_skipped := -1
      i_frame_last := i_frame }

/-- The state of the board loop after its first `n` iterations. -/
def board_loop (stack : Nat → observation_board_t) (indices_frame_camera_board : List Int)
    (skipped : Option PyObject) (c_calibration_object_width_n : Int) : Nat → board_loop_state
  | 0 => board_loop_init stack skipped
  | n + 1 =>
    board_loop_body indices_frame_camera_board skipped c_calibration_object_width_n n
      (board_loop stack indices_frame_camera_board skipped c_calibration_object_width_n n)

/-- The array `c_observations_board` that `optimize` hands to the solver: the
loop over the `NobservationsBoard` observations, then the check for a frame
skip on the last observation. -/
def optimize_observations_board (stack : Nat → observation_board_t)
    (NobservationsBoard : Nat) (indices_frame_camera_board : List Int)
    (skipped_observations_board : Option PyObject) (c_calibration_object_width_n : Int) :
    Nat → observation_board_t :=
  let s := board_loop stack indices_frame_camera_board skipped_observations_board
    c_calibration_object_width_n NobservationsBoard
  if 0 ≤ s.i_frame_current_skipped then
    mark_skip_frame s.i_frame_current_skipped NobservationsBoard s.c_observations_board
  else s.c_observations_board

/-- The local variables of the loop of `optimize` over the point
observations. -/
structure point_loop_state where
  c_observations_point : Nat → observation_point_t
  i_skipped_observation_point : Nat
  i_observation_point_next_skip : Int
  i_point_current_skipped : Int
  i_point_last : Int

/-- The inner loop
`for(k = n-1; k >= 0 && c[k].i_point == i_point_current_skipped; k--)
c[k].skip_point = true;`, its first argument being `n`. -/
def mark_skip_point (i_point_current_skipped : Int) :
    Nat → (Nat → observation_point_t) → (Nat → observation_point_t)
  | 0, c => c
  | k + 1, c =>
    if (c k).i_point = i_point_current_skipped then
      mark_skip_point i_point_current_skipped k
        (Function.update c k { c k with skip_point := true })
    else c

/-- The state of the point loop before its first iteration; `stack` is the
content of the array `c_observations_point`, which is not initialised. -/
def point_loop_init (stack : Nat → observation_point_t) (skipped : Option PyObject) :
    point_loop_state :=
  { c_observations_point := stack
    i_skipped_observation_point := 0
    i_observation_point_next_skip :=
      if (0 : Int) < Nskipped_observations skipped then next_skip skipped 0 else -1
    i_point_current_skipped := -1
    i_point_last := -1 }

/-- One iteration of the loop of `optimize` over the point observations, for
the observation `i_observation`. -/
def point_loop_body (indices_point_camera_points : List Int) (observations_point : List double)
    (skipped : Option PyObject) (i_observation : Nat) (s : point_loop_state) :
    point_loop_state :=
  let i_point := int_at indices_point_camera_points (i_observation * 2 + 0)
  let i_camera := int_at indices_point_camera_points (i_observation * 2 + 1)
  let c1 := Function.update s.c_observations_point i_observation
    { s.c_observations_point i_observation with
      i_camera := to_bitfield31 i_camera
      i_point := to_bitfield31 i_point
      px := (observations_point.getD (i_observation * 3) double.zero,
             observations_point.getD (i_observation * 3 + 1) double.zero)
      dist := observations_point.getD (i_observation * 3 + 2) double.zero }
  let c2 :=
    if 0 ≤ s.i_point_current_skipped ∧ s.i_point_current_skipped ≠ i_point then
      mark_skip_point s.i_point_current_skipped i_observation c1
    else
      Function.update c1 i_observation { c1 i_observation with skip_point := false }
  if (i_observation : Int) = s.i_observation_point_next_skip then
    let i_skipped := s.i_skipped_observation_point + 1
    { c_observations_point :=
        Function.update c2 i_observation { c2 i_observation with skip_observation := true }
      i_skipped_observation_point := i_skipped
      i_observation_point_next_skip :=
        if (i_skipped : Int) < Nskipped_observations skipped then next_skip skipped i_skipped
        else -1
      i_point_current_skipped :=
        if s.i_point_last ≠ i_point then i_point else s.i_point_current_skipped
      i_point_last := i_point }
  else
    { c_observations_point :=
        Function.update c2 i_observation { c2 i_observation with skip_observation := false }
      i_skipped_observation_point := s.i_skipped_observation_point
      i_observation_point_next_skip := s.i_observation_point_next_skip
      i_point_current_skipped := -1
      i_point_last := i_point }

/-- The state of the point loop after its first `n` iterations. -/
def point_loop (stack : Nat → observation_point_t) (indices_point_camera_points : List Int)
    (observations_point : List double) (skipped : Option PyObject) : Nat → point_loop_state
  | 0 => point_loop_init stack skipped
  | n + 1 =>
    point_loop_body indices_point_camera_points observations_point skipped n
      (point_loop stack indices_point_camera_points observations_point skipped n)

/-- The array `c_observations_point` that `optimize` hands to the solver: the
loop over the `NobservationsPoint` observations, then the check for a point
skip on the last observation. -/
def optimize_observations_point (stack : Nat → observation_point_t)
    (NobservationsPoint : Nat) (indices_point_camera_points : List Int)
    (observations_point : List double) (skipped_observations_point : Option PyObject) :
    Nat → observation_point_t :=
  let s := point_loop stack indices_point_camera_points observations_point
    skipped_observations_point NobservationsPoint
  if 0 ≤ s.i_point_current_skipped then
    mark_skip_point s.i_point_current_skipped NobservationsPoint s.c_observations_point
  else s.c_observations_point


/-! ## `optimize_validate_args` -/

/-- How a validation function ends: it returns `true` (with its output), it
sets a Python error and returns `false`, or it dereferences a pointer that is
`NULL` or inspects `None` as an array, which C leaves undefined. -/
inductive Outcome (α : Type)
  | ok (a : α)
  | fail
  | crash
  deriving DecidableEq

/-- Sequencing of two steps of a validation: the second runs only when the
first fell through. -/
def Outcome.bind {α β : Type} (x : Outcome α) (f : α → Outcome β) : Outcome β :=
  match x with
  | Outcome.ok a => f a
  | Outcome.fail => Outcome.fail
  | Outcome.crash => Outcome.crash

instance : Monad Outcome where
  pure := Outcome.ok
  bind := Outcome.bind

/-- The result of `PyArray_DIMS(x)` and the like on an argument: defined on an
array only. -/
def deref (x : PyArrayArg) : Outcome PyArrayObject :=
  match x with
  | PyArrayArg.array a => Outcome.ok a
  | _ => Outcome.crash

/-- The result of `Py_TYPE(x)` on a pointer: defined unless it is `NULL`. -/
def deref_object (x : Option PyObject) : Outcome PyObject :=
  match x with
  | some o => Outcome.ok o
  | none => Outcome.crash

/-- The arguments of `optimize` (`OPTIMIZE_ARGUMENTS_REQUIRED` then
`OPTIMIZE_ARGUMENTS_OPTIONAL`) after `PyArg_ParseTupleAndKeywords`.  An
optional argument the caller omits keeps its initial value. -/
structure optimize_arguments where
  intrinsics : PyArrayArg
  extrinsics : PyArrayArg
  frames : PyArrayArg
  points : PyArrayArg
  observations_board : PyArrayArg
  indices_frame_camera_board : PyArrayArg
  observations_point : PyArrayArg
  indices_point_camera_points : PyArrayArg
  distortion_model : PyObject
  observed_pixel_uncertainty : PyObject
  imagersizes : PyArrayArg
  do_optimize_intrinsic_core : PyObject := Py_True
  do_optimize_intrinsic_distortions : PyObject := Py_True
  do_optimize_extrinsics : PyObject := Py_True
  do_optimize_frames : PyObject := Py_True
  cahvor_radial_only : PyObject := Py_False
  skipped_observations_board : Option PyObject := none
  skipped_observations_point : Option PyObject := none
  calibration_object_spacing : Option PyObject := none
  calibration_object_width_n : Option PyObject := none
  outlier_indices : PyArrayArg := PyArrayArg.NULL
  roi : PyArrayArg := PyArrayArg.NULL
  VERBOSE : Option PyObject := none
  get_intrinsic_covariances : Option PyObject := none
  skip_outlier_rejection : Option PyObject := none
  skip_regularization : Option PyObject := none
  solver_context : Option PyObject := none

/-- The line `OPTIMIZE_ARGUMENTS_ALL(CHECK_LAYOUT)`: the layout check of every
array argument, in the order of the argument list. -/
def optimize_check_layout (a : optimize_arguments) : Bool :=
  CHECK_LAYOUT a.intrinsics NPY_DOUBLE [-1, -1] &&
  CHECK_LAYOUT a.extrinsics NPY_DOUBLE [-1, 6] &&
  CHECK_LAYOUT a.frames NPY_DOUBLE [-1, 6] &&
  CHECK_LAYOUT a.points NPY_DOUBLE [-1, 3] &&
  CHECK_LAYOUT a.observations_board NPY_DOUBLE [-1, -1, -1, -1] &&
  CHECK_LAYOUT a.indices_frame_camera_board NPY_INT [-1, 2] &&
  CHECK_LAYOUT a.observations_point NPY_DOUBLE [-1, 3] &&
  CHECK_LAYOUT a.indices_point_camera_points NPY_INT [-1, 2] &&
  CHECK_LAYOUT a.imagersizes NPY_INT [-1, 2] &&
  CHECK_LAYOUT a.outlier_indices NPY_INT [-1] &&
  CHECK_LAYOUT a.roi NPY_DOUBLE [-1, 4]

/-- The checks of `optimize_validate_args` on the number of cameras. -/
def validate_Ncameras (a : optimize_arguments) : Outcome Unit := do
  let intrinsics ← deref a.intrinsics
  let Ncameras := PyArray_DIMS intrinsics 0
  let extrinsics ← deref a.extrinsics
  if Ncameras - 1 ≠ PyArray_DIMS extrinsics 0 then Outcome.fail else
  let imagersizes ← deref a.imagersizes
  if PyArray_DIMS imagersizes 0 ≠ Ncameras then Outcome.fail else
  match a.roi with
  | PyArrayArg.array roi => if PyArray_DIMS roi 0 ≠ Ncameras then Outcome.fail else pure ()
  | _ => pure ()

/-- The checks of `optimize_validate_args` on the board observations and the
calibration object. -/
def validate_calibration_object (a : optimize_arguments) : Outcome Unit := do
  let observations_board ← deref a.observations_board
  let NobservationsBoard := PyArray_DIMS observations_board 0
  let indices_frame_camera_board ← deref a.indices_frame_camera_board
  if PyArray_DIMS indices_frame_camera_board 0 ≠ NobservationsBoard then Outcome.fail else
  if 0 < NobservationsBoard then
    let calibration_object_spacing ← deref_object a.calibration_object_spacing
    if !PyFloat_Check calibration_object_spacing then Outcome.fail else
    let c_calibration_object_spacing := PyFloat_AS_DOUBLE calibration_object_spacing
    if c_calibration_object_spacing.le_zero then Outcome.fail else
    let calibration_object_width_n ← deref_object a.calibration_object_width_n
    if !PyInt_Check calibration_object_width_n then Outcome.fail else
    let c_calibration_object_width_n := to_int (PyInt_AsLong calibration_object_width_n)
    if c_calibration_object_width_n ≤ 0 then Outcome.fail else
    if c_calibration_object_width_n ≠ PyArray_DIMS observations_board 1 ∨
       c_calibration_object_width_n ≠ PyArray_DIMS observations_board 2 then Outcome.fail
    else pure ()
  else pure ()

/-- The check of `optimize_validate_args` on the point observations. -/
def validate_NobservationsPoint (a : optimize_arguments) : Outcome Unit := do
  let observations_point ← deref a.observations_point
  let NobservationsPoint := PyArray_DIMS observations_point 0
  let indices_point_camera_points ← deref a.indices_point_camera_points
  if PyArray_DIMS indices_point_camera_points 0 ≠ NobservationsPoint then Outcome.fail
  else pure ()

/-- The checks of `optimize_validate_args` on the distortion model and the
width of `intrinsics`; the output is `*distortion_model_type`. -/
def validate_distortion_model (L : mrcal_library) (a : optimize_arguments) :
    Outcome distortion_model_t := do
  match PyString_AsString a.distortion_model with
  | none => Outcome.fail
  | some distortion_model_cstring =>
    let distortion_model_type := L.mrcal_distortion_model_from_name distortion_model_cstring
    if distortion_model_type = DISTORTION_INVALID then Outcome.fail else
    let NdistortionParams := L.mrcal_getNdistortionParams distortion_model_type
    let intrinsics ← deref a.intrinsics
    if N_INTRINSICS_CORE + NdistortionParams ≠ PyArray_DIMS intrinsics 1 then Outcome.fail
    else pure distortion_model_type

/-- The loop of `optimize_validate_args` over the items of a skip list,
`iskip_last` being the item before: `false` when the loop returns `false`. -/
def validate_skipped_loop : List PyObject → Int → Bool
  | [], _ => true
  | nextskip :: rest, iskip_last =>
    if !PyInt_Check nextskip then false
    else if PyInt_AsLong nextskip ≤ iskip_last then false
    else validate_skipped_loop rest (PyInt_AsLong nextskip)

/-- The check of `optimize_validate_args` on `skipped_observations_board`, and
the same check on `skipped_observations_point`: `false` when it returns
`false`. -/
def validate_skipped_observations (skipped : Option PyObject) : Bool :=
  match skipped with
  | none => true
  | some Py_None => true
  | some o =>
    if !PySequence_Check o then false
    else match sequence_items o with
      | some items => validate_skipped_loop items (-1)
      | none => false

/-- The check of `optimize_validate_args` on `observed_pixel_uncertainty`:
`false` when it returns `false`. -/
def validate_observed_pixel_uncertainty (observed_pixel_uncertainty : PyObject) : Bool :=
  if !PyFloat_Check observed_pixel_uncertainty then false
  else if (PyFloat_AS_DOUBLE observed_pixel_uncertainty).le_zero then false
  else true

/-- The check of `optimize_validate_args` on `solver_context`: `false` when it
returns `false`. -/
def validate_solver_context (solver_context : Option PyObject) : Bool :=
  match solver_context with
  | none => true
  | some Py_None => true
  | some o => is_SolverContext o

/-- The function `optimize_validate_args`, its checks in the order of the
source. -/
def optimize_validate_args (L : mrcal_library) (a : optimize_arguments) :
    Outcome distortion_model_t := do
  if !optimize_check_layout a then Outcome.fail else
  validate_Ncameras a
  validate_calibration_object a
  validate_NobservationsPoint a
  let distortion_model_type ← validate_distortion_model L a
  if !validate_skipped_observations a.skipped_observations_board then Outcome.fail else
  if !validate_skipped_observations a.skipped_observations_point then Outcome.fail else
  if !validate_observed_pixel_uncertainty a.observed_pixel_uncertainty then Outcome.fail else
  if !validate_solver_context a.solver_context then Outcome.fail else
  pure distortion_model_type

/-- The macro `SET_SIZE0_IF_NONE(x, type, dims...)`. -/
def SET_SIZE0_IF_NONE (x : PyArrayArg) (type : NPY_TYPES) (dims : List Nat) : PyArrayArg :=
  match x with
  | PyArrayArg.array a => PyArrayArg.array a
  | _ => PyArrayArg.array (PyArray_SimpleNew dims type)

/-- The arguments of `optimize` after its `SET_SIZE0_IF_NONE` lines. -/
def optimize_set_size0 (a : optimize_arguments) : optimize_arguments :=
  { a with
    extrinsics := SET_SIZE0_IF_NONE a.extrinsics NPY_DOUBLE [0, 6]
    frames := SET_SIZE0_IF_NONE a.frames NPY_DOUBLE [0, 6]
    observations_board := SET_SIZE0_IF_NONE a.observations_board NPY_DOUBLE [0, 179, 171, 2]
    indices_frame_camera_board := SET_SIZE0_IF_NONE a.indices_frame_camera_board NPY_INT [0, 2]
    points := SET_SIZE0_IF_NONE a.points NPY_DOUBLE [0, 3]
    observations_point := SET_SIZE0_IF_NONE a.observations_point NPY_DOUBLE [0, 3]
    indices_point_camera_points := SET_SIZE0_IF_NONE a.indices_point_camera_points NPY_INT [0, 2]
    imagersizes := SET_SIZE0_IF_NONE a.imagersizes NPY_INT [0, 2] }

/-! ## `project_validate_args` -/

/-- The arguments of `project` (`PROJECT_ARGUMENTS_REQUIRED` then
`PROJECT_ARGUMENTS_OPTIONAL`) after `PyArg_ParseTupleAndKeywords`. -/
structure project_arguments where
  points : PyArrayArg
  distortion_model : PyObject
  intrinsics : PyArrayArg
  get_gradients : PyObject := Py_False

/-- The function `project_validate_args`, its checks in the order of the
source; the output is `*distortion_model_type`. -/
def project_validate_args (L : mrcal_library) (a : project_arguments) :
    Outcome distortion_model_t := do
  if !(CHECK_LAYOUT a.points NPY_DOUBLE [] && CHECK_LAYOUT a.intrinsics NPY_DOUBLE []) then
    Outcome.fail else
  let intrinsics ← deref a.intrinsics
  if PyArray_NDIM intrinsics ≠ 1 then Outcome.fail else
  let points ← deref a.points
  if PyArray_NDIM points < 1 then Outcome.fail else
  if 3 ≠ PyArray_DIMS points (PyArray_NDIM points - 1) then Outcome.fail else
  match PyString_AsString a.distortion_model with
  | none => Outcome.fail
  | some distortion_model_cstring =>
    let distortion_model_type := L.mrcal_distortion_model_from_name distortion_model_cstring
    if distortion_model_type = DISTORTION_INVALID then Outcome.fail else
    let NdistortionParams := L.mrcal_getNdistortionParams distortion_model_type
    if N_INTRINSICS_CORE + NdistortionParams ≠ PyArray_DIMS intrinsics 0 then Outcome.fail
    else pure distortion_model_type

/-! ## Truth values, problem details, and the calls into the library -/

/-- The test `PyObject_IsTrue`, read as the C condition it is used as: `None`,
the int 0 (`False`), a zero float, an empty string and an empty list or tuple
are false; every other object is true, an object of another type being taken
to define neither `__nonzero__` nor `__len__`. -/
def PyObject_IsTrue : PyObject → Bool
  | Py_None => false
  | PyInt v => v != 0
  | PyFloat d => !d.isZero
  | PyString s => s != ""
  | PyList [] => false
  | PyList (_ :: _) => true
  | PySolverContext _ => true
  | PyOther => true

/-- The condition `x && PyObject_IsTrue(x)` on a pointer that may be `NULL`. -/
def set_and_true (x : Option PyObject) : Bool :=
  match x with
  | none => false
  | some o => PyObject_IsTrue o

/-- The macro `DO_OPTIMIZE_ALL`; the fields it does not name are zero. -/
def DO_OPTIMIZE_ALL : mrcal_variable_select :=
  { do_optimize_intrinsic_core := true
    do_optimize_intrinsic_distortions := true
    do_optimize_extrinsics := true
    do_optimize_frames := true
    cahvor_radial_only := false
    do_skip_regularization := false }

/-- The macro `IS_OPTIMIZE_NONE(x)`. -/
def IS_OPTIMIZE_NONE (x : mrcal_variable_select) : Bool :=
  !x.do_optimize_intrinsic_core && !x.do_optimize_intrinsic_distortions &&
  !x.do_optimize_extrinsics && !x.do_optimize_frames

/-- The record `struct mrcal_stats_t`: the items of `MRCAL_STATS_ITEM`, and
the count `NoutsideROI` that `optimize` reads from it. -/
structure mrcal_stats_t where
  rms_reproj_error__pixels : double
  Noutliers : Int
  NoutsideROI : Int

/-- The arguments of the call `mrcal_optimize(...)` in `optimize`, in the
order of the call.  An output buffer is the array that owns it (`none` for a
`NULL` buffer); `solver_context` is `none` for a `NULL` pointer and else the
value of the `ctx` it points to; `observations_board_data` is the data the
`px` of the board observations point into. -/
structure mrcal_optimize_call where
  x_final : PyArrayObject
  intrinsic_covariances : Option PyArrayObject
  outlier_indices_final : PyArrayObject
  outside_ROI_indices_final : PyArrayObject
  solver_context : Option (Option Nat)
  camera_intrinsics : List double
  camera_extrinsics : List double
  frames : List double
  points : List double
  Ncameras : Int
  Nframes : Int
  Npoints : Int
  observations_board : Nat → observation_board_t
  observations_board_data : List double
  NobservationsBoard : Int
  observations_point : Nat → observation_point_t
  NobservationsPoint : Int
  check_gradient : Bool
  Noutlier_indices : Int
  outlier_indices : Option (List Int)
  roi : Option (List double)
  VERBOSE : Bool
  skip_outlier_rejection : Bool
  distortion_model : distortion_model_t
  observed_pixel_uncertainty : double
  imagersizes : List Int
  problem_details : mrcal_variable_select
  calibration_object_spacing : double
  calibration_object_width_n : Int

/-- What `mrcal_optimize` leaves behind: the statistics it returns, the
contents of its output buffers, the `ctx` behind the context pointer, and the
state arrays, which are a seed on input and the solution on output. -/
structure mrcal_optimize_result where
  stats : mrcal_stats_t
  x_final : List double
  intrinsic_covariances : List double
  outlier_indices_final : List Int
  outside_ROI_indices_final : List Int
  solver_context : Option Nat
  camera_intrinsics : List double
  camera_extrinsics : List double
  frames : List double
  points : List double

/-- The arguments of the call `mrcal_project(...)` in `project`, in the order
of the call; an output buffer is the array that owns it, `none` for `NULL`. -/
structure mrcal_project_call where
  out : PyArrayObject
  dxy_dintrinsics : Option PyArrayObject
  dxy_dp : Option PyArrayObject
  p : List double
  N : Int
  distortion_model : distortion_model_t
  intrinsics : List double

/-- The contents of the output buffers of `mrcal_project` on return. -/
structure mrcal_project_result where
  out : List double
  dxy_dintrinsics : List double
  dxy_dp : List double

/-- The arguments of the call `mrcal_queryIntrinsicOutliernessAt(...)` in
`queryIntrinsicOutliernessAt`, in the order of the call. -/
structure mrcal_query_call where
  traces : PyArrayObject
  distortion_model : distortion_model_t
  do_optimize_intrinsic_core : Bool
  do_optimize_intrinsic_distortions : Bool
  cahvor_radial_only : Bool
  i_camera : Int
  v : List double
  N : Int
  Noutliers : Int
  ctx : Option Nat

/-- The solver functions of the library that the wrapper calls and whose
bodies are not part of the sources at hand; the wrapper is embedded over any
implementation of them.  `mrcal_queryIntrinsicOutliernessAt` gives `none` when
it returns `false`, else the contents of `traces`. -/
structure mrcal_solver where
  mrcal_getNmeasurements : Int → Int → (Nat → observation_point_t) → Int → Int →
    mrcal_variable_select → distortion_model_t → Int
  mrcal_getNintrinsicParams : distortion_model_t → Int
  mrcal_optimize : mrcal_optimize_call → mrcal_optimize_result
  mrcal_project : mrcal_project_call → mrcal_project_result
  mrcal_queryIntrinsicOutliernessAt : mrcal_query_call → Option (List double)

/-! ## `optimize` -/

/-- The array `keywords[]` of `optimize`: `OPTIMIZE_ARGUMENTS_REQUIRED(NAMELIST)`
then `OPTIMIZE_ARGUMENTS_OPTIONAL(NAMELIST)`.  `PyArg_ParseTupleAndKeywords`
takes a keyword argument under these names only. -/
def optimize_keywords : List String :=
  ["intrinsics", "extrinsics", "frames", "points", "observations_board",
   "indices_frame_camera_board", "observations_point", "indices_point_camera_points",
   "distortion_model", "observed_pixel_uncertainty", "imagersizes",
   "do_optimize_intrinsic_core", "do_optimize_intrinsic_distortions",
   "do_optimize_extrinsics", "do_optimize_frames", "cahvor_radial_only",
   "skipped_observations_board", "skipped_observations_point",
   "calibration_object_spacing", "calibration_object_width_n", "outlier_indices", "roi",
   "VERBOSE", "get_intrinsic_covariances", "skip_outlier_rejection", "skip_regularization",
   "solver_context"]

/-- The initialiser of `problem_details` in `optimize`. -/
def optimize_problem_details (a : optimize_arguments) : mrcal_variable_select :=
  { do_optimize_intrinsic_core := PyObject_IsTrue a.do_optimize_intrinsic_core
    do_optimize_intrinsic_distortions := PyObject_IsTrue a.do_optimize_intrinsic_distortions
    do_optimize_extrinsics := PyObject_IsTrue a.do_optimize_extrinsics
    do_optimize_frames := PyObject_IsTrue a.do_optimize_frames
    cahvor_radial_only := PyObject_IsTrue a.cahvor_radial_only
    do_skip_regularization := set_and_true a.skip_regularization }

/-- The arrays that the block of `optimize` after the validation reads with
`PyArray_DIMS` and `PyArray_DATA`. -/
structure optimize_arrays where
  intrinsics : PyArrayObject
  extrinsics : PyArrayObject
  frames : PyArrayObject
  points : PyArrayObject
  observations_board : PyArrayObject
  indices_frame_camera_board : PyArrayObject
  observations_point : PyArrayObject
  indices_point_camera_points : PyArrayObject
  imagersizes : PyArrayObject

/-- The reads of the array arguments in `optimize`: each is defined on an
array only. -/
def optimize_deref (a : optimize_arguments) : Outcome optimize_arrays := do
  let intrinsics ← deref a.intrinsics
  let frames ← deref a.frames
  let points ← deref a.points
  let observations_board ← deref a.observations_board
  let observations_point ← deref a.observations_point
  let extrinsics ← deref a.extrinsics
  let indices_frame_camera_board ← deref a.indices_frame_camera_board
  let indices_point_camera_points ← deref a.indices_point_camera_points
  let imagersizes ← deref a.imagersizes
  pure ⟨intrinsics, extrinsics, frames, points, observations_board,
    indices_frame_camera_board, observations_point, indices_point_camera_points, imagersizes⟩

/-- The value `c_calibration_object_spacing` of `optimize`.  With board
observations the validation has left a float behind the pointer. -/
def optimize_calibration_object_spacing (a : optimize_arguments) (NobservationsBoard : Int) :
    double :=
  if NobservationsBoard ≠ 0 then
    match a.calibration_object_spacing with
    | some o => if PyFloat_Check o then PyFloat_AS_DOUBLE o else double.zero
    | none => double.zero
  else double.zero

/-- The value `c_calibration_object_width_n` of `optimize`.  With board
observations the validation has left an int behind the pointer. -/
def optimize_calibration_object_width_n (a : optimize_arguments) (NobservationsBoard : Int) :
    Int :=
  if NobservationsBoard ≠ 0 then
    match a.calibration_object_width_n with
    | some o => if PyInt_Check o then to_int (PyInt_AsLong o) else 0
    | none => 0
  else 0

/-- The call `PyArray_SimpleNew(nd, dims, type)` on computed dimensions: it
returns `NULL` (`none`) when a dimension is negative. -/
def PyArray_SimpleNew_checked (dims : List Int) (type : NPY_TYPES) : Option PyArrayObject :=
  if dims.all fun d => decide (0 ≤ d) then some (PyArray_SimpleNew (dims.map Int.toNat) type)
  else none

/-- The read `PyArray_DATA(x)` of an array just made: defined unless `x` is
`NULL`. -/
def deref_new (x : Option PyArrayObject) : Outcome PyArrayObject :=
  match x with
  | some a => Outcome.ok a
  | none => Outcome.crash

/-- The output arrays that `optimize` makes for the solver. -/
structure optimize_buffers where
  x_final : PyArrayObject
  intrinsic_covariances : Option PyArrayObject
  outlier_indices_final : PyArrayObject
  outside_ROI_indices_final : PyArrayObject

/-- The array `c_observations_point` of `optimize`. -/
def optimize_c_observations_point (stack_point : Nat → observation_point_t)
    (a : optimize_arguments) (arrays : optimize_arrays) : Nat → observation_point_t :=
  optimize_observations_point stack_point (PyArray_DIMS arrays.observations_point 0).toNat
    arrays.indices_point_camera_points.int_data arrays.observations_point.double_data
    a.skipped_observations_point

/-- The count `Nmeasurements` of `optimize`. -/
def optimize_Nmeasurements (S : mrcal_solver) (stack_point : Nat → observation_point_t)
    (a : optimize_arguments) (arrays : optimize_arrays)
    (distortion_model_type : distortion_model_t) : Int :=
  let NobservationsBoard := PyArray_DIMS arrays.observations_board 0
  S.mrcal_getNmeasurements (PyArray_DIMS arrays.intrinsics 0) NobservationsBoard
    (optimize_c_observations_point stack_point a arrays)
    (PyArray_DIMS arrays.observations_point 0)
    (optimize_calibration_object_width_n a NobservationsBoard)
    (optimize_problem_details a) distortion_model_type

/-- The count `Npoints_fromBoards` of `optimize`: the product
`NobservationsBoard * c_calibration_object_width_n * c_calibration_object_width_n`
of three `int`s, computed in `int` from left to right. -/
def optimize_Npoints_fromBoards (a : optimize_arguments) (arrays : optimize_arrays) : Int :=
  let NobservationsBoard := PyArray_DIMS arrays.observations_board 0
  let c_calibration_object_width_n := optimize_calibration_object_width_n a NobservationsBoard
  to_int (to_int (NobservationsBoard * c_calibration_object_width_n) *
    c_calibration_object_width_n)

/-- The output arrays of `optimize`, in the order it makes them: `x_final`,
`intrinsic_covariances` when asked for, `outlier_indices_final` and
`outside_ROI_indices_final`. -/
def optimize_allocate (S : mrcal_solver) (stack_point : Nat → observation_point_t)
    (a : optimize_arguments) (arrays : optimize_arrays)
    (distortion_model_type : distortion_model_t) : Outcome optimize_buffers := do
  let Ncameras := PyArray_DIMS arrays.intrinsics 0
  let Nmeasurements := optimize_Nmeasurements S stack_point a arrays distortion_model_type
  let x_final ← deref_new (PyArray_SimpleNew_checked [Nmeasurements] NPY_DOUBLE)
  let Nintrinsics_all := S.mrcal_getNintrinsicParams distortion_model_type
  let intrinsic_covariances ←
    if Nintrinsics_all ≠ 0 ∧ set_and_true a.get_intrinsic_covariances = true then do
      let c ← deref_new
        (PyArray_SimpleNew_checked [Ncameras, Nintrinsics_all, Nintrinsics_all] NPY_DOUBLE)
      pure (some c)
    else pure none
  let Npoints_fromBoards := optimize_Npoints_fromBoards a arrays
  let outlier_indices_final ← deref_new (PyArray_SimpleNew_checked [Npoints_fromBoards] NPY_INT)
  let outside_ROI_indices_final ←
    deref_new (PyArray_SimpleNew_checked [Npoints_fromBoards] NPY_INT)
  pure ⟨x_final, intrinsic_covariances, outlier_indices_final, outside_ROI_indices_final⟩

/-- The pointer `solver_context_optimizer` of `optimize`: `NULL` unless a
context is given, then the address of its `ctx`.  The validation has left no
object other than `None` and a `SolverContext`. -/
def optimize_solver_context_optimizer (a : optimize_arguments) : Option (Option Nat) :=
  match a.solver_context with
  | some (PySolverContext c) => some c.ctx
  | _ => none

/-- The data and the length handed over for an optional input array: `NULL`
and 0 when the argument is `NULL` or `None`. -/
def optional_array (x : PyArrayArg) : Option PyArrayObject :=
  match x with
  | PyArrayArg.array a => some a
  | _ => none

/-- The call of `mrcal_optimize` in `optimize`. -/
def optimize_call (stack_board : Nat → observation_board_t)
    (stack_point : Nat → observation_point_t) (a : optimize_arguments)
    (arrays : optimize_arrays) (distortion_model_type : distortion_model_t)
    (buffers : optimize_buffers) : mrcal_optimize_call :=
  let NobservationsBoard := PyArray_DIMS arrays.observations_board 0
  let c_calibration_object_width_n := optimize_calibration_object_width_n a NobservationsBoard
  { x_final := buffers.x_final
    intrinsic_covariances := buffers.intrinsic_covariances
    outlier_indices_final := buffers.outlier_indices_final
    outside_ROI_indices_final := buffers.outside_ROI_indices_final
    solver_context := optimize_solver_context_optimizer a
    camera_intrinsics := arrays.intrinsics.double_data
    camera_extrinsics := arrays.extrinsics.double_data
    frames := arrays.frames.double_data
    points := arrays.points.double_data
    Ncameras := PyArray_DIMS arrays.intrinsics 0
    Nframes := PyArray_DIMS arrays.frames 0
    Npoints := PyArray_DIMS arrays.points 0
    observations_board :=
      optimize_observations_board stack_board NobservationsBoard.toNat
        arrays.indices_frame_camera_board.int_data a.skipped_observations_board
        c_calibration_object_width_n
    observations_board_data := arrays.observations_board.double_data
    NobservationsBoard := NobservationsBoard
    observations_point := optimize_c_observations_point stack_point a arrays
    NobservationsPoint := PyArray_DIMS arrays.observations_point 0
    check_gradient := false
    Noutlier_indices :=
      match optional_array a.outlier_indices with
      | some outlier_indices => PyArray_DIMS outlier_indices 0
      | none => 0
    outlier_indices := (optional_array a.outlier_indices).map fun x => x.int_data
    roi := (optional_array a.roi).map fun x => x.double_data
    VERBOSE := set_and_true a.VERBOSE
    skip_outlier_rejection := set_and_true a.skip_outlier_rejection
    distortion_model := distortion_model_type
    observed_pixel_uncertainty := PyFloat_AS_DOUBLE a.observed_pixel_uncertainty
    imagersizes := arrays.imagersizes.int_data
    problem_details := optimize_problem_details a
    calibration_object_spacing := optimize_calibration_object_spacing a NobservationsBoard
    calibration_object_width_n := c_calibration_object_width_n }

/-- The block of `optimize` between the validation and the call of the
solver: the call it arrives at. -/
def optimize_solve (S : mrcal_solver) (stack_board : Nat → observation_board_t)
    (stack_point : Nat → observation_point_t) (a : optimize_arguments)
    (distortion_model_type : distortion_model_t) : Outcome mrcal_optimize_call := do
  let arrays ← optimize_deref a
  let buffers ← optimize_allocate S stack_point a arrays distortion_model_type
  pure (optimize_call stack_board stack_point a arrays distortion_model_type buffers)

/-- A value of the dictionary `pystats`: a Python object or an array. -/
inductive dict_value
  | object (o : PyObject)
  | array (a : PyArrayObject)

/-- The call `PyArray_Resize(a, n)` of a 1-dimensional array of `int` to `n`
elements: `NULL` (`none`) when `n` is negative, else the first `n` elements,
with zeros after the last one the array had. -/
def PyArray_Resize (a : PyArrayObject) (n : Int) : Option PyArrayObject :=
  if n < 0 then none
  else some { a with
    dims := [n.toNat]
    int_data := a.int_data.take n.toNat ++ List.replicate (n.toNat - a.int_data.length) 0 }

/-- The dictionary `pystats` that `optimize` returns, as the list of its
items in the order they are set; `none` when `optimize` reaches `done` with
`result` still `NULL`. -/
def optimize_pystats (call : mrcal_optimize_call) (r : mrcal_optimize_result) :
    Option (List (String × dict_value)) :=
  let stats_items :=
    [("rms_reproj_error__pixels", dict_value.object (PyFloat r.stats.rms_reproj_error__pixels)),
     ("Noutliers", dict_value.object (PyInt r.stats.Noutliers)),
     ("x", dict_value.array { call.x_final with double_data := r.x_final })]
  let covariances_items :=
    match call.intrinsic_covariances with
    | some c =>
      [("intrinsic_covariances", dict_value.array { c with double_data := r.intrinsic_covariances })]
    | none => []
  match PyArray_Resize { call.outlier_indices_final with int_data := r.outlier_indices_final }
      r.stats.Noutliers with
  | none => none
  | some outlier_indices_final =>
    match PyArray_Resize
        { call.outside_ROI_indices_final with int_data := r.outside_ROI_indices_final }
        r.stats.NoutsideROI with
    | none => none
    | some outside_ROI_indices_final =>
      some (stats_items ++ covariances_items ++
        [("outlier_indices", dict_value.array outlier_indices_final),
         ("outside_ROI_indices", dict_value.array outside_ROI_indices_final)])

/-- What a call of `optimize` that returns leaves behind: the object it
returns (`none` is `NULL`, the failure indicator), the call of the solver it
made if it made one, the caller's state arrays, and the caller's solver
context. -/
structure optimize_return where
  result : Option (List (String × dict_value))
  solver_call : Option mrcal_optimize_call
  intrinsics : PyArrayArg
  extrinsics : PyArrayArg
  frames : PyArrayArg
  points : PyArrayArg
  solver_context : Option PyObject

/-- An array of the caller after the solver has written `data` through its
data pointer; an argument that is not an array is not written to. -/
def written (x : PyArrayArg) (data : List double) : PyArrayArg :=
  match x with
  | PyArrayArg.array a => PyArrayArg.array { a with double_data := data }
  | other => other

/-- The caller's solver context after `optimize` has stored the settings of
the solve in it and the solver has left `ctx` behind the context pointer. -/
def optimize_solver_context (a : optimize_arguments)
    (distortion_model_type : distortion_model_t) (ctx : Option Nat) : Option PyObject :=
  match a.solver_context with
  | some (PySolverContext _) =>
    some (PySolverContext
      { ctx := ctx
        distortion_model := distortion_model_type
        do_optimize_intrinsic_core := (optimize_problem_details a).do_optimize_intrinsic_core
        do_optimize_intrinsic_distortions :=
          (optimize_problem_details a).do_optimize_intrinsic_distortions
        cahvor_radial_only := (optimize_problem_details a).cahvor_radial_only })
  | other => other

/-- The function `optimize` on parsed arguments: the `SET_SIZE0_IF_NONE`
lines, the validation (`goto done` when it fails), the call of the solver,
the dictionary.  `Outcome.crash` is a call whose behaviour C leaves
undefined; a call that returns is `Outcome.ok`. -/
def optimize (L : mrcal_library) (S : mrcal_solver) (stack_board : Nat → observation_board_t)
    (stack_point : Nat → observation_point_t) (a0 : optimize_arguments) :
    Outcome optimize_return :=
  let a := optimize_set_size0 a0
  match optimize_validate_args L a with
  | Outcome.crash => Outcome.crash
  | Outcome.fail =>
    Outcome.ok ⟨none, none, a0.intrinsics, a0.extrinsics, a0.frames, a0.points, a0.solver_context⟩
  | Outcome.ok distortion_model_type =>
    match optimize_solve S stack_board stack_point a distortion_model_type with
    | Outcome.ok call =>
      let r := S.mrcal_optimize call
      Outcome.ok
        { result := optimize_pystats call r
          solver_call := some call
          intrinsics := written a0.intrinsics r.camera_intrinsics
          extrinsics := written a0.extrinsics r.camera_extrinsics
          frames := written a0.frames r.frames
          points := written a0.points r.points
          solver_context := optimize_solver_context a distortion_model_type r.solver_context }
    | _ => Outcome.crash

/-! ## `project` -/

/-- The number `PyArray_SIZE(a)` of elements of an array. -/
def PyArray_SIZE (a : PyArrayObject) : Nat := a.dims.prod

/-- The object that `project` returns: one array, or a tuple of arrays. -/
inductive project_result
  | array (out : PyArrayObject)
  | tuple (items : List PyArrayObject)

/-- What a call of `project` that returns leaves behind: the object it
returns (`none` is `NULL`, the failure indicator) and the call of
`mrcal_project` it made, if it made one. -/
structure project_return where
  result : Option project_result
  kernel_call : Option mrcal_project_call

/-- The pointer `get_gradients` of `project`: it starts as `Py_False` and the
parser stores an object in it, so it is never `NULL`. -/
def get_gradients_pointer (a : project_arguments) : Option PyObject := some a.get_gradients

/-- The loop `for(i = 0; i < Nleading_dims; i++) Npoints *= leading_dims[i]`
of `project`, from `Npoints = 1`. -/
def project_Npoints (leading_dims : List Nat) (Nleading_dims : Nat) : Int :=
  (List.range Nleading_dims).foldl (fun Npoints i => Npoints * (leading_dims.getD i 0 : Nat)) 1

/-- The function `project` on parsed arguments: the validation (`goto done`
when it fails), the output arrays, the call of `mrcal_project`, the object
returned. -/
def project (L : mrcal_library) (S : mrcal_solver) (a : project_arguments) :
    Outcome project_return :=
  match project_validate_args L a with
  | Outcome.crash => Outcome.crash
  | Outcome.fail => Outcome.ok ⟨none, none⟩
  | Outcome.ok distortion_model_type => do
    let intrinsics ← deref a.intrinsics
    let points ← deref a.points
    let Nintrinsics := PyArray_DIMS intrinsics 0
    let leading_dims := points.dims
    let Nleading_dims := PyArray_NDIM points - 1
    let Npoints := project_Npoints leading_dims Nleading_dims
    let dims := leading_dims.take Nleading_dims
    let out := PyArray_SimpleNew (dims ++ [2]) NPY_DOUBLE
    let dxy_dintrinsics :=
      match get_gradients_pointer a with
      | some _ => some (PyArray_SimpleNew (dims ++ [2, Nintrinsics.toNat]) NPY_DOUBLE)
      | none => none
    let dxy_dp :=
      match get_gradients_pointer a with
      | some _ => some (PyArray_SimpleNew (dims ++ [2, 3]) NPY_DOUBLE)
      | none => none
    let call : mrcal_project_call :=
      { out := out
        dxy_dintrinsics := (get_gradients_pointer a).bind fun _ => dxy_dintrinsics
        dxy_dp := (get_gradients_pointer a).bind fun _ => dxy_dp
        p := points.double_data
        N := Npoints
        distortion_model := distortion_model_type
        intrinsics := intrinsics.double_data }
    let r := S.mrcal_project call
    let out := { out with double_data := r.out }
    let dxy_dintrinsics := dxy_dintrinsics.map fun x => { x with double_data := r.dxy_dintrinsics }
    let dxy_dp := dxy_dp.map fun x => { x with double_data := r.dxy_dp }
    if PyObject_IsTrue a.get_gradients then
      match dxy_dintrinsics, dxy_dp with
      | some dxy_dintrinsics, some dxy_dp =>
        pure ⟨some (project_result.tuple [out, dxy_dintrinsics, dxy_dp]), some call⟩
      | _, _ => Outcome.crash
    else pure ⟨some (project_result.array out), some call⟩

/-! ## `queryIntrinsicOutliernessAt` -/

/-- The arguments of `queryIntrinsicOutliernessAt` (`QIOA_ARGUMENTS_REQUIRED`
then `QIOA_ARGUMENTS_OPTIONAL`) after `PyArg_ParseTupleAndKeywords`;
`solver_context` is `none` while the pointer is `NULL`. -/
structure qioa_arguments where
  v : PyArrayArg
  i_camera : Int
  solver_context : Option PyObject
  Noutliers : Int := 0

/-- The function `queryIntrinsicOutliernessAt_validate_args`, its checks in
the order of the source. -/
def queryIntrinsicOutliernessAt_validate_args (a : qioa_arguments) : Outcome Unit := do
  let v ← deref a.v
  if PyArray_NDIM v < 1 then Outcome.fail else
  if 3 ≠ PyArray_DIMS v (PyArray_NDIM v - 1) then Outcome.fail else
  if !CHECK_LAYOUT a.v NPY_DOUBLE [] then Outcome.fail else
  if a.i_camera < 0 then Outcome.fail else
  match a.solver_context with
  | none => Outcome.fail
  | some Py_None => Outcome.fail
  | some (PySolverContext c) => if c.ctx = none then Outcome.fail else pure ()
  | some _ => Outcome.fail

/-- What a call of `queryIntrinsicOutliernessAt` that returns leaves behind:
the array it returns (`none` is `NULL`, the failure indicator) and the call of
`mrcal_queryIntrinsicOutliernessAt` it made, if it made one. -/
structure qioa_return where
  result : Option PyArrayObject
  query_call : Option mrcal_query_call

/-- The function `queryIntrinsicOutliernessAt` on parsed arguments: the
validation (`goto done` when it fails), the array `traces`, the call of
`mrcal_queryIntrinsicOutliernessAt`, the object returned. -/
def queryIntrinsicOutliernessAt (S : mrcal_solver) (a : qioa_arguments) : Outcome qioa_return :=
  match queryIntrinsicOutliernessAt_validate_args a with
  | Outcome.crash => Outcome.crash
  | Outcome.fail => Outcome.ok ⟨none, none⟩
  | Outcome.ok _ => do
    let v ← deref a.v
    let N : Int := ((PyArray_SIZE v / 3 : Nat) : Int)
    let traces := PyArray_SimpleNew (v.dims.take (PyArray_NDIM v - 1)) NPY_DOUBLE
    let solver_context ← deref_object a.solver_context
    match solver_context with
    | PySolverContext c =>
      let call : mrcal_query_call :=
        { traces := traces
          distortion_model := c.distortion_model
          do_optimize_intrinsic_core := c.do_optimize_intrinsic_core
          do_optimize_intrinsic_distortions := c.do_optimize_intrinsic_distortions
          cahvor_radial_only := c.cahvor_radial_only
          i_camera := a.i_camera
          v := v.double_data
          N := N
          Noutliers := a.Noutliers
          ctx := c.ctx }
      match S.mrcal_queryIntrinsicOutliernessAt call with
      | none => pure ⟨none, some call⟩
      | some data => pure ⟨some { traces with double_data := data }, some call⟩
    | _ => Outcome.crash

/-! ## `getNextDistortionModel` -/

/-- The functions of the distortion registry that `getNextDistortionModel`
calls besides `mrcal_distortion_model_from_name`, and whose bodies are not
part of the sources at hand; the wrapper is embedded over any implementation
of them.  `mrcal_distortion_model_name` gives `none` for a `NULL` string. -/
structure mrcal_registry where
  mrcal_getNextDistortionModel : distortion_model_t → distortion_model_t → distortion_model_t
  mrcal_distortion_model_name : distortion_model_t → Option String

/-- The test `PyString_Check`: the format unit `S` of `PyArg_ParseTuple` takes
a string object only. -/
def PyString_Check : PyObject → Bool
  | PyString _ => true
  | _ => false

/-- The call `Py_BuildValue("s", name)`: a string object, and `None` for a
`NULL` string. -/
def Py_BuildValue_s (name : Option String) : PyObject :=
  match name with
  | some s => PyString s
  | none => Py_None

/-- The function `getNextDistortionModel` on its two arguments: the parse with
the format `"SS"`, then the checks in the order of the source; `none` is
`NULL`, the failure indicator. -/
def getNextDistortionModel (L : mrcal_library) (R : mrcal_registry)
    (distortion_model_now_string distortion_model_final_string : PyObject) : Option PyObject :=
  if !(PyString_Check distortion_model_now_string &&
      PyString_Check distortion_model_final_string) then none else
  match PyString_AsString distortion_model_now_string with
  | none => none
  | some distortion_model_now_cstring =>
    match PyString_AsString distortion_model_final_string with
    | none => none
    | some distortion_model_final_cstring =>
      let distortion_model_now :=
        L.mrcal_distortion_model_from_name distortion_model_now_cstring
      if distortion_model_now = DISTORTION_INVALID then none else
      let distortion_model_final :=
        L.mrcal_distortion_model_from_name distortion_model_final_cstring
      if distortion_model_final = DISTORTION_INVALID then none else
      let distortion_model :=
        R.mrcal_getNextDistortionModel distortion_model_now distortion_model_final
      if distortion_model = DISTORTION_INVALID then none else
      some (Py_BuildValue_s (R.mrcal_distortion_model_name distortion_model))

/-! ## The arguments of `optimize` that must be given -/

/-- The names of `OPTIMIZE_ARGUMENTS_REQUIRED`: in the format handed to
`PyArg_ParseTupleAndKeywords` their units stand before the `|`. -/
def optimize_required_keywords : List String :=
  ["intrinsics", "extrinsics", "frames", "points", "observations_board",
   "indices_frame_camera_board", "observations_point", "indices_point_camera_points",
   "distortion_model", "observed_pixel_uncertainty", "imagersizes"]

/-- Whether `PyArg_ParseTupleAndKeywords` finds its arguments, as far as their
presence goes.  `given` are the names of the arguments that the caller
passes, by position or by keyword: every argument whose format unit stands
before the `|` must be among them, and each of them must be in `keywords`. -/
def arguments_present (required keywords given : List String) : Bool :=
  (required.all fun name => given.contains name) &&
  (given.all fun name => keywords.contains name)

/-- The function `optimize` from its entry, on a call that passes the
arguments named `given`: `goto done` when `PyArg_ParseTupleAndKeywords` fails,
and else the function on the parsed arguments `a`, in which an argument that
is not given has its initial value. -/
def optimize_from_entry (L : mrcal_library) (S : mrcal_solver)
    (stack_board : Nat → observation_board_t) (stack_point : Nat → observation_point_t)
    (given : List String) (a : optimize_arguments) : Outcome optimize_return :=
  if arguments_present optimize_required_keywords optimize_keywords given then
    optimize L S stack_board stack_point a
  else
    Outcome.ok ⟨none, none, a.intrinsics, a.extrinsics, a.frames, a.points, a.solver_context⟩

/-! ## Notions used in the statements -/

/-- A skip list as the validation is said to accept it: absent, `None`, or a
sequence whose elements are all integers, strictly increasing, every one of
them at least 0. -/
def skip_list_well_formed (skipped : Option PyObject) : Prop :=
  match skipped with
  | none => True
  | some Py_None => True
  | some o => ∃ items, sequence_items o = some items ∧
      (∀ x ∈ items, ∃ v : Int, x = PyInt v ∧ 0 ≤ v) ∧
      (items.map PyInt_AsLong).Pairwise (· < ·)

/-- The observation index `i` occurs in the skip list. -/
def in_skip_list (i : Nat) (skipped : Option PyObject) : Prop :=
  ∃ o items, skipped = some o ∧ sequence_items o = some items ∧ PyInt (i : Int) ∈ items

/-- Every element of the skip list is an integer that fits a C `int`. -/
def skip_list_fits_int (skipped : Option PyObject) : Prop :=
  ∀ o items, skipped = some o → sequence_items o = some items →
    ∀ v : Int, PyInt v ∈ items → v < 2 ^ 31

/-- The frame (or point) index of observation `i`: column 0 of row `i` of the
index array. -/
def index_of_observation (indices : List Int) (i : Nat) : Int := int_at indices (i * 2 + 0)

/-- The camera index of observation `i`: column 1 of row `i` of the index
array. -/
def camera_of_observation (indices : List Int) (i : Nat) : Int := int_at indices (i * 2 + 1)

/-- The first `N` rows of an index array are sorted by (column 0, column 1). -/
def sorted_by_index_camera (indices : List Int) (N : Nat) : Prop :=
  ∀ i j, i < j → j < N →
    index_of_observation indices i < index_of_observation indices j ∨
    (index_of_observation indices i = index_of_observation indices j ∧
     camera_of_observation indices i ≤ camera_of_observation indices j)

/-- A numpy array argument of the given shape and element type, C-contiguous,
with the given integer data. -/
def array_argument (dims : List Nat) (type : NPY_TYPES) (int_data : List Int) : PyArrayArg :=
  PyArrayArg.array ⟨dims, type, true, int_data, []⟩

/-- A call of `optimize` that the validation accepts: two cameras with
`DISTORTION_OPENCV4`, three frames, four observations of a 10 by 10 board. -/
def example_arguments : optimize_arguments :=
  { intrinsics := array_argument [2, 8] NPY_DOUBLE []
    extrinsics := array_argument [1, 6] NPY_DOUBLE []
    frames := array_argument [3, 6] NPY_DOUBLE []
    points := array_argument [0, 3] NPY_DOUBLE []
    observations_board := array_argument [4, 10, 10, 2] NPY_DOUBLE []
    indices_frame_camera_board := array_argument [4, 2] NPY_INT [0, 0, 0, 1, 1, 0, 2, 1]
    observations_point := array_argument [0, 3] NPY_DOUBLE []
    indices_point_camera_points := array_argument [0, 2] NPY_INT []
    distortion_model := PyString "DISTORTION_OPENCV4"
    observed_pixel_uncertainty := PyFloat double.one
    imagersizes := array_argument [2, 2] NPY_INT [640, 480, 640, 480]
    calibration_object_spacing := some (PyFloat double.one)
    calibration_object_width_n := some (PyInt 10) }

/-- A call of `project`: one point, `DISTORTION_OPENCV4`. -/
def example_project_arguments : project_arguments :=
  { points := array_argument [1, 3] NPY_DOUBLE []
    distortion_model := PyString "DISTORTION_OPENCV4"
    intrinsics := array_argument [8] NPY_DOUBLE [] }

/-- An uninitialised array of board observations: every bit set. -/
def stack_all_ones : Nat → observation_board_t := fun _ => ⟨-1, true, -1, true, -1⟩

/-- An uninitialised array of board observations: every bit clear. -/
def stack_all_zeros : Nat → observation_board_t := fun _ => ⟨0, false, 0, false, 0⟩

/-- An uninitialised array of point observations: every bit clear. -/
def stack_points_zeros : Nat → observation_point_t :=
  fun _ => ⟨0, false, 0, false, (double.zero, double.zero), double.zero⟩

/-- A skip list seen as `len` integers `v 0`, ..., `v (len-1)`: the length and
the items the loops of `optimize` read, strictly increasing from at least 0,
with the same members. -/
def skip_list_view (skipped : Option PyObject) (len : Nat) (v : Nat → Int) : Prop :=
  Nskipped_observations skipped = len ∧
  (∀ j, j < len → next_skip skipped j = to_int (v j)) ∧
  (∀ j k, j < k → k < len → v j < v k) ∧
  (∀ j, j < len → 0 ≤ v j) ∧
  (∀ i : Nat, in_skip_list i skipped ↔ ∃ j, j < len ∧ v j = i) ∧
  (skip_list_fits_int skipped → ∀ j, j < len → v j < 2 ^ 31)

/-- The code skips observation `n`: the loop finds `n` to be the next index
of the skip list when it reaches it. -/
def board_loop_skips (stack : Nat → observation_board_t) (idx : List Int)
    (skipped : Option PyObject) (W : Int) (n : Nat) : Prop :=
  (n : Int) = (board_loop stack idx skipped W n).i_observation_board_next_skip

/-- A point observation read as a board observation: the point index in the
place of the frame index, `skip_point` in the place of `skip_frame`. -/
def as_board_observation (p : observation_point_t) : observation_board_t :=
  ⟨p.i_camera, p.skip_point, p.i_point, p.skip_observation, 0⟩

/-- A board observation and a point observation with the same indices and
flags. -/
def same_flags (b : observation_board_t) (p : observation_point_t) : Prop :=
  b.i_camera = p.i_camera ∧ b.skip_frame = p.skip_point ∧ b.i_frame = p.i_point ∧
  b.skip_observation = p.skip_observation

/-- The arguments of a call with both skip lists left out. -/
def without_skip_lists (a : optimize_arguments) : optimize_arguments :=
  { a with skipped_observations_board := none, skipped_observations_point := none }

/-- A solver to evaluate the wrapper with.  It stands for no implementation
in particular: it counts no measurements, takes the number of intrinsics from
`DISTORTION_LIST`, leaves the state arrays as they are, reports no outlier,
leaves the solver state `1` behind a context pointer, and projects and
queries to empty data. -/
def example_solver : mrcal_solver :=
  { mrcal_getNmeasurements := fun _ _ _ _ _ _ _ => 0
    mrcal_getNintrinsicParams := fun m => N_INTRINSICS_CORE + getNdistortionParams_of_list m
    mrcal_optimize := fun call =>
      { stats := ⟨double.zero, 0, 0⟩
        x_final := []
        intrinsic_covariances := []
        outlier_indices_final := []
        outside_ROI_indices_final := []
        solver_context := some 1
        camera_intrinsics := call.camera_intrinsics
        camera_extrinsics := call.camera_extrinsics
        frames := call.frames
        points := call.points }
    mrcal_project := fun _ => ⟨[], [], []⟩
    mrcal_queryIntrinsicOutliernessAt := fun _ => some [] }

/-- The arguments of a call of `optimize` made on the solver context `c`. -/
def on_solver_context (a : optimize_arguments) (c : SolverContext) : optimize_arguments :=
  { a with solver_context := some (PySolverContext c) }

/-- A call of `optimize` in a sequence of calls: the contents of its two
uninitialised arrays, and its arguments but for the solver context. -/
structure optimize_invocation where
  stack_board : Nat → observation_board_t
  stack_point : Nat → observation_point_t
  arguments : optimize_arguments

/-- The solver context `c` after a call of `optimize` made on it;
`Outcome.crash` when the behaviour of the call is undefined. -/
def optimize_on_context (L : mrcal_library) (S : mrcal_solver) (i : optimize_invocation)
    (c : SolverContext) : Outcome SolverContext :=
  match optimize L S i.stack_board i.stack_point (on_solver_context i.arguments c) with
  | Outcome.ok r =>
    match r.solver_context with
    | some (PySolverContext c1) => Outcome.ok c1
    | _ => Outcome.crash
  | _ => Outcome.crash

/-- The solver context `c` after a sequence of calls of `optimize`, each made
on it; `Outcome.crash` when the behaviour of one of them is undefined. -/
def optimize_sequence (L : mrcal_library) (S : mrcal_solver) :
    List optimize_invocation → SolverContext → Outcome SolverContext
  | [], c => Outcome.ok c
  | i :: rest, c =>
    match optimize_on_context L S i c with
    | Outcome.ok c1 => optimize_sequence L S rest c1
    | _ => Outcome.crash

/-- The problem details that a call of `optimize` hands to the solver, if it
calls the solver. -/
def solver_problem_details (o : Outcome optimize_return) : Option mrcal_variable_select :=
  match o with
  | Outcome.ok r => r.solver_call.map fun call => call.problem_details
  | _ => none

/-- The flag `check_gradient` that a call of `optimize` hands to the solver,
if it calls the solver. -/
def solver_check_gradient (o : Outcome optimize_return) : Option Bool :=
  match o with
  | Outcome.ok r => r.solver_call.map fun call => call.check_gradient
  | _ => none

/-- A solver context that holds no solver state. -/
def empty_context : SolverContext := ⟨none, DISTORTION_INVALID, false, false, false⟩

/-- A call of `optimize` that the validation accepts: the example call with
`do_optimize_intrinsic_core = False`. -/
def example_invocation : optimize_invocation :=
  ⟨stack_all_zeros, stack_points_zeros,
    { example_arguments with do_optimize_intrinsic_core := Py_False }⟩

/-- A call of `optimize` that the validation rejects: the example call with
`DISTORTION_OPENCV8`, for which `intrinsics` is too narrow, and
`do_optimize_intrinsic_distortions = False`. -/
def example_rejected_invocation : optimize_invocation :=
  ⟨stack_all_ones, stack_points_zeros,
    { example_arguments with
      distortion_model := PyString "DISTORTION_OPENCV8"
      do_optimize_intrinsic_distortions := Py_False }⟩

/-- The example call of `optimize` with the four `do_optimize_*` arguments
`False`. -/
def example_arguments_none : optimize_arguments :=
  { example_arguments with
    do_optimize_intrinsic_core := Py_False
    do_optimize_intrinsic_distortions := Py_False
    do_optimize_extrinsics := Py_False
    do_optimize_frames := Py_False }

/-- A call of `project` on `None` in the place of the points. -/
def project_arguments_None : project_arguments :=
  { points := PyArrayArg.None
    distortion_model := PyString "DISTORTION_OPENCV4"
    intrinsics := array_argument [8] NPY_DOUBLE [] }

/-- A call of `queryIntrinsicOutliernessAt` on `None` in the place of the
rays, with a negative camera index and `None` for the solver context. -/
def qioa_arguments_None : qioa_arguments :=
  { v := PyArrayArg.None
    i_camera := -1
    solver_context := some Py_None }

/-- The counts that the solver functions return are not negative: the number
of measurements, the number of intrinsics, and the numbers of outliers and of
points outside the region of interest that a solve reports. -/
def counts_nonnegative (S : mrcal_solver) : Prop :=
  (∀ Ncameras NobservationsBoard observations_point NobservationsPoint W problem_details m,
    0 ≤ S.mrcal_getNmeasurements Ncameras NobservationsBoard observations_point
      NobservationsPoint W problem_details m) ∧
  (∀ m, 0 ≤ S.mrcal_getNintrinsicParams m) ∧
  (∀ call, 0 ≤ (S.mrcal_optimize call).stats.Noutliers) ∧
  (∀ call, 0 ≤ (S.mrcal_optimize call).stats.NoutsideROI)

/-- The contents that a solve leaves in the buffer `outlier_indices_final` are
as many as the buffer holds. -/
def outlier_buffer_filled (S : mrcal_solver) : Prop :=
  ∀ call, (S.mrcal_optimize call).outlier_indices_final.length =
    PyArray_SIZE call.outlier_indices_final

/-- A solver to evaluate the reports of `optimize` with.  It stands for no
implementation in particular: two measurements for each point of a board
observation and three for each point observation, the number of intrinsics
from `DISTORTION_LIST`, a solve that leaves the state as it is, reports three
outliers and fills the outlier buffer with the multiples of 7. -/
def reporting_solver : mrcal_solver :=
  { example_solver with
    mrcal_getNmeasurements := fun _ NobservationsBoard _ NobservationsPoint W _ _ =>
      (((NobservationsBoard * W * W * 2 + NobservationsPoint * 3).toNat : Nat) : Int)
    mrcal_optimize := fun call =>
      { example_solver.mrcal_optimize call with
        stats := ⟨double.one, 3, 0⟩
        outlier_indices_final :=
          (List.range (PyArray_SIZE call.outlier_indices_final)).map fun i =>
            (((i * 7 : Nat)) : Int) } }

/-- The dictionary has an item under the key. -/
def dict_has_key (dict : List (String × dict_value)) (key : String) : Prop :=
  ∃ value, (key, value) ∈ dict

/-- A zero-row array as numpy makes it: of the given trailing shape and
element type, C-contiguous, without data. -/
def zero_row_array (trailing : List Nat) (type : NPY_TYPES) : PyArrayArg :=
  PyArrayArg.array ⟨0 :: trailing, type, true, [], []⟩

/-- The argument is `None`, or the variable is still `NULL`. -/
def is_None_or_NULL (x : PyArrayArg) : Prop := x = PyArrayArg.None ∨ x = PyArrayArg.NULL

/-- The example call with index values out of range: camera 7 of 2 cameras,
frame 99 of 3 frames, and a camera index of -1. -/
def example_arguments_out_of_range : optimize_arguments :=
  { example_arguments with
    indices_frame_camera_board := array_argument [4, 2] NPY_INT [0, 7, 0, 1, 99, 0, 2, -1] }

/-- The names of the arguments that a caller of `optimize` passes when it
gives the required ones and no other. -/
def example_given : List String := optimize_required_keywords

/-- The capacity of the outlier buffer that a call of `optimize` hands to the
solver, if it calls the solver. -/
def solver_outlier_capacity (o : Outcome optimize_return) : Option Nat :=
  match o with
  | Outcome.ok r => r.solver_call.map fun call => PyArray_SIZE call.outlier_indices_final
  | _ => none

/-- The board observation `i` that a call of `optimize` hands to the solver,
if it calls the solver. -/
def solver_board_observation (o : Outcome optimize_return) (i : Nat) :
    Option observation_board_t :=
  match o with
  | Outcome.ok r => r.solver_call.map fun call => call.observations_board i
  | _ => none

/-- The numbers `Ncameras`, `Nframes` and `Npoints` that a call of `optimize`
hands to the solver, if it calls the solver. -/
def solver_counts (o : Outcome optimize_return) : Option (Int × Int × Int) :=
  match o with
  | Outcome.ok r => r.solver_call.map fun call => (call.Ncameras, call.Nframes, call.Npoints)
  | _ => none

/-- The call of `optimize` returns `NULL` and has not called the solver. -/
def fails_before_solver (o : Outcome optimize_return) : Bool :=
  match o with
  | Outcome.ok r => r.result.isNone && r.solver_call.isNone
  | _ => false

/-- Two values of an array argument that `optimize` is to treat alike: the
same value, or `None` (or a variable still `NULL`) beside a zero-row array of
the given trailing shape and element type. -/
def same_or_None (x y : PyArrayArg) (trailing : List Nat) (type : NPY_TYPES) : Prop :=
  x = y ∨ (is_None_or_NULL x ∧ y = zero_row_array trailing type)

/-- The arguments of a call with other values for the eight array arguments
that `optimize` replaces when they are `None`. -/
def with_arrays (a : optimize_arguments)
    (extrinsics frames observations_board indices_frame_camera_board points observations_point
      indices_point_camera_points imagersizes : PyArrayArg) : optimize_arguments :=
  { a with
    extrinsics := extrinsics
    frames := frames
    observations_board := observations_board
    indices_frame_camera_board := indices_frame_camera_board
    points := points
    observations_point := observations_point
    indices_point_camera_points := indices_point_camera_points
    imagersizes := imagersizes }

/-- The example call with `None` for the frames, the points and the point
observations with their indices, and without extrinsics for its one camera. -/
def example_arguments_None : optimize_arguments :=
  { example_arguments with
    intrinsics := array_argument [1, 8] NPY_DOUBLE []
    imagersizes := array_argument [1, 2] NPY_INT [640, 480]
    indices_frame_camera_board := array_argument [4, 2] NPY_INT [0, 0, 1, 0, 2, 0, 3, 0]
    extrinsics := PyArrayArg.None
    points := PyArrayArg.None
    observations_point := PyArrayArg.None
    indices_point_camera_points := PyArrayArg.None }

/-- The number of board points of a call: `N * W * W` for an
`observations_board` of shape `(N, W, W, _)`, and 0 without such an array. -/
def optimize_board_points (a : optimize_arguments) : Int :=
  match a.observations_board with
  | PyArrayArg.array ob => PyArray_DIMS ob 0 * PyArray_DIMS ob 1 * PyArray_DIMS ob 2
  | _ => 0

/-- A call of `optimize` that the validation accepts: one observation of a
65536 by 65536 board, in an `observations_board` of last dimension 0, which
holds no element. -/
def example_arguments_wide : optimize_arguments :=
  { example_arguments with
    observations_board := array_argument [1, 65536, 65536, 0] NPY_DOUBLE []
    indices_frame_camera_board := array_argument [1, 2] NPY_INT [0, 0]
    calibration_object_width_n := some (PyInt 65536) }

/-- A call of `optimize` that the validation accepts: one observation of a
46341 by 46341 board, in an `observations_board` of last dimension 0, which
holds no element. -/
def example_arguments_overflow : optimize_arguments :=
  { example_arguments with
    observations_board := array_argument [1, 46341, 46341, 0] NPY_DOUBLE []
    indices_frame_camera_board := array_argument [1, 2] NPY_INT [0, 0]
    calibration_object_width_n := some (PyInt 46341) }

/-- The call of `optimize` has no defined behaviour. -/
def optimize_undefined (o : Outcome optimize_return) : Bool :=
  match o with
  | Outcome.crash => true
  | _ => false

/-- The numbers `NobservationsBoard` and `calibration_object_width_n` that a
call of `optimize` hands to the solver, if it calls the solver. -/
def solver_board_counts (o : Outcome optimize_return) : Option (Int × Int) :=
  match o with
  | Outcome.ok r =>
    r.solver_call.map fun call => (call.NobservationsBoard, call.calibration_object_width_n)
  | _ => none

/-- A registry to evaluate `getNextDistortionModel` with.  It stands for no
implementation in particular: the next model after `now` on the way to `final`
is the entry of `DISTORTION_LIST` that follows `now` when `final` comes later
in the list, and is invalid otherwise; the name of a model is the name of its
enumerator, and `NULL` for `DISTORTION_INVALID`. -/
def example_registry : mrcal_registry :=
  { mrcal_getNextDistortionModel := fun now final =>
      if now.value < final.value then distortion_model_t_enumerators.getD (now.value + 1)
        DISTORTION_INVALID
      else DISTORTION_INVALID
    mrcal_distortion_model_name := fun m =>
      match m with
      | DISTORTION_INVALID => none
      | DISTORTION_NONE => some "DISTORTION_NONE"
      | DISTORTION_OPENCV4 => some "DISTORTION_OPENCV4"
      | DISTORTION_OPENCV5 => some "DISTORTION_OPENCV5"
      | DISTORTION_OPENCV8 => some "DISTORTION_OPENCV8"
      | DISTORTION_OPENCV12 => some "DISTORTION_OPENCV12"
      | DISTORTION_OPENCV14 => some "DISTORTION_OPENCV14"
      | DISTORTION_CAHVOR => some "DISTORTION_CAHVOR"
      | DISTORTION_CAHVORE => some "DISTORTION_CAHVORE" }

/-! ## Lemmas on `optimize_validate_args` -/

theorem optimize_validate_args_ok_iff (L : mrcal_library) (a : optimize_arguments)
    (m : distortion_model_t) :
    optimize_validate_args L a = Outcome.ok m ↔
      optimize_check_layout a = true ∧
      validate_Ncameras a = Outcome.ok () ∧
      validate_calibration_object a = Outcome.ok () ∧
      validate_NobservationsPoint a = Outcome.ok () ∧
      validate_distortion_model L a = Outcome.ok m ∧
      validate_skipped_observations a.skipped_observations_board = true ∧
      validate_skipped_observations a.skipped_observations_point = true ∧
      validate_observed_pixel_uncertainty a.observed_pixel_uncertainty = true ∧
      validate_solver_context a.solver_context = true := by
  unfold optimize_validate_args
  cases h0 : optimize_check_layout a
  · simp [bind, Outcome.bind]
  cases h1 : validate_Ncameras a <;> simp [bind, Outcome.bind]
  cases h2 : validate_calibration_object a <;> simp [Outcome.bind]
  cases h3 : validate_NobservationsPoint a <;> simp [Outcome.bind]
  cases h4 : validate_distortion_model L a <;> simp [Outcome.bind]
  cases h5 : validate_skipped_observations a.skipped_observations_board <;> simp
  cases h6 : validate_skipped_observations a.skipped_observations_point <;> simp
  cases h7 : validate_observed_pixel_uncertainty a.observed_pixel_uncertainty <;> simp
  cases h8 : validate_solver_context a.solver_context <;> simp [pure]

theorem validate_skipped_loop_iff (items : List PyObject) (iskip_last : Int) :
    validate_skipped_loop items iskip_last = true ↔
      (∀ x ∈ items, ∃ v : Int, x = PyInt v ∧ iskip_last < v) ∧
      (items.map PyInt_AsLong).Pairwise (· < ·) := by
  induction items generalizing iskip_last with
  | nil => simp [validate_skipped_loop]
  | cons x rest ih =>
    cases x <;> simp [validate_skipped_loop, PyInt_Check, PyInt_AsLong]
    rename_i v
    rw [ih]
    constructor
    · rintro ⟨hv, hrest, hpw⟩
      refine ⟨⟨hv, fun y hy => ?_⟩, fun y hy => ?_, hpw⟩
      · obtain ⟨w, rfl, hw⟩ := hrest y hy
        exact ⟨w, rfl, by omega⟩
      · obtain ⟨w, rfl, hw⟩ := hrest y hy
        simpa [PyInt_AsLong] using hw
    · rintro ⟨⟨hv, hrest⟩, hlt, hpw⟩
      refine ⟨hv, fun y hy => ?_, hpw⟩
      obtain ⟨w, rfl, hw⟩ := hrest y hy
      exact ⟨w, rfl, by simpa [PyInt_AsLong] using hlt _ hy⟩

theorem validate_skipped_observations_iff (skipped : Option PyObject) :
    validate_skipped_observations skipped = true ↔ skip_list_well_formed skipped := by
  cases skipped with
  | none => simp [validate_skipped_observations, skip_list_well_formed]
  | some o =>
    cases o <;>
      simp [validate_skipped_observations, skip_list_well_formed, PySequence_Check,
        sequence_items, validate_skipped_loop_iff]
    all_goals
      intro h
      constructor <;> intro g x hx <;>
        (obtain ⟨v, rfl, hv⟩ := g x hx; exact ⟨v, rfl, by omega⟩)

/-- C5: `optimize_validate_args` accepts the skip lists of a call exactly when
each of them is absent, `None`, or a sequence of integers that is strictly
increasing with every element at least 0: the call is accepted exactly when
it is accepted without the skip lists and both lists have that form, and a
list of another form turns an otherwise accepted call into a failure. -/
theorem skip_list_validation (L : mrcal_library) (a : optimize_arguments)
    (m : distortion_model_t) :
    (optimize_validate_args L a = Outcome.ok m ↔
      optimize_validate_args L (without_skip_lists a) = Outcome.ok m ∧
      skip_list_well_formed a.skipped_observations_board ∧
      skip_list_well_formed a.skipped_observations_point) ∧
    (optimize_validate_args L (without_skip_lists a) = Outcome.ok m →
      ¬ (skip_list_well_formed a.skipped_observations_board ∧
         skip_list_well_formed a.skipped_observations_point) →
      optimize_validate_args L a = Outcome.fail) := by
  have h0 : optimize_check_layout (without_skip_lists a) = optimize_check_layout a := rfl
  have h1 : validate_Ncameras (without_skip_lists a) = validate_Ncameras a := rfl
  have h2 : validate_calibration_object (without_skip_lists a) = validate_calibration_object a :=
    rfl
  have h3 : validate_NobservationsPoint (without_skip_lists a) = validate_NobservationsPoint a :=
    rfl
  have h4 : validate_distortion_model L (without_skip_lists a) = validate_distortion_model L a :=
    rfl
  have h5 : (without_skip_lists a).observed_pixel_uncertainty = a.observed_pixel_uncertainty :=
    rfl
  have h6 : (without_skip_lists a).solver_context = a.solver_context := rfl
  have h7 : (without_skip_lists a).skipped_observations_board = none := rfl
  have h8 : (without_skip_lists a).skipped_observations_point = none := rfl
  constructor
  · rw [optimize_validate_args_ok_iff, optimize_validate_args_ok_iff, h0, h1, h2, h3, h4, h5,
      h6, h7, h8, validate_skipped_observations_iff, validate_skipped_observations_iff]
    simp [validate_skipped_observations]
    tauto
  · intro hok hbad
    rw [optimize_validate_args_ok_iff, h0, h1, h2, h3, h4, h5, h6] at hok
    obtain ⟨g0, g1, g2, g3, g4, -, -, g7, g8⟩ := hok
    rw [← validate_skipped_observations_iff, ← validate_skipped_observations_iff] at hbad
    unfold optimize_validate_args
    simp only [g0, g1, g2, g3, g4, g7, g8, bind, Outcome.bind]
    cases hb : validate_skipped_observations a.skipped_observations_board
    · simp
    · cases hp : validate_skipped_observations a.skipped_observations_point
      · simp
      · exact absurd ⟨hb, hp⟩ hbad

/-- Witness of C5: the example call with the board skip list `[1, 1]`, which
repeats an element, fails. -/
theorem skip_list_validation_witness :
    optimize_validate_args library_of_list
      { example_arguments with
        skipped_observations_board := some (PyList [PyInt 1, PyInt 1]) } = Outcome.fail :=
  (skip_list_validation library_of_list
    { example_arguments with skipped_observations_board := some (PyList [PyInt 1, PyInt 1]) }
    DISTORTION_OPENCV4).2 (by decide)
    (by
      rw [← validate_skipped_observations_iff, ← validate_skipped_observations_iff]
      decide)

theorem validate_distortion_model_ok (L : mrcal_library) (a : optimize_arguments)
    (m : distortion_model_t) (h : validate_distortion_model L a = Outcome.ok m) :
    ∃ name intrinsics, a.distortion_model = PyString name ∧
      m = L.mrcal_distortion_model_from_name name ∧ m ≠ DISTORTION_INVALID ∧
      a.intrinsics = PyArrayArg.array intrinsics ∧
      PyArray_DIMS intrinsics 1 = N_INTRINSICS_CORE + L.mrcal_getNdistortionParams m := by
  unfold validate_distortion_model at h
  cases hd : a.distortion_model <;> simp [hd, PyString_AsString] at h
  rename_i name
  by_cases c1 : L.mrcal_distortion_model_from_name name = DISTORTION_INVALID
  · simp [c1] at h
  · cases hi : a.intrinsics <;> simp [c1, hi, deref, bind, Outcome.bind] at h
    rename_i intrinsics
    by_cases c2 : N_INTRINSICS_CORE +
        L.mrcal_getNdistortionParams (L.mrcal_distortion_model_from_name name) =
        PyArray_DIMS intrinsics 1
    · simp [c2, pure] at h
      subst h
      exact ⟨name, intrinsics, rfl, rfl, c1, rfl, c2.symm⟩
    · simp [c2] at h

theorem N_INTRINSICS_CORE_eq : N_INTRINSICS_CORE = 4 := by decide

/-- C8: `DISTORTION_LIST` gives NONE 0, OPENCV4 4, OPENCV5 5, OPENCV8 8,
OPENCV12 12, OPENCV14 14, CAHVOR 5 and CAHVORE 9 parameters and has no entry
for INVALID, `N_INTRINSICS_CORE` is 4, the nine enumerators have distinct
values with INVALID the first, and the widths `N_INTRINSICS_CORE + N` of the
eight families are 4, 8, 9, 12, 16, 18, 9, 13. -/
theorem distortion_parameter_table :
    DISTORTION_LIST.lookup DISTORTION_NONE = some 0 ∧
    DISTORTION_LIST.lookup DISTORTION_OPENCV4 = some 4 ∧
    DISTORTION_LIST.lookup DISTORTION_OPENCV5 = some 5 ∧
    DISTORTION_LIST.lookup DISTORTION_OPENCV8 = some 8 ∧
    DISTORTION_LIST.lookup DISTORTION_OPENCV12 = some 12 ∧
    DISTORTION_LIST.lookup DISTORTION_OPENCV14 = some 14 ∧
    DISTORTION_LIST.lookup DISTORTION_CAHVOR = some 5 ∧
    DISTORTION_LIST.lookup DISTORTION_CAHVORE = some 9 ∧
    DISTORTION_LIST.lookup DISTORTION_INVALID = none ∧
    DISTORTION_LIST.length = 8 ∧
    N_INTRINSICS_CORE = 4 ∧
    distortion_model_t_enumerators.Nodup ∧
    DISTORTION_INVALID.value = 0 ∧
    (∀ m, m ≠ DISTORTION_INVALID → m.value ≠ DISTORTION_INVALID.value) ∧
    DISTORTION_LIST.map (fun e => N_INTRINSICS_CORE + e.2) = [4, 8, 9, 12, 16, 18, 9, 13] := by
  refine ⟨rfl, rfl, rfl, rfl, rfl, rfl, rfl, rfl, rfl, rfl, by decide, by decide, by decide,
    ?_, by decide⟩
  intro m hm
  cases m <;> first | exact absurd rfl hm | decide

theorem validate_observed_pixel_uncertainty_iff (o : PyObject) :
    validate_observed_pixel_uncertainty o = true ↔
      ∃ d, o = PyFloat d ∧ (d.gt_zero = true ∨ d.isNaN = true) := by
  cases o <;> simp [validate_observed_pixel_uncertainty, PyFloat_Check, PyFloat_AS_DOUBLE]
  rename_i d
  simp only [double.le_zero, double.gt_zero]
  cases d.isNaN <;> cases d.sign <;> cases d.isZero <;> simp

theorem observed_pixel_uncertainty_checked (L : mrcal_library) (a : optimize_arguments)
    (m : distortion_model_t) (h : optimize_validate_args L a = Outcome.ok m) :
    ∃ d, a.observed_pixel_uncertainty = PyFloat d ∧ d.le_zero = false := by
  rw [optimize_validate_args_ok_iff] at h
  obtain ⟨d, hd, hpos⟩ := (validate_observed_pixel_uncertainty_iff _).1 h.2.2.2.2.2.2.2.1
  refine ⟨d, hd, ?_⟩
  simp only [double.le_zero, double.gt_zero] at hpos ⊢
  revert hpos
  cases d.isNaN <;> cases d.sign <;> cases d.isZero <;> simp

/-- C9, at the failing input: `float('nan')` is not greater than 0, and the
example call with `observed_pixel_uncertainty = float('nan')` is accepted. -/
theorem observed_pixel_uncertainty_nan_accepted :
    double.nan.gt_zero = false ∧
    optimize_validate_args library_of_list
      { example_arguments with observed_pixel_uncertainty := PyFloat double.nan } =
      Outcome.ok DISTORTION_OPENCV4 := by
  constructor <;> decide

theorem validate_calibration_object_ok (a : optimize_arguments)
    (observations_board : PyArrayObject)
    (hb : a.observations_board = PyArrayArg.array observations_board)
    (hN : 0 < PyArray_DIMS observations_board 0)
    (h : validate_calibration_object a = Outcome.ok ()) :
    ∃ d w, a.calibration_object_spacing = some (PyFloat d) ∧ d.le_zero = false ∧
      a.calibration_object_width_n = some (PyInt w) ∧ 0 < to_int w ∧
      to_int w = PyArray_DIMS observations_board 1 ∧
      to_int w = PyArray_DIMS observations_board 2 := by
  unfold validate_calibration_object at h
  rw [hb] at h
  simp only [deref, bind, Outcome.bind] at h
  cases hi : a.indices_frame_camera_board <;> simp only [hi] at h <;> try (simp at h; done)
  rename_i indices
  by_cases c1 : PyArray_DIMS indices 0 ≠ PyArray_DIMS observations_board 0
  · simp [c1] at h
  simp only [c1, if_false, hN, if_true] at h
  cases hs : a.calibration_object_spacing <;> simp only [hs, deref_object] at h <;>
    try (simp at h; done)
  rename_i spacing
  cases spacing <;> simp only [PyFloat_Check] at h <;> try (simp at h; done)
  rename_i d
  simp only [PyFloat_AS_DOUBLE, Bool.not_true, Bool.false_eq_true, if_false] at h
  cases hd : d.le_zero <;> simp only [hd] at h <;> try (simp at h; done)
  cases hw : a.calibration_object_width_n <;> simp only [hw, deref_object] at h <;>
    try (simp at h; done)
  rename_i width
  cases width <;> simp only [PyInt_Check] at h <;> try (simp at h; done)
  rename_i w
  simp only [PyInt_AsLong, Bool.not_true, Bool.false_eq_true, if_false] at h
  by_cases c2 : to_int w ≤ 0
  · simp [c2] at h
  by_cases c3 : to_int w ≠ PyArray_DIMS observations_board 1 ∨
      to_int w ≠ PyArray_DIMS observations_board 2
  · simp [c2, c3] at h
  · refine ⟨d, w, rfl, hd, rfl, by omega, ?_, ?_⟩
    · by_contra c; exact c3 (Or.inl c)
    · by_contra c; exact c3 (Or.inr c)

theorem calibration_object_checked (L : mrcal_library) (a : optimize_arguments)
    (m : distortion_model_t) (observations_board : PyArrayObject)
    (hb : a.observations_board = PyArrayArg.array observations_board)
    (hN : 0 < PyArray_DIMS observations_board 0)
    (h : optimize_validate_args L a = Outcome.ok m) :
    ∃ d w, a.calibration_object_spacing = some (PyFloat d) ∧ d.le_zero = false ∧
      a.calibration_object_width_n = some (PyInt w) ∧ 0 < to_int w := by
  rw [optimize_validate_args_ok_iff] at h
  obtain ⟨d, w, h1, h2, h3, h4, -⟩ :=
    validate_calibration_object_ok a observations_board hb hN h.2.2.1
  exact ⟨d, w, h1, h2, h3, h4⟩

theorem calibration_object_not_examined (L : mrcal_library) (a : optimize_arguments)
    (observations_board : PyArrayObject)
    (hb : a.observations_board = PyArrayArg.array observations_board)
    (hN : PyArray_DIMS observations_board 0 = 0) (spacing width : Option PyObject) :
    optimize_validate_args L
      { a with calibration_object_spacing := spacing, calibration_object_width_n := width } =
      optimize_validate_args L a := by
  have h2 : validate_calibration_object
      { a with calibration_object_spacing := spacing, calibration_object_width_n := width } =
      validate_calibration_object a := by
    unfold validate_calibration_object
    simp only [hb, hN, deref, bind, Outcome.bind, lt_self_iff_false, if_false]
  unfold optimize_validate_args
  rw [h2]
  rfl

/-- C10, at the failing inputs: with four board observations, the example
call is accepted with `calibration_object_spacing = float('nan')`, which is
not greater than 0; and with `calibration_object_spacing` or
`calibration_object_width_n` left out the validation dereferences `NULL`
instead of failing. -/
theorem calibration_object_validation_gaps :
    double.nan.gt_zero = false ∧
    optimize_validate_args library_of_list
      { example_arguments with calibration_object_spacing := some (PyFloat double.nan) } =
      Outcome.ok DISTORTION_OPENCV4 ∧
    optimize_validate_args library_of_list
      { example_arguments with calibration_object_spacing := none } = Outcome.crash ∧
    optimize_validate_args library_of_list
      { example_arguments with calibration_object_width_n := none } = Outcome.crash := by
  refine ⟨by decide, by decide, by decide, by decide⟩

/-! ## Lemmas on the observation loops -/

theorem to_int_of_fits (x : Int) (h0 : -2 ^ 31 ≤ x) (h1 : x < 2 ^ 31) : to_int x = x := by
  unfold to_int wrap_signed
  norm_num at *
  omega

theorem to_bitfield31_of_fits (x : Int) (h0 : 0 ≤ x) (h1 : x < 2 ^ 30) :
    to_bitfield31 x = x := by
  unfold to_bitfield31 wrap_signed
  norm_num at *
  omega

/-! ### The inner loop -/

theorem mark_skip_frame_outside (cs : Int) (n : Nat) (c : Nat → observation_board_t) (k : Nat)
    (hk : n ≤ k) : mark_skip_frame cs n c k = c k := by
  induction n generalizing c with
  | zero => rfl
  | succ n ih =>
    unfold mark_skip_frame
    split
    · rw [ih _ (by omega), Function.update_noteq (by omega)]
    · rfl

theorem mark_skip_frame_cases (cs : Int) (n : Nat) (c : Nat → observation_board_t) (k : Nat) :
    mark_skip_frame cs n c k = c k ∨
    mark_skip_frame cs n c k = { c k with skip_frame := true } := by
  induction n generalizing c with
  | zero => exact Or.inl rfl
  | succ n ih =>
    unfold mark_skip_frame
    split
    · by_cases hk : k = n
      · subst hk
        right
        rw [mark_skip_frame_outside _ _ _ _ (le_refl _), Function.update_same]
      · rcases ih (Function.update c n { c n with skip_frame := true }) with h | h
        · left; rw [h, Function.update_noteq hk]
        · right; rw [h, Function.update_noteq hk]
    · exact Or.inl rfl

theorem mark_skip_frame_set (cs : Int) (n : Nat) (c : Nat → observation_board_t) (m : Nat)
    (h : ∀ k, m ≤ k → k < n → (c k).i_frame = cs) :
    ∀ k, m ≤ k → k < n → (mark_skip_frame cs n c k).skip_frame = true := by
  induction n generalizing c with
  | zero => intro k _ hk; omega
  | succ n ih =>
    intro k hmk hk
    by_cases hmn : m ≤ n
    · unfold mark_skip_frame
      rw [if_pos (h n hmn (by omega))]
      by_cases hkn : k = n
      · subst hkn
        rw [mark_skip_frame_outside _ _ _ _ (le_refl _), Function.update_same]
      · refine ih _ (fun j hj1 hj2 => ?_) k hmk (by omega)
        rw [Function.update_noteq (by omega)]
        exact h j hj1 (by omega)
    · omega

theorem mark_skip_frame_congr (cs : Int) (n : Nat) (c c' : Nat → observation_board_t)
    (h : ∀ j, j < n → c j = c' j) :
    ∀ k, k < n → mark_skip_frame cs n c k = mark_skip_frame cs n c' k := by
  induction n generalizing c c' with
  | zero => intro k hk; omega
  | succ n ih =>
    intro k hk
    unfold mark_skip_frame
    rw [h n (by omega)]
    split
    · by_cases hkn : k = n
      · subst hkn
        rw [mark_skip_frame_outside _ _ _ _ (le_refl _),
          mark_skip_frame_outside _ _ _ _ (le_refl _), Function.update_same,
          Function.update_same]
      · refine ih _ _ (fun j hj => ?_) k (by omega)
        rw [Function.update_noteq (by omega), Function.update_noteq (by omega)]
        exact h j (by omega)
    · exact h k hk

section board_loop_body

variable (idx : List Int) (sk : Option PyObject) (W : Int) (n : Nat) (s : board_loop_state)

theorem board_loop_body_last :
    (board_loop_body idx sk W n s).i_frame_last = index_of_observation idx n := by
  unfold board_loop_body
  simp only []
  split <;> rfl

theorem board_loop_body_current :
    (board_loop_body idx sk W n s).i_frame_current_skipped =
      if (n : Int) = s.i_observation_board_next_skip then
        (if s.i_frame_last ≠ index_of_observation idx n then index_of_observation idx n
         else s.i_frame_current_skipped)
      else -1 := by
  unfold board_loop_body
  simp only []
  split <;> rfl

theorem board_loop_body_pointer :
    (board_loop_body idx sk W n s).i_skipped_observation_board =
      if (n : Int) = s.i_observation_board_next_skip then s.i_skipped_observation_board + 1
      else s.i_skipped_observation_board := by
  unfold board_loop_body
  simp only []
  split <;> rfl

theorem board_loop_body_next :
    (board_loop_body idx sk W n s).i_observation_board_next_skip =
      if (n : Int) = s.i_observation_board_next_skip then
        (if ((s.i_skipped_observation_board + 1 : Nat) : Int) < Nskipped_observations sk then
          next_skip sk (s.i_skipped_observation_board + 1)
         else -1)
      else s.i_observation_board_next_skip := by
  unfold board_loop_body
  simp only []
  split <;> rfl

theorem board_loop_body_before (k : Nat) (hk : k < n) :
    (board_loop_body idx sk W n s).c_observations_board k =
      if 0 ≤ s.i_frame_current_skipped ∧
          s.i_frame_current_skipped ≠ index_of_observation idx n then
        mark_skip_frame s.i_frame_current_skipped n s.c_observations_board k
      else s.c_observations_board k := by
  have hne : k ≠ n := by omega
  have hm : ∀ x, mark_skip_frame s.i_frame_current_skipped n
      (Function.update s.c_observations_board n x) k =
      mark_skip_frame s.i_frame_current_skipped n s.c_observations_board k := by
    intro x
    apply mark_skip_frame_congr _ _ _ _ _ k hk
    intro j hj
    rw [Function.update_noteq (by omega)]
  unfold board_loop_body
  simp only [index_of_observation]
  by_cases h1 : (n : Int) = s.i_observation_board_next_skip <;>
    by_cases h2 : 0 ≤ s.i_frame_current_skipped <;>
    by_cases h3 : s.i_frame_current_skipped = int_at idx (n * 2) <;>
    simp [h1, h2, h3, Function.update_noteq hne, hm]

theorem board_loop_body_at :
    ((board_loop_body idx sk W n s).c_observations_board n).i_frame =
        to_bitfield31 (index_of_observation idx n) ∧
    ((board_loop_body idx sk W n s).c_observations_board n).i_camera =
        to_bitfield31 (camera_of_observation idx n) ∧
    ((board_loop_body idx sk W n s).c_observations_board n).px = W * W * n ∧
    ((board_loop_body idx sk W n s).c_observations_board n).skip_observation =
        decide ((n : Int) = s.i_observation_board_next_skip) ∧
    ((board_loop_body idx sk W n s).c_observations_board n).skip_frame =
        if 0 ≤ s.i_frame_current_skipped ∧
            s.i_frame_current_skipped ≠ index_of_observation idx n then
          (s.c_observations_board n).skip_frame
        else false := by
  unfold board_loop_body
  simp only [index_of_observation, camera_of_observation]
  by_cases h1 : (n : Int) = s.i_observation_board_next_skip <;>
    by_cases h2 : 0 ≤ s.i_frame_current_skipped <;>
    by_cases h3 : s.i_frame_current_skipped = int_at idx (n * 2) <;>
    simp [h1, h2, h3, mark_skip_frame_outside _ _ _ _ (le_refl n)]

end board_loop_body

theorem all_ints (items : List PyObject)
    (h : ∀ x ∈ items, ∃ v : Int, x = PyInt v ∧ 0 ≤ v) :
    items = (items.map PyInt_AsLong).map PyInt := by
  induction items with
  | nil => rfl
  | cons x rest ih =>
    obtain ⟨v, rfl, -⟩ := h _ (List.mem_cons_self _ _)
    simp only [List.map_cons, PyInt_AsLong]
    rw [← ih (fun y hy => h y (List.mem_cons_of_mem _ hy))]

theorem skip_list_view_of_items (o : PyObject) (items : List PyObject)
    (hn : Nskipped_observations (some o) = PySequence_Size o)
    (hs : sequence_items o = some items)
    (hint : ∀ x ∈ items, ∃ v : Int, x = PyInt v ∧ 0 ≤ v)
    (hpw : (items.map PyInt_AsLong).Pairwise (· < ·)) :
    skip_list_view (some o) items.length (fun j => (items.map PyInt_AsLong).getD j 0) := by
  have hitems := all_ints items hint
  generalize hv : items.map PyInt_AsLong = vals at hitems hpw
  have hlen : items.length = vals.length := by rw [← hv, List.length_map]
  have hget : ∀ j, j < vals.length → items.getD j PyOther = PyInt (vals.getD j 0) := by
    intro j hj
    rw [hitems, List.getD_eq_getElem _ _ (by simpa using hj), List.getD_eq_getElem _ _ hj]
    simp
  refine ⟨?_, ?_, ?_, ?_, ?_, ?_⟩
  · rw [hn]; simp [PySequence_Size, hs]
  · intro j hj
    simp only [next_skip, PySequence_GetItem, hs]
    rw [hget j (hlen ▸ hj)]
    rfl
  · intro j k hjk hk
    rw [hlen] at hk
    dsimp only
    rw [List.getD_eq_getElem _ _ hk, List.getD_eq_getElem _ _ (by omega)]
    exact List.pairwise_iff_getElem.1 hpw j k (by omega) hk hjk
  · intro j hj
    rw [hlen] at hj
    dsimp only
    rw [List.getD_eq_getElem _ _ hj]
    have hm : PyInt vals[j] ∈ items := by
      rw [hitems]; exact List.mem_map_of_mem _ (List.getElem_mem _)
    obtain ⟨w, hw, hw0⟩ := hint _ hm
    injection hw with hw
    omega
  · intro i
    constructor
    · rintro ⟨o', items', ho, hs', hm⟩
      injection ho with ho
      subst ho
      rw [hs] at hs'
      injection hs' with hs'
      subst hs'
      rw [hitems] at hm
      obtain ⟨w, hw, hwi⟩ := List.mem_map.1 hm
      injection hwi with hwi
      obtain ⟨j, hj, hjw⟩ := List.mem_iff_getElem.1 hw
      exact ⟨j, hlen ▸ hj, by dsimp only; rw [List.getD_eq_getElem _ _ hj, hjw, hwi]⟩
    · rintro ⟨j, hj, hji⟩
      rw [hlen] at hj
      dsimp only at hji
      rw [List.getD_eq_getElem _ _ hj] at hji
      refine ⟨o, items, rfl, hs, ?_⟩
      rw [hitems, ← hji]
      exact List.mem_map_of_mem _ (List.getElem_mem _)
  · intro hfit j hj
    rw [hlen] at hj
    dsimp only
    rw [List.getD_eq_getElem _ _ hj]
    refine hfit o items rfl hs _ ?_
    rw [hitems]; exact List.mem_map_of_mem _ (List.getElem_mem _)

theorem skip_list_view_exists (skipped : Option PyObject)
    (h : validate_skipped_observations skipped = true) :
    ∃ len v, skip_list_view skipped len v := by
  rw [validate_skipped_observations_iff] at h
  have hempty : ∀ s : Option PyObject, Nskipped_observations s = 0 →
      (∀ i, ¬ in_skip_list i s) → skip_list_view s 0 (fun _ => 0) := by
    intro s h1 h2
    refine ⟨h1, fun j hj => by omega, fun j k _ hk => by omega, fun j hj => by omega,
      fun i => ⟨fun hi => absurd hi (h2 i), fun ⟨j, hj, _⟩ => by omega⟩,
      fun _ j hj => by omega⟩
  cases skipped with
  | none =>
    exact ⟨0, _, hempty _ rfl (by rintro i ⟨o, items, ho, -⟩; cases ho)⟩
  | some o =>
    cases o with
    | Py_None =>
      refine ⟨0, _, hempty _ rfl ?_⟩
      rintro i ⟨o, items, ho, hs, -⟩
      injection ho with ho
      subst ho
      simp [sequence_items] at hs
    | PyInt v => obtain ⟨items, hs, -⟩ := h; simp [sequence_items] at hs
    | PyFloat d => obtain ⟨items, hs, -⟩ := h; simp [sequence_items] at hs
    | PySolverContext c => obtain ⟨items, hs, -⟩ := h; simp [sequence_items] at hs
    | PyOther => obtain ⟨items, hs, -⟩ := h; simp [sequence_items] at hs
    | PyString str =>
      obtain ⟨items, hs, hint, hpw⟩ := h
      exact ⟨_, _, skip_list_view_of_items _ items rfl hs hint hpw⟩
    | PyList l =>
      obtain ⟨items, hs, hint, hpw⟩ := h
      exact ⟨_, _, skip_list_view_of_items _ items rfl hs hint hpw⟩

theorem board_loop_pointer (stack : Nat → observation_board_t) (idx : List Int)
    (skipped : Option PyObject) (W : Int) (len : Nat) (v : Nat → Int)
    (hview : skip_list_view skipped len v) (n : Nat) (hn : (n : Int) ≤ 2 ^ 31) :
    (board_loop stack idx skipped W n).i_skipped_observation_board ≤ len ∧
    (board_loop stack idx skipped W n).i_observation_board_next_skip =
      (if (board_loop stack idx skipped W n).i_skipped_observation_board < len then
        to_int (v (board_loop stack idx skipped W n).i_skipped_observation_board)
       else -1) ∧
    (∀ j, j < len → v j < n →
      j < (board_loop stack idx skipped W n).i_skipped_observation_board) ∧
    (∀ j, j < (board_loop stack idx skipped W n).i_skipped_observation_board →
      0 ≤ to_int (v j) ∧ to_int (v j) < n) := by
  obtain ⟨hsize, hitem, hinc, hnonneg, -, -⟩ := hview
  induction n with
  | zero =>
    refine ⟨Nat.zero_le _, ?_, ?_, ?_⟩
    · show (if (0 : Int) < Nskipped_observations skipped then next_skip skipped 0 else -1) = _
      rw [hsize]
      show _ = if 0 < len then to_int (v 0) else -1
      by_cases h : 0 < len
      · rw [if_pos h, if_pos (by exact_mod_cast h), hitem 0 h]
      · rw [if_neg h, if_neg (by omega)]
    · intro j hj hv
      have := hnonneg j hj
      simp only [Nat.cast_zero] at hv
      omega
    · intro j hj
      exact absurd hj (Nat.not_lt_zero _)
  | succ n ih =>
    have hn' : (n : Int) < 2 ^ 31 := by push_cast at hn; omega
    obtain ⟨ih1, ih2, ih3, ih4⟩ := ih (by omega)
    have hton : to_int (n : Int) = n := to_int_of_fits _ (by norm_num; omega) hn'
    have hstep : board_loop stack idx skipped W (n + 1) =
        board_loop_body idx skipped W n (board_loop stack idx skipped W n) := rfl
    rw [hstep]
    generalize board_loop stack idx skipped W n = s at ih1 ih2 ih3 ih4 ⊢
    rw [board_loop_body_pointer, board_loop_body_next]
    by_cases hit : (n : Int) = s.i_observation_board_next_skip
    · simp only [hit, if_true]
      have hp : s.i_skipped_observation_board < len := by
        by_contra hp
        rw [if_neg hp] at ih2
        omega
      rw [if_pos hp] at ih2
      refine ⟨hp, ?_, ?_, ?_⟩
      · rw [hsize]
        by_cases h : s.i_skipped_observation_board + 1 < len
        · rw [if_pos h, if_pos (by exact_mod_cast h), hitem _ h]
        · rw [if_neg h, if_neg (by exact_mod_cast h)]
      · intro j hj hv
        by_contra hjp
        have hlt : v s.i_skipped_observation_board < v j := hinc _ _ (by omega) hj
        have := ih3 _ hp (by push_cast at hv; omega)
        omega
      · intro j hj
        by_cases hjp : j = s.i_skipped_observation_board
        · subst hjp
          rw [ih2] at hit
          rw [← hit]
          push_cast
          omega
        · have := ih4 j (by omega)
          push_cast
          omega
    · simp only [hit, if_false]
      refine ⟨ih1, ih2, ?_, ?_⟩
      · intro j hj hv
        by_contra hjp
        by_cases hvn : v j < n
        · exact hjp (ih3 j hj hvn)
        · have hvj : v j = n := by push_cast at hv; omega
          by_cases hjp' : j = s.i_skipped_observation_board
          · subst hjp'
            rw [if_pos hj, hvj, hton] at ih2
            exact hit ih2.symm
          · have hp : s.i_skipped_observation_board < len := by omega
            have hlt : v s.i_skipped_observation_board < v j := hinc _ _ (by omega) hj
            have := ih3 _ hp (by omega)
            omega
      · intro j hj
        have := ih4 j hj
        push_cast
        omega

theorem board_loop_skips_of_mem (stack : Nat → observation_board_t) (idx : List Int)
    (skipped : Option PyObject) (W : Int)
    (hvalid : validate_skipped_observations skipped = true) (n : Nat)
    (hn : (n : Int) < 2 ^ 31) (hmem : in_skip_list n skipped) :
    board_loop_skips stack idx skipped W n := by
  obtain ⟨len, v, hview⟩ := skip_list_view_exists skipped hvalid
  obtain ⟨h1, h2, h3, h4⟩ := board_loop_pointer stack idx skipped W len v hview n (by omega)
  obtain ⟨-, -, hinc, -, hmemv, -⟩ := hview
  obtain ⟨j0, hj0, hvj0⟩ := (hmemv n).1 hmem
  have hton : to_int (n : Int) = n := to_int_of_fits _ (by norm_num; omega) hn
  unfold board_loop_skips
  generalize board_loop stack idx skipped W n = s at h1 h2 h3 h4 ⊢
  have hle : s.i_skipped_observation_board ≤ j0 := by
    by_contra hc
    have := (h4 j0 (by omega)).2
    rw [hvj0, hton] at this
    omega
  have hge : j0 ≤ s.i_skipped_observation_board := by
    by_contra hc
    have hlt : v s.i_skipped_observation_board < v j0 := hinc _ _ (by omega) hj0
    have := h3 s.i_skipped_observation_board (by omega) (by omega)
    omega
  have heq : s.i_skipped_observation_board = j0 := by omega
  rw [h2, heq, if_pos hj0, hvj0, hton]

theorem mem_of_board_loop_skips (stack : Nat → observation_board_t) (idx : List Int)
    (skipped : Option PyObject) (W : Int)
    (hvalid : validate_skipped_observations skipped = true)
    (hfit : skip_list_fits_int skipped) (n : Nat)
    (hn : (n : Int) < 2 ^ 31) (hskip : board_loop_skips stack idx skipped W n) :
    in_skip_list n skipped := by
  obtain ⟨len, v, hview⟩ := skip_list_view_exists skipped hvalid
  obtain ⟨h1, h2, h3, h4⟩ := board_loop_pointer stack idx skipped W len v hview n (by omega)
  obtain ⟨-, -, hinc, hnonneg, hmemv, hfitv⟩ := hview
  unfold board_loop_skips at hskip
  generalize board_loop stack idx skipped W n = s at h1 h2 h3 h4 hskip
  have hp : s.i_skipped_observation_board < len := by
    by_contra hp
    rw [if_neg hp] at h2
    omega
  rw [if_pos hp] at h2
  have hv := to_int_of_fits (v s.i_skipped_observation_board)
    (by have := hnonneg _ hp; norm_num; omega) (hfitv hfit _ hp)
  exact (hmemv n).2 ⟨_, hp, by rw [← hv, ← h2, hskip]⟩

theorem mark_skip_frame_i_frame (cs : Int) (n : Nat) (c : Nat → observation_board_t)
    (k : Nat) : (mark_skip_frame cs n c k).i_frame = (c k).i_frame := by
  rcases mark_skip_frame_cases cs n c k with h | h <;> rw [h]

theorem mark_skip_frame_skip_observation (cs : Int) (n : Nat) (c : Nat → observation_board_t)
    (k : Nat) : (mark_skip_frame cs n c k).skip_observation = (c k).skip_observation := by
  rcases mark_skip_frame_cases cs n c k with h | h <;> rw [h]

theorem mark_skip_frame_keeps (cs : Int) (n : Nat) (c : Nat → observation_board_t)
    (k : Nat) (h : (c k).skip_frame = true) : (mark_skip_frame cs n c k).skip_frame = true := by
  rcases mark_skip_frame_cases cs n c k with g | g <;> rw [g]
  exact h

theorem board_loop_frames (stack : Nat → observation_board_t) (idx : List Int)
    (skipped : Option PyObject) (W : Int) (N : Nat)
    (hrange : ∀ i, i < N → 0 ≤ index_of_observation idx i ∧ index_of_observation idx i < 2 ^ 30)
    (hmono : ∀ i j, i < j → j < N → index_of_observation idx i ≤ index_of_observation idx j)
    (n : Nat) (hn : n ≤ N) :
    (∀ k, k < n → ((board_loop stack idx skipped W n).c_observations_board k).i_frame =
      index_of_observation idx k) ∧
    (board_loop stack idx skipped W n).i_frame_last =
      (if n = 0 then -1 else index_of_observation idx (n - 1)) ∧
    (0 < n →
      (∀ k, k < n → index_of_observation idx k = index_of_observation idx (n - 1) →
        board_loop_skips stack idx skipped W k) →
      (board_loop stack idx skipped W n).i_frame_current_skipped =
        index_of_observation idx (n - 1)) ∧
    (∀ k, k < n → index_of_observation idx k ≠ index_of_observation idx (n - 1) →
      (∀ k', k' < n → index_of_observation idx k' = index_of_observation idx k →
        board_loop_skips stack idx skipped W k') →
      ((board_loop stack idx skipped W n).c_observations_board k).skip_frame = true) := by
  induction n with
  | zero =>
    refine ⟨fun k hk => by omega, rfl, fun h => by omega, fun k hk => by omega⟩
  | succ n ih =>
    obtain ⟨ih1, ih2, ih3, ih4⟩ := ih (by omega)
    have hstep : board_loop stack idx skipped W (n + 1) =
        board_loop_body idx skipped W n (board_loop stack idx skipped W n) := rfl
    have hskipn : board_loop_skips stack idx skipped W n ↔
        (n : Int) = (board_loop stack idx skipped W n).i_observation_board_next_skip := Iff.rfl
    rw [hstep]
    generalize board_loop stack idx skipped W n = s at ih1 ih2 ih3 ih4 hskipn ⊢
    have hat := board_loop_body_at idx skipped W n s
    have hbefore := board_loop_body_before idx skipped W n s
    have hfr := hrange n (by omega)
    refine ⟨?_, ?_, ?_, ?_⟩
    · intro k hk
      by_cases hkn : k = n
      · subst hkn
        rw [hat.1, to_bitfield31_of_fits _ hfr.1 hfr.2]
      · rw [hbefore k (by omega)]
        split
        · rw [mark_skip_frame_i_frame]; exact ih1 k (by omega)
        · exact ih1 k (by omega)
    · rw [board_loop_body_last]
      simp
    · intro _ hall
      have hitn : (n : Int) = s.i_observation_board_next_skip :=
        hskipn.1 (hall n (by omega) (by simp))
      rw [board_loop_body_current, if_pos hitn]
      simp only [Nat.add_sub_cancel]
      by_cases hlast : s.i_frame_last ≠ index_of_observation idx n
      · rw [if_pos hlast]
      · rw [if_neg hlast]
        have hlast' : s.i_frame_last = index_of_observation idx n := not_not.1 hlast
        by_cases hn0 : n = 0
        · rw [if_pos hn0] at ih2
          omega
        · rw [if_neg hn0] at ih2
          rw [ih3 (by omega) (fun k hk hkf => hall k (by omega) ?_), ih2.symm.trans hlast']
          simp only [Nat.add_sub_cancel]
          rw [hkf, ← ih2, hlast']
    · intro k hk hne hall
      simp only [Nat.add_sub_cancel] at hne
      have hkn : k < n := by
        rcases Nat.lt_succ_iff_lt_or_eq.1 hk with h | h
        · exact h
        · subst h; exact absurd rfl hne
      rw [hbefore k hkn]
      by_cases hprev : index_of_observation idx k = index_of_observation idx (n - 1)
      · have hcs := ih3 (by omega) (fun k' hk' hk'f => hall k' (by omega) (hk'f.trans hprev.symm))
        have hcond : 0 ≤ s.i_frame_current_skipped ∧
            s.i_frame_current_skipped ≠ index_of_observation idx n := by
          rw [hcs, ← hprev]
          exact ⟨(hrange k (by omega)).1, hne⟩
        rw [if_pos hcond]
        refine mark_skip_frame_set _ _ _ k (fun j hj1 hj2 => ?_) k (le_refl _) hkn
        rw [ih1 j hj2, hcs]
        have h1 : index_of_observation idx k ≤ index_of_observation idx j := by
          rcases Nat.eq_or_lt_of_le hj1 with h | h
          · rw [h]
          · exact hmono k j h (by omega)
        have h2 : index_of_observation idx j ≤ index_of_observation idx (n - 1) := by
          rcases Nat.eq_or_lt_of_le (Nat.le_sub_one_of_lt hj2) with h | h
          · rw [h]
          · exact hmono j (n - 1) h (by omega)
        omega
      · have hk' := ih4 k hkn hprev (fun k' hk' hk'f => hall k' (by omega) hk'f)
        split
        · exact mark_skip_frame_keeps _ _ _ _ hk'
        · exact hk'

theorem board_loop_skip_observation (stack : Nat → observation_board_t) (idx : List Int)
    (skipped : Option PyObject) (W : Int) (n : Nat) :
    ∀ k, k < n →
      (((board_loop stack idx skipped W n).c_observations_board k).skip_observation = true ↔
        board_loop_skips stack idx skipped W k) := by
  induction n with
  | zero => intro k hk; omega
  | succ n ih =>
    have hstep : board_loop stack idx skipped W (n + 1) =
        board_loop_body idx skipped W n (board_loop stack idx skipped W n) := rfl
    have hskipn : board_loop_skips stack idx skipped W n ↔
        (n : Int) = (board_loop stack idx skipped W n).i_observation_board_next_skip := Iff.rfl
    rw [hstep]
    generalize board_loop stack idx skipped W n = s at ih hskipn ⊢
    intro k hk
    by_cases hkn : k = n
    · subst hkn
      rw [(board_loop_body_at idx skipped W k s).2.2.2.1, hskipn]
      simp
    · have hkn' : k < n := by omega
      rw [board_loop_body_before idx skipped W n s k hkn']
      split
      · rw [mark_skip_frame_skip_observation]; exact ih k hkn'
      · exact ih k hkn'

theorem optimize_board_skip_observation (stack : Nat → observation_board_t) (N : Nat)
    (idx : List Int) (skipped : Option PyObject) (W : Int) (k : Nat) (hk : k < N) :
    (optimize_observations_board stack N idx skipped W k).skip_observation = true ↔
      board_loop_skips stack idx skipped W k := by
  unfold optimize_observations_board
  split
  · rw [mark_skip_frame_skip_observation]
    exact board_loop_skip_observation stack idx skipped W N k hk
  · exact board_loop_skip_observation stack idx skipped W N k hk

section point_loop_body

variable (idx : List Int) (obs : List double) (sk : Option PyObject) (n : Nat)
  (s : point_loop_state)

theorem mark_skip_point_outside (cs : Int) (n : Nat) (c : Nat → observation_point_t) (k : Nat)
    (hk : n ≤ k) : mark_skip_point cs n c k = c k := by
  induction n generalizing c with
  | zero => rfl
  | succ n ih =>
    unfold mark_skip_point
    split
    · rw [ih _ (by omega), Function.update_noteq (by omega)]
    · rfl

theorem mark_skip_point_congr (cs : Int) (n : Nat) (c c' : Nat → observation_point_t)
    (h : ∀ j, j < n → c j = c' j) :
    ∀ k, k < n → mark_skip_point cs n c k = mark_skip_point cs n c' k := by
  induction n generalizing c c' with
  | zero => intro k hk; omega
  | succ n ih =>
    intro k hk
    unfold mark_skip_point
    rw [h n (by omega)]
    split
    · by_cases hkn : k = n
      · subst hkn
        rw [mark_skip_point_outside _ _ _ _ (le_refl _),
          mark_skip_point_outside _ _ _ _ (le_refl _), Function.update_same,
          Function.update_same]
      · refine ih _ _ (fun j hj => ?_) k (by omega)
        rw [Function.update_noteq (by omega), Function.update_noteq (by omega)]
        exact h j (by omega)
    · exact h k hk

theorem point_loop_body_last :
    (point_loop_body idx obs sk n s).i_point_last = index_of_observation idx n := by
  unfold point_loop_body
  simp only []
  split <;> rfl

theorem point_loop_body_current :
    (point_loop_body idx obs sk n s).i_point_current_skipped =
      if (n : Int) = s.i_observation_point_next_skip then
        (if s.i_point_last ≠ index_of_observation idx n then index_of_observation idx n
         else s.i_point_current_skipped)
      else -1 := by
  unfold point_loop_body
  simp only []
  split <;> rfl

theorem point_loop_body_pointer :
    (point_loop_body idx obs sk n s).i_skipped_observation_point =
      if (n : Int) = s.i_observation_point_next_skip then s.i_skipped_observation_point + 1
      else s.i_skipped_observation_point := by
  unfold point_loop_body
  simp only []
  split <;> rfl

theorem point_loop_body_next :
    (point_loop_body idx obs sk n s).i_observation_point_next_skip =
      if (n : Int) = s.i_observation_point_next_skip then
        (if ((s.i_skipped_observation_point + 1 : Nat) : Int) < Nskipped_observations sk then
          next_skip sk (s.i_skipped_observation_point + 1)
         else -1)
      else s.i_observation_point_next_skip := by
  unfold point_loop_body
  simp only []
  split <;> rfl

theorem point_loop_body_before (k : Nat) (hk : k < n) :
    (point_loop_body idx obs sk n s).c_observations_point k =
      if 0 ≤ s.i_point_current_skipped ∧
          s.i_point_current_skipped ≠ index_of_observation idx n then
        mark_skip_point s.i_point_current_skipped n s.c_observations_point k
      else s.c_observations_point k := by
  have hne : k ≠ n := by omega
  have hm : ∀ x, mark_skip_point s.i_point_current_skipped n
      (Function.update s.c_observations_point n x) k =
      mark_skip_point s.i_point_current_skipped n s.c_observations_point k := by
    intro x
    apply mark_skip_point_congr _ _ _ _ _ k hk
    intro j hj
    rw [Function.update_noteq (by omega)]
  unfold point_loop_body
  simp only [index_of_observation]
  by_cases h1 : (n : Int) = s.i_observation_point_next_skip <;>
    by_cases h2 : 0 ≤ s.i_point_current_skipped <;>
    by_cases h3 : s.i_point_current_skipped = int_at idx (n * 2) <;>
    simp [h1, h2, h3, Function.update_noteq hne, hm]

theorem point_loop_body_at :
    ((point_loop_body idx obs sk n s).c_observations_point n).i_point =
        to_bitfield31 (index_of_observation idx n) ∧
    ((point_loop_body idx obs sk n s).c_observations_point n).i_camera =
        to_bitfield31 (camera_of_observation idx n) ∧
    ((point_loop_body idx obs sk n s).c_observations_point n).skip_observation =
        decide ((n : Int) = s.i_observation_point_next_skip) ∧
    ((point_loop_body idx obs sk n s).c_observations_point n).skip_point =
        if 0 ≤ s.i_point_current_skipped ∧
            s.i_point_current_skipped ≠ index_of_observation idx n then
          (s.c_observations_point n).skip_point
        else false := by
  unfold point_loop_body
  simp only [index_of_observation, camera_of_observation]
  by_cases h1 : (n : Int) = s.i_observation_point_next_skip <;>
    by_cases h2 : 0 ≤ s.i_point_current_skipped <;>
    by_cases h3 : s.i_point_current_skipped = int_at idx (n * 2) <;>
    simp [h1, h2, h3, mark_skip_point_outside _ _ _ _ (le_refl n)]

end point_loop_body

theorem sorted_index_mono (idx : List Int) (N : Nat) (h : sorted_by_index_camera idx N) :
    ∀ i j, i < j → j < N → index_of_observation idx i ≤ index_of_observation idx j := by
  intro i j hij hj
  rcases h i j hij hj with g | ⟨g, -⟩ <;> omega

theorem board_frame_skip_of_skips (stack : Nat → observation_board_t) (idx : List Int)
    (skipped : Option PyObject) (W : Int) (N : Nat)
    (hrange : ∀ i, i < N → 0 ≤ index_of_observation idx i ∧ index_of_observation idx i < 2 ^ 30)
    (hmono : ∀ i j, i < j → j < N → index_of_observation idx i ≤ index_of_observation idx j)
    (F : Int)
    (hF : ∀ i, i < N → index_of_observation idx i = F → board_loop_skips stack idx skipped W i)
    (i : Nat) (hi : i < N) (hiF : index_of_observation idx i = F) :
    (optimize_observations_board stack N idx skipped W i).skip_frame = true := by
  obtain ⟨h1, -, h3, h4⟩ := board_loop_frames stack idx skipped W N hrange hmono N (le_refl _)
  unfold optimize_observations_board
  by_cases hlast : F = index_of_observation idx (N - 1)
  · have hcs := h3 (by omega) (fun k hk hkf => hF k hk (hkf.trans hlast.symm))
    rw [if_pos (by rw [hcs]; exact (hrange (N - 1) (by omega)).1)]
    refine mark_skip_frame_set _ _ _ i (fun j hj1 hj2 => ?_) i (le_refl _) hi
    rw [h1 j hj2, hcs]
    have g1 : index_of_observation idx i ≤ index_of_observation idx j := by
      rcases Nat.eq_or_lt_of_le hj1 with h | h
      · rw [h]
      · exact hmono i j h (by omega)
    have g2 : index_of_observation idx j ≤ index_of_observation idx (N - 1) := by
      rcases Nat.eq_or_lt_of_le (Nat.le_sub_one_of_lt hj2) with h | h
      · rw [h]
      · exact hmono j (N - 1) h (by omega)
    omega
  · have hk := h4 i hi (by rw [hiF]; exact hlast)
      (fun k' hk' hk'f => hF k' hk' (hk'f.trans hiF))
    split
    · exact mark_skip_frame_keeps _ _ _ _ hk
    · exact hk

/-- C1, amended: for every list of board observations sorted by (i_frame,
i_camera) whose frame indices lie in 0 .. 2^30 - 1, the range of the 31-bit
field `i_frame`, and every skip list accepted by the validation (the number
of observations being an `int`), if every observation of a frame `F` is in the
skip list then after the board loop of `optimize` every observation of `F` has
`skip_frame = true`. -/
theorem frame_skip_derivation (stack : Nat → observation_board_t)
    (NobservationsBoard : Nat) (indices_frame_camera_board : List Int)
    (skipped_observations_board : Option PyObject) (c_calibration_object_width_n : Int)
    (F : Int)
    (hN : (NobservationsBoard : Int) < 2 ^ 31)
    (hsorted : sorted_by_index_camera indices_frame_camera_board NobservationsBoard)
    (hrange : ∀ i, i < NobservationsBoard →
      0 ≤ index_of_observation indices_frame_camera_board i ∧
      index_of_observation indices_frame_camera_board i < 2 ^ 30)
    (hvalid : validate_skipped_observations skipped_observations_board = true)
    (hF : ∀ i, i < NobservationsBoard → index_of_observation indices_frame_camera_board i = F →
      in_skip_list i skipped_observations_board) :
    ∀ i, i < NobservationsBoard → index_of_observation indices_frame_camera_board i = F →
      (optimize_observations_board stack NobservationsBoard indices_frame_camera_board
        skipped_observations_board c_calibration_object_width_n i).skip_frame = true := by
  intro i hi hiF
  refine board_frame_skip_of_skips stack _ _ _ _ hrange
    (sorted_index_mono _ _ hsorted) F (fun k hk hkF => ?_) i hi hiF
  exact board_loop_skips_of_mem stack _ _ _ hvalid k (by omega) (hF k hk hkF)

/-- Witness of C1: three observations, frame 0 seen by cameras 0 and 1 and
frame 1 by camera 0, with the skip list `[0, 1]`: both observations of frame 0
get `skip_frame = true`. -/
theorem frame_skip_derivation_witness :
    (optimize_observations_board stack_all_zeros 3 [0, 0, 0, 1, 1, 0]
      (some (PyList [PyInt 0, PyInt 1])) 10 0).skip_frame = true ∧
    (optimize_observations_board stack_all_zeros 3 [0, 0, 0, 1, 1, 0]
      (some (PyList [PyInt 0, PyInt 1])) 10 1).skip_frame = true := by
  have h := frame_skip_derivation stack_all_zeros 3 [0, 0, 0, 1, 1, 0]
    (some (PyList [PyInt 0, PyInt 1])) 10 0 (by norm_num)
    (by
      intro i j hij hj
      interval_cases j <;> interval_cases i <;> simp [index_of_observation,
        camera_of_observation, int_at])
    (by
      intro i hi
      interval_cases i <;> simp [index_of_observation, int_at])
    (by decide)
    (by
      intro i hi hF
      interval_cases i
      · exact ⟨_, _, rfl, rfl, by simp⟩
      · exact ⟨_, _, rfl, rfl, by simp⟩
      · simp [index_of_observation, int_at] at hF)
  exact ⟨h 0 (by omega) (by decide), h 1 (by omega) (by decide)⟩

/-- C1, counterexample: one observation, of frame 2^30, which the skip list
`[0]` skips; the list is sorted, the frame index is not negative, the skip
list is accepted and holds every observation of the frame, and yet the
observation ends with `skip_frame = false`. -/
theorem frame_skip_derivation_counterexample :
    sorted_by_index_camera [2 ^ 30, 0] 1 ∧
    (∀ i, i < 1 → 0 ≤ index_of_observation [2 ^ 30, 0] i) ∧
    validate_skipped_observations (some (PyList [PyInt 0])) = true ∧
    (∀ i, i < 1 → index_of_observation [2 ^ 30, 0] i = 2 ^ 30 →
      in_skip_list i (some (PyList [PyInt 0]))) ∧
    index_of_observation [2 ^ 30, 0] 0 = 2 ^ 30 ∧
    (optimize_observations_board stack_all_zeros 1 [2 ^ 30, 0]
      (some (PyList [PyInt 0])) 1 0).skip_frame = false := by
  refine ⟨?_, ?_, by decide, ?_, by decide, by decide⟩
  · intro i j hij hj
    omega
  · intro i hi
    interval_cases i
    decide
  · intro i hi _
    interval_cases i
    exact ⟨_, _, rfl, rfl, by simp⟩

theorem board_loop_body_after (idx : List Int) (sk : Option PyObject) (W : Int) (n : Nat)
    (s : board_loop_state) (k : Nat) (hk : n < k) :
    (board_loop_body idx sk W n s).c_observations_board k = s.c_observations_board k := by
  have hne : k ≠ n := by omega
  unfold board_loop_body
  by_cases h1 : (n : Int) = s.i_observation_board_next_skip <;>
    by_cases h2 : 0 ≤ s.i_frame_current_skipped <;>
    by_cases h3 : s.i_frame_current_skipped = int_at idx (n * 2) <;>
    simp [h1, h2, h3, Function.update_noteq hne, mark_skip_frame_outside _ _ _ _ (le_of_lt hk)]

theorem point_loop_body_after (idx : List Int) (obs : List double) (sk : Option PyObject)
    (n : Nat) (s : point_loop_state) (k : Nat) (hk : n < k) :
    (point_loop_body idx obs sk n s).c_observations_point k = s.c_observations_point k := by
  have hne : k ≠ n := by omega
  unfold point_loop_body
  by_cases h1 : (n : Int) = s.i_observation_point_next_skip <;>
    by_cases h2 : 0 ≤ s.i_point_current_skipped <;>
    by_cases h3 : s.i_point_current_skipped = int_at idx (n * 2) <;>
    simp [h1, h2, h3, Function.update_noteq hne, mark_skip_point_outside _ _ _ _ (le_of_lt hk)]

theorem same_flags_update (cb : Nat → observation_board_t) (cp : Nat → observation_point_t)
    (n : Nat) (x : observation_board_t) (y : observation_point_t)
    (h : ∀ k, same_flags (cb k) (cp k)) (hxy : same_flags x y) :
    ∀ k, same_flags (Function.update cb n x k) (Function.update cp n y k) := by
  intro k
  by_cases hk : k = n
  · subst hk
    rw [Function.update_same, Function.update_same]
    exact hxy
  · rw [Function.update_noteq hk, Function.update_noteq hk]
    exact h k

theorem mark_skip_same_flags (cs : Int) (n : Nat) (cb : Nat → observation_board_t)
    (cp : Nat → observation_point_t) (h : ∀ k, same_flags (cb k) (cp k)) :
    ∀ k, same_flags (mark_skip_frame cs n cb k) (mark_skip_point cs n cp k) := by
  induction n generalizing cb cp with
  | zero => exact h
  | succ n ih =>
    unfold mark_skip_frame mark_skip_point
    rw [(h n).2.2.1]
    split
    · refine ih _ _ (same_flags_update _ _ _ _ _ h ?_)
      obtain ⟨h1, h2, h3, h4⟩ := h n
      exact ⟨h1, rfl, h3, h4⟩
    · exact h

theorem loop_body_same_flags (idx : List Int) (obs : List double) (skipped : Option PyObject)
    (W : Int) (n : Nat) (sb : board_loop_state) (sp : point_loop_state)
    (hc : ∀ k, same_flags (sb.c_observations_board k) (sp.c_observations_point k))
    (h1 : sb.i_skipped_observation_board = sp.i_skipped_observation_point)
    (h2 : sb.i_observation_board_next_skip = sp.i_observation_point_next_skip)
    (h3 : sb.i_frame_current_skipped = sp.i_point_current_skipped)
    (h4 : sb.i_frame_last = sp.i_point_last) :
    (∀ k, same_flags ((board_loop_body idx skipped W n sb).c_observations_board k)
      ((point_loop_body idx obs skipped n sp).c_observations_point k)) ∧
    (board_loop_body idx skipped W n sb).i_skipped_observation_board =
      (point_loop_body idx obs skipped n sp).i_skipped_observation_point ∧
    (board_loop_body idx skipped W n sb).i_observation_board_next_skip =
      (point_loop_body idx obs skipped n sp).i_observation_point_next_skip ∧
    (board_loop_body idx skipped W n sb).i_frame_current_skipped =
      (point_loop_body idx obs skipped n sp).i_point_current_skipped ∧
    (board_loop_body idx skipped W n sb).i_frame_last =
      (point_loop_body idx obs skipped n sp).i_point_last := by
  refine ⟨fun k => ?_, ?_, ?_, ?_, ?_⟩
  · rcases Nat.lt_trichotomy k n with hk | hk | hk
    · rw [board_loop_body_before _ _ _ _ _ k hk, point_loop_body_before _ _ _ _ _ k hk, h3]
      split
      · exact mark_skip_same_flags _ _ _ _ hc k
      · exact hc k
    · subst hk
      obtain ⟨b1, b2, -, b4, b5⟩ := board_loop_body_at idx skipped W k sb
      obtain ⟨p1, p2, p4, p5⟩ := point_loop_body_at idx obs skipped k sp
      refine ⟨by rw [b2, p2], ?_, by rw [b1, p1], by rw [b4, p4, h2]⟩
      rw [b5, p5, h3, (hc k).2.1]
    · rw [board_loop_body_after _ _ _ _ _ k hk, point_loop_body_after _ _ _ _ _ k hk]
      exact hc k
  · rw [board_loop_body_pointer, point_loop_body_pointer, h1, h2]
  · rw [board_loop_body_next, point_loop_body_next, h1, h2]
  · rw [board_loop_body_current, point_loop_body_current, h2, h3, h4]
  · rw [board_loop_body_last, point_loop_body_last]

theorem loop_same_flags (stack : Nat → observation_point_t) (idx : List Int)
    (obs : List double) (skipped : Option PyObject) (W : Int) (n : Nat) :
    (∀ k, same_flags
      ((board_loop (fun k => as_board_observation (stack k)) idx skipped W n).c_observations_board k)
      ((point_loop stack idx obs skipped n).c_observations_point k)) ∧
    (board_loop (fun k => as_board_observation (stack k)) idx skipped W
        n).i_skipped_observation_board =
      (point_loop stack idx obs skipped n).i_skipped_observation_point ∧
    (board_loop (fun k => as_board_observation (stack k)) idx skipped W
        n).i_observation_board_next_skip =
      (point_loop stack idx obs skipped n).i_observation_point_next_skip ∧
    (board_loop (fun k => as_board_observation (stack k)) idx skipped W
        n).i_frame_current_skipped =
      (point_loop stack idx obs skipped n).i_point_current_skipped ∧
    (board_loop (fun k => as_board_observation (stack k)) idx skipped W n).i_frame_last =
      (point_loop stack idx obs skipped n).i_point_last := by
  induction n with
  | zero => exact ⟨fun k => ⟨rfl, rfl, rfl, rfl⟩, rfl, rfl, rfl, rfl⟩
  | succ n ih =>
    obtain ⟨hc, h1, h2, h3, h4⟩ := ih
    exact loop_body_same_flags idx obs skipped W n _ _ hc h1 h2 h3 h4

theorem optimize_observations_same_flags (stack : Nat → observation_point_t) (N : Nat)
    (idx : List Int) (obs : List double) (skipped : Option PyObject) (W : Int) (k : Nat) :
    same_flags
      (optimize_observations_board (fun k => as_board_observation (stack k)) N idx skipped W k)
      (optimize_observations_point stack N idx obs skipped k) := by
  obtain ⟨hc, -, -, h3, -⟩ := loop_same_flags stack idx obs skipped W N
  unfold optimize_observations_board optimize_observations_point
  simp only [h3]
  split
  · exact mark_skip_same_flags _ _ _ _ hc k
  · exact hc k

/-- C2, at the failing input: two observations, of frames 0 and 1, sorted,
with the accepted skip list `[0]`.  Frame 0 is skipped as a whole; observation
1 is kept, and its `skip_frame` is never written: it ends with whatever the
uninitialised array held, `true` when that memory had the bit set. -/
theorem skip_frame_after_skipped_frame :
    sorted_by_index_camera [0, 0, 1, 0] 2 ∧
    validate_skipped_observations (some (PyList [PyInt 0])) = true ∧
    (∀ (stack : Nat → observation_board_t) (W : Int),
      (optimize_observations_board stack 2 [0, 0, 1, 0] (some (PyList [PyInt 0])) W
        1).skip_observation = false ∧
      (optimize_observations_board stack 2 [0, 0, 1, 0] (some (PyList [PyInt 0])) W
        1).skip_frame = (stack 1).skip_frame) ∧
    (optimize_observations_board stack_all_ones 2 [0, 0, 1, 0] (some (PyList [PyInt 0])) 1
      1).skip_frame = true := by
  refine ⟨?_, by decide, fun stack W => ?_, by decide⟩
  · intro i j hij hj
    obtain rfl : j = 1 := by omega
    obtain rfl : i = 0 := by omega
    simp [index_of_observation, camera_of_observation, int_at]
  have h0 : board_loop stack [0, 0, 1, 0] (some (PyList [PyInt 0])) W 0 =
      ⟨stack, 0, 0, -1, -1⟩ := by
    simp [board_loop, board_loop_init, Nskipped_observations, PySequence_Size, sequence_items,
      next_skip, PySequence_GetItem, PyInt_AsLong, to_int, wrap_signed]
  have hcs1 : (board_loop stack [0, 0, 1, 0] (some (PyList [PyInt 0])) W
      1).i_frame_current_skipped = 0 := by
    show (board_loop_body _ _ _ 0 (board_loop stack _ _ W 0)).i_frame_current_skipped = 0
    rw [board_loop_body_current, h0]
    simp [index_of_observation, int_at]
  have hnext1 : (board_loop stack [0, 0, 1, 0] (some (PyList [PyInt 0])) W
      1).i_observation_board_next_skip = -1 := by
    show (board_loop_body _ _ _ 0 (board_loop stack _ _ W 0)).i_observation_board_next_skip = -1
    rw [board_loop_body_next, h0]
    simp [Nskipped_observations, PySequence_Size, sequence_items]
  have hc1 : (board_loop stack [0, 0, 1, 0] (some (PyList [PyInt 0])) W
      1).c_observations_board 1 = stack 1 := by
    show (board_loop_body _ _ _ 0 (board_loop stack _ _ W 0)).c_observations_board 1 = stack 1
    rw [board_loop_body_after _ _ _ _ _ 1 (by omega), h0]
  have hcs2 : (board_loop stack [0, 0, 1, 0] (some (PyList [PyInt 0])) W
      2).i_frame_current_skipped = -1 := by
    show (board_loop_body _ _ _ 1 (board_loop stack _ _ W 1)).i_frame_current_skipped = -1
    rw [board_loop_body_current, hnext1]
    simp
  have hat := board_loop_body_at [0, 0, 1, 0] (some (PyList [PyInt 0])) W 1
    (board_loop stack [0, 0, 1, 0] (some (PyList [PyInt 0])) W 1)
  rw [hcs1, hnext1, hc1] at hat
  unfold optimize_observations_board
  rw [if_neg (by rw [hcs2]; omega)]
  refine ⟨?_, ?_⟩
  · exact hat.2.2.2.1.trans (by simp)
  · exact hat.2.2.2.2.trans (by simp [index_of_observation, int_at])

/-- C3, amended: for every list of point observations sorted by (i_point,
i_camera) whose point indices lie in 0 .. 2^30 - 1, the range of the 31-bit
field `i_point`, and every skip list accepted by the validation (the number of
observations being an `int`), if every observation of a point `P` is in the
skip list then after the point loop of `optimize` every observation of `P` has
`skip_point = true`. -/
theorem point_skip_derivation (stack : Nat → observation_point_t)
    (NobservationsPoint : Nat) (indices_point_camera_points : List Int)
    (observations_point : List double) (skipped_observations_point : Option PyObject)
    (P : Int)
    (hN : (NobservationsPoint : Int) < 2 ^ 31)
    (hsorted : sorted_by_index_camera indices_point_camera_points NobservationsPoint)
    (hrange : ∀ i, i < NobservationsPoint →
      0 ≤ index_of_observation indices_point_camera_points i ∧
      index_of_observation indices_point_camera_points i < 2 ^ 30)
    (hvalid : validate_skipped_observations skipped_observations_point = true)
    (hP : ∀ i, i < NobservationsPoint → index_of_observation indices_point_camera_points i = P →
      in_skip_list i skipped_observations_point) :
    ∀ i, i < NobservationsPoint → index_of_observation indices_point_camera_points i = P →
      (optimize_observations_point stack NobservationsPoint indices_point_camera_points
        observations_point skipped_observations_point i).skip_point = true := by
  intro i hi hiP
  rw [← (optimize_observations_same_flags stack NobservationsPoint indices_point_camera_points
    observations_point skipped_observations_point 0 i).2.1]
  refine board_frame_skip_of_skips _ _ _ _ _ hrange
    (sorted_index_mono _ _ hsorted) P (fun k hk hkP => ?_) i hi hiP
  exact board_loop_skips_of_mem _ _ _ _ hvalid k (by omega) (hP k hk hkP)

/-- Witness of C3: three observations, point 0 seen by cameras 0 and 1 and
point 1 by camera 0, with the skip list `[0, 1]`: both observations of point 0
get `skip_point = true`. -/
theorem point_skip_derivation_witness :
    (optimize_observations_point stack_points_zeros 3 [0, 0, 0, 1, 1, 0] []
      (some (PyList [PyInt 0, PyInt 1])) 0).skip_point = true ∧
    (optimize_observations_point stack_points_zeros 3 [0, 0, 0, 1, 1, 0] []
      (some (PyList [PyInt 0, PyInt 1])) 1).skip_point = true := by
  have h := point_skip_derivation stack_points_zeros 3 [0, 0, 0, 1, 1, 0] []
    (some (PyList [PyInt 0, PyInt 1])) 0 (by norm_num)
    (by
      intro i j hij hj
      interval_cases j <;> interval_cases i <;> simp [index_of_observation,
        camera_of_observation, int_at])
    (by
      intro i hi
      interval_cases i <;> simp [index_of_observation, int_at])
    (by decide)
    (by
      intro i hi hF
      interval_cases i
      · exact ⟨_, _, rfl, rfl, by simp⟩
      · exact ⟨_, _, rfl, rfl, by simp⟩
      · simp [index_of_observation, int_at] at hF)
  exact ⟨h 0 (by omega) (by decide), h 1 (by omega) (by decide)⟩

/-- C3, counterexample: one observation, of point 2^30, which the skip list
`[0]` skips; the list is sorted, the point index is not negative, the skip
list is accepted and holds every observation of the point, and yet the
observation ends with `skip_point = false`. -/
theorem point_skip_derivation_counterexample :
    sorted_by_index_camera [2 ^ 30, 0] 1 ∧
    (∀ i, i < 1 → 0 ≤ index_of_observation [2 ^ 30, 0] i) ∧
    validate_skipped_observations (some (PyList [PyInt 0])) = true ∧
    (∀ i, i < 1 → index_of_observation [2 ^ 30, 0] i = 2 ^ 30 →
      in_skip_list i (some (PyList [PyInt 0]))) ∧
    index_of_observation [2 ^ 30, 0] 0 = 2 ^ 30 ∧
    (optimize_observations_point stack_points_zeros 1 [2 ^ 30, 0] []
      (some (PyList [PyInt 0])) 0).skip_point = false := by
  refine ⟨?_, ?_, by decide, ?_, by decide, by decide⟩
  · intro i j hij hj
    omega
  · intro i hi
    interval_cases i
    decide
  · intro i hi _
    interval_cases i
    exact ⟨_, _, rfl, rfl, by simp⟩

/-- C4, amended: for skip lists accepted by the validation all of whose
elements fit a C `int` (the numbers of observations being `int`s), the record
of observation `i` has `skip_observation = true` exactly when `i` occurs in
`skipped_observations_board`, and the record of point observation `i` exactly
when `i` occurs in `skipped_observations_point`. -/
theorem skip_observation_flags (stack_board : Nat → observation_board_t)
    (stack_point : Nat → observation_point_t) (NobservationsBoard NobservationsPoint : Nat)
    (indices_frame_camera_board indices_point_camera_points : List Int)
    (observations_point : List double)
    (skipped_observations_board skipped_observations_point : Option PyObject)
    (c_calibration_object_width_n : Int)
    (hNb : (NobservationsBoard : Int) < 2 ^ 31) (hNp : (NobservationsPoint : Int) < 2 ^ 31)
    (hvalidb : validate_skipped_observations skipped_observations_board = true)
    (hvalidp : validate_skipped_observations skipped_observations_point = true)
    (hfitb : skip_list_fits_int skipped_observations_board)
    (hfitp : skip_list_fits_int skipped_observations_point) :
    (∀ i, i < NobservationsBoard →
      ((optimize_observations_board stack_board NobservationsBoard indices_frame_camera_board
        skipped_observations_board c_calibration_object_width_n i).skip_observation = true ↔
        in_skip_list i skipped_observations_board)) ∧
    (∀ i, i < NobservationsPoint →
      ((optimize_observations_point stack_point NobservationsPoint indices_point_camera_points
        observations_point skipped_observations_point i).skip_observation = true ↔
        in_skip_list i skipped_observations_point)) := by
  constructor
  · intro i hi
    rw [optimize_board_skip_observation _ _ _ _ _ i hi]
    exact ⟨mem_of_board_loop_skips _ _ _ _ hvalidb hfitb i (by omega),
      board_loop_skips_of_mem _ _ _ _ hvalidb i (by omega)⟩
  · intro i hi
    rw [← (optimize_observations_same_flags stack_point NobservationsPoint
      indices_point_camera_points observations_point skipped_observations_point 0 i).2.2.2,
      optimize_board_skip_observation _ _ _ _ _ i hi]
    exact ⟨mem_of_board_loop_skips _ _ _ _ hvalidp hfitp i (by omega),
      board_loop_skips_of_mem _ _ _ _ hvalidp i (by omega)⟩

/-- Witness of C4: three board observations with the skip list `[0, 1]` and two
point observations with the skip list `[1]`. -/
theorem skip_observation_flags_witness :
    (∀ i, i < 3 →
      ((optimize_observations_board stack_all_ones 3 [0, 0, 0, 1, 1, 0]
        (some (PyList [PyInt 0, PyInt 1])) 10 i).skip_observation = true ↔
        in_skip_list i (some (PyList [PyInt 0, PyInt 1])))) ∧
    (∀ i, i < 2 →
      ((optimize_observations_point stack_points_zeros 2 [0, 0, 0, 1] []
        (some (PyList [PyInt 1])) i).skip_observation = true ↔
        in_skip_list i (some (PyList [PyInt 1])))) :=
  skip_observation_flags stack_all_ones stack_points_zeros 3 2 [0, 0, 0, 1, 1, 0] [0, 0, 0, 1]
    [] (some (PyList [PyInt 0, PyInt 1])) (some (PyList [PyInt 1])) 10
    (by norm_num) (by norm_num) (by decide) (by decide)
    (by
      intro o items ho hs v hv
      injection ho with ho
      subst ho
      injection hs with hs
      subst hs
      simp at hv
      omega)
    (by
      intro o items ho hs v hv
      injection ho with ho
      subst ho
      injection hs with hs
      subst hs
      simp at hv
      omega)

/-- C4, counterexample: one board observation and the skip list `[2^32]`,
which the validation accepts; 0 does not occur in the list, and yet
observation 0 ends with `skip_observation = true`. -/
theorem skip_observation_flags_counterexample :
    validate_skipped_observations (some (PyList [PyInt (2 ^ 32)])) = true ∧
    ¬ in_skip_list 0 (some (PyList [PyInt (2 ^ 32)])) ∧
    (optimize_observations_board stack_all_zeros 1 [0, 0] (some (PyList [PyInt (2 ^ 32)])) 1
      0).skip_observation = true := by
  refine ⟨by decide, ?_, by decide⟩
  rintro ⟨o, items, ho, hs, hm⟩
  injection ho with ho
  subst ho
  injection hs with hs
  subst hs
  simp at hm

theorem mark_skip_frame_only (cs : Int) (n : Nat) (c : Nat → observation_board_t) (k : Nat)
    (h : (mark_skip_frame cs n c k).skip_frame = true) :
    (c k).skip_frame = true ∨ (k < n ∧ (c k).i_frame = cs) := by
  induction n generalizing c with
  | zero => exact Or.inl h
  | succ n ih =>
    unfold mark_skip_frame at h
    split at h
    · rename_i hn
      by_cases hk : k = n
      · subst hk
        exact Or.inr ⟨by omega, hn⟩
      · rcases ih _ h with g | ⟨g1, g2⟩
        · rw [Function.update_noteq hk] at g
          exact Or.inl g
        · rw [Function.update_noteq hk] at g2
          exact Or.inr ⟨by omega, g2⟩
    · exact Or.inl h

theorem board_loop_untouched (stack : Nat → observation_board_t) (idx : List Int)
    (skipped : Option PyObject) (W : Int) (n : Nat) :
    ∀ k, n ≤ k → (board_loop stack idx skipped W n).c_observations_board k = stack k := by
  induction n with
  | zero => intro k _; rfl
  | succ n ih =>
    intro k hk
    show (board_loop_body idx skipped W n (board_loop stack idx skipped W n)).c_observations_board
      k = stack k
    rw [board_loop_body_after _ _ _ _ _ k (by omega)]
    exact ih k (by omega)

theorem board_loop_frames_only (stack : Nat → observation_board_t) (idx : List Int)
    (skipped : Option PyObject) (W : Int) (N : Nat)
    (hstack : ∀ k, (stack k).skip_frame = false)
    (hrange : ∀ i, i < N → 0 ≤ index_of_observation idx i ∧ index_of_observation idx i < 2 ^ 30)
    (hmono : ∀ i j, i < j → j < N → index_of_observation idx i ≤ index_of_observation idx j)
    (n : Nat) (hn : n ≤ N) :
    ((board_loop stack idx skipped W n).i_frame_current_skipped = -1 ∨
      (0 < n ∧
       (board_loop stack idx skipped W n).i_frame_current_skipped =
         index_of_observation idx (n - 1) ∧
       ∀ k, k < n → index_of_observation idx k = index_of_observation idx (n - 1) →
         board_loop_skips stack idx skipped W k)) ∧
    (∀ k, k < n →
      ((board_loop stack idx skipped W n).c_observations_board k).skip_frame = true →
      index_of_observation idx k ≠ index_of_observation idx (n - 1) ∧
      ∀ k', k' < n → index_of_observation idx k' = index_of_observation idx k →
        board_loop_skips stack idx skipped W k') := by
  induction n with
  | zero => exact ⟨Or.inl rfl, fun k hk => by omega⟩
  | succ n ih =>
    obtain ⟨iha, ihb⟩ := ih (by omega)
    obtain ⟨h1, h2, -, -⟩ := board_loop_frames stack idx skipped W N hrange hmono n (by omega)
    have hun := board_loop_untouched stack idx skipped W n n (le_refl _)
    have hstep : board_loop stack idx skipped W (n + 1) =
        board_loop_body idx skipped W n (board_loop stack idx skipped W n) := rfl
    have hskipn : board_loop_skips stack idx skipped W n ↔
        (n : Int) = (board_loop stack idx skipped W n).i_observation_board_next_skip := Iff.rfl
    rw [hstep]
    generalize board_loop stack idx skipped W n = s at iha ihb h1 h2 hun hskipn ⊢
    have hat := board_loop_body_at idx skipped W n s
    have hbefore := board_loop_body_before idx skipped W n s
    have hfr := hrange n (by omega)
    simp only [Nat.add_sub_cancel]
    have hprev : ∀ k, k < n → index_of_observation idx k ≤ index_of_observation idx (n - 1) := by
      intro k hk
      rcases Nat.eq_or_lt_of_le (Nat.le_sub_one_of_lt hk) with h | h
      · rw [h]
      · exact hmono k (n - 1) h (by omega)
    have hnext : 0 < n → index_of_observation idx (n - 1) ≤ index_of_observation idx n :=
      fun h0 => hmono (n - 1) n (by omega) (by omega)
    refine ⟨?_, ?_⟩
    · rw [board_loop_body_current]
      by_cases hit : (n : Int) = s.i_observation_board_next_skip
      · rw [if_pos hit]
        by_cases hlast : s.i_frame_last ≠ index_of_observation idx n
        · rw [if_pos hlast]
          refine Or.inr ⟨by omega, rfl, fun k hk hkf => ?_⟩
          rcases Nat.lt_succ_iff_lt_or_eq.1 hk with hk' | hk'
          · exfalso
            have hn0 : n ≠ 0 := by omega
            rw [if_neg hn0] at h2
            have := hprev k hk'
            have := hnext (by omega)
            rw [h2] at hlast
            omega
          · rw [hk']; exact hskipn.2 hit
        · rw [if_neg hlast]
          have hlast' : s.i_frame_last = index_of_observation idx n := not_not.1 hlast
          rcases iha with g | ⟨g0, g1, g2⟩
          · exact Or.inl g
          · have hn0 : n ≠ 0 := by omega
            rw [if_neg hn0] at h2
            refine Or.inr ⟨by omega, by rw [g1, ← h2, hlast'], fun k hk hkf => ?_⟩
            rcases Nat.lt_succ_iff_lt_or_eq.1 hk with hk' | hk'
            · exact g2 k hk' (by rw [hkf, ← hlast', h2])
            · rw [hk']; exact hskipn.2 hit
      · rw [if_neg hit]
        exact Or.inl rfl
    · intro k hk hsf
      rcases Nat.lt_succ_iff_lt_or_eq.1 hk with hk' | hk'
      · rw [hbefore k hk'] at hsf
        have hold : (s.c_observations_board k).skip_frame = true →
            index_of_observation idx k ≠ index_of_observation idx n ∧
            ∀ k', k' < n + 1 → index_of_observation idx k' = index_of_observation idx k →
              board_loop_skips stack idx skipped W k' := by
          intro g
          obtain ⟨g1, g2⟩ := ihb k hk' g
          have := hprev k hk'
          have := hnext (by omega)
          refine ⟨by omega, fun k' hk'' hkf => ?_⟩
          rcases Nat.lt_succ_iff_lt_or_eq.1 hk'' with h | h
          · exact g2 k' h hkf
          · subst h; omega
        split at hsf
        · rename_i hcond
          rcases mark_skip_frame_only _ _ _ _ hsf with g | ⟨-, g⟩
          · exact hold g
          · rw [h1 k hk'] at g
            rcases iha with a | ⟨a0, a1, a2⟩
            · omega
            · refine ⟨by rw [g]; exact hcond.2, fun k' hk'' hkf => ?_⟩
              rcases Nat.lt_succ_iff_lt_or_eq.1 hk'' with h | h
              · exact a2 k' h (by rw [hkf, g, a1])
              · subst h
                exact absurd (hkf.trans g).symm hcond.2
        · exact hold hsf
      · subst hk'
        rw [hat.2.2.2.2, hun, hstack] at hsf
        simp at hsf

/-- The converse of the frame-skip derivation when the memory is cleared: if
the uninitialised array happens to hold `skip_frame = false` everywhere, then
for a sorted list with frame indices in 0 .. 2^30 - 1 an observation ends with
`skip_frame = true` only if every observation of its frame ends with
`skip_observation = true`. -/
theorem skip_frame_only_if_cleared (stack : Nat → observation_board_t)
    (NobservationsBoard : Nat) (indices_frame_camera_board : List Int)
    (skipped_observations_board : Option PyObject) (c_calibration_object_width_n : Int)
    (hstack : ∀ k, (stack k).skip_frame = false)
    (hsorted : sorted_by_index_camera indices_frame_camera_board NobservationsBoard)
    (hrange : ∀ i, i < NobservationsBoard →
      0 ≤ index_of_observation indices_frame_camera_board i ∧
      index_of_observation indices_frame_camera_board i < 2 ^ 30)
    (i : Nat) (hi : i < NobservationsBoard)
    (hskip : (optimize_observations_board stack NobservationsBoard indices_frame_camera_board
      skipped_observations_board c_calibration_object_width_n i).skip_frame = true) :
    ∀ k, k < NobservationsBoard →
      index_of_observation indices_frame_camera_board k =
        index_of_observation indices_frame_camera_board i →
      (optimize_observations_board stack NobservationsBoard indices_frame_camera_board
        skipped_observations_board c_calibration_object_width_n k).skip_observation = true := by
  intro k hk hkf
  rw [optimize_board_skip_observation _ _ _ _ _ k hk]
  have hmono := sorted_index_mono _ _ hsorted
  obtain ⟨ha, hb⟩ := board_loop_frames_only stack indices_frame_camera_board
    skipped_observations_board c_calibration_object_width_n NobservationsBoard hstack hrange
    hmono NobservationsBoard (le_refl _)
  obtain ⟨h1, -, -, -⟩ := board_loop_frames stack indices_frame_camera_board
    skipped_observations_board c_calibration_object_width_n NobservationsBoard hrange hmono
    NobservationsBoard (le_refl _)
  unfold optimize_observations_board at hskip
  split at hskip
  · rename_i hcs
    rcases mark_skip_frame_only _ _ _ _ hskip with g | ⟨-, g⟩
    · exact (hb i hi g).2 k hk hkf
    · rw [h1 i hi] at g
      rcases ha with a | ⟨-, a1, a2⟩
      · omega
      · exact a2 k hk (by rw [hkf, g, a1])
  · exact (hb i hi hskip).2 k hk hkf

/-! ## Lemmas on `project` -/

theorem CHECK_LAYOUT_any_shape (x : PyArrayObject) (t : NPY_TYPES) :
    CHECK_LAYOUT (PyArrayArg.array x) t [] = true ↔ x.type = t ∧ x.c_contiguous = true := by
  simp [CHECK_LAYOUT]

/-- The validation of `project` returns `true` exactly on two arrays of
`double`, C-contiguous, `intrinsics` of one dimension and `points` of at least
one, the last of size 3, with a model name of a family that is not
`DISTORTION_INVALID` and as many intrinsics as the family has. -/
theorem project_validate_args_ok_iff (L : mrcal_library) (a : project_arguments)
    (f : distortion_model_t) :
    project_validate_args L a = Outcome.ok f ↔
      ∃ points intrinsics name,
        a.points = PyArrayArg.array points ∧ a.intrinsics = PyArrayArg.array intrinsics ∧
        a.distortion_model = PyString name ∧
        (points.type = NPY_DOUBLE ∧ points.c_contiguous = true) ∧
        (intrinsics.type = NPY_DOUBLE ∧ intrinsics.c_contiguous = true) ∧
        PyArray_NDIM intrinsics = 1 ∧ 1 ≤ PyArray_NDIM points ∧
        PyArray_DIMS points (PyArray_NDIM points - 1) = 3 ∧
        L.mrcal_distortion_model_from_name name = f ∧ f ≠ DISTORTION_INVALID ∧
        PyArray_DIMS intrinsics 0 = 4 + L.mrcal_getNdistortionParams f := by
  constructor
  · intro hok
    unfold project_validate_args at hok
    by_cases c0 : (CHECK_LAYOUT a.points NPY_DOUBLE [] &&
        CHECK_LAYOUT a.intrinsics NPY_DOUBLE []) = true
    · simp only [c0, Bool.not_true, Bool.false_eq_true, if_false] at hok
      cases hi : a.intrinsics <;> simp only [hi, deref, bind, Outcome.bind] at hok <;>
        try (simp at hok; done)
      rename_i intrinsics
      by_cases c1 : PyArray_NDIM intrinsics ≠ 1
      · simp [c1] at hok
      simp only [c1, if_false] at hok
      cases hp : a.points <;> simp only [hp] at hok <;> try (simp at hok; done)
      rename_i points
      by_cases c2 : PyArray_NDIM points < 1
      · simp [c2] at hok
      simp only [c2, if_false] at hok
      by_cases c3 : 3 ≠ PyArray_DIMS points (PyArray_NDIM points - 1)
      · simp [c3] at hok
      simp only [c3, if_false] at hok
      cases hd : a.distortion_model <;> simp only [hd, PyString_AsString] at hok <;>
        try (simp at hok; done)
      rename_i name
      by_cases c4 : L.mrcal_distortion_model_from_name name = DISTORTION_INVALID
      · simp [c4] at hok
      simp only [c4, if_false] at hok
      by_cases c5 : N_INTRINSICS_CORE +
          L.mrcal_getNdistortionParams (L.mrcal_distortion_model_from_name name) ≠
          PyArray_DIMS intrinsics 0
      · simp [c5] at hok
      simp only [c5, if_false, pure] at hok
      injection hok with hok
      subst hok
      rw [hp, hi, Bool.and_eq_true, CHECK_LAYOUT_any_shape, CHECK_LAYOUT_any_shape] at c0
      exact ⟨points, intrinsics, name, rfl, rfl, rfl, c0.1, c0.2, by simpa using c1,
        by omega, by simpa using (not_not.1 c3).symm, rfl, c4,
        by rw [← N_INTRINSICS_CORE_eq]; simpa using (not_not.1 c5).symm⟩
    · simp [c0, bind, Outcome.bind] at hok
  · rintro ⟨points, intrinsics, name, hp, hi, hd, hpl, hil, h1, h2, h3, hf, hne, hw⟩
    have c0 : (CHECK_LAYOUT (PyArrayArg.array points) NPY_DOUBLE [] &&
        CHECK_LAYOUT (PyArrayArg.array intrinsics) NPY_DOUBLE []) = true := by
      rw [Bool.and_eq_true, CHECK_LAYOUT_any_shape, CHECK_LAYOUT_any_shape]
      exact ⟨hpl, hil⟩
    have h2 : ¬ PyArray_NDIM points < 1 := by omega
    subst hf
    unfold project_validate_args
    simp only [hi, hp, hd, c0, Bool.not_true, Bool.false_eq_true, if_false, deref, bind,
      Outcome.bind, PyString_AsString]
    rw [N_INTRINSICS_CORE_eq]
    simp [h1, h2, h3, hne, hw, pure]

/-- On two arrays `project_validate_args` returns, `true` or `false`. -/
theorem project_validate_args_defined (L : mrcal_library) (a : project_arguments)
    (points intrinsics : PyArrayObject) (hp : a.points = PyArrayArg.array points)
    (hi : a.intrinsics = PyArrayArg.array intrinsics) :
    project_validate_args L a ≠ Outcome.crash := by
  unfold project_validate_args
  simp only [hp, hi, deref, bind, Outcome.bind, pure]
  split_ifs <;> try simp
  cases a.distortion_model <;> simp [PyString_AsString]
  split_ifs <;> simp

/-- When the validation returns `false`, `project` returns `NULL` and has not
called `mrcal_project`. -/
theorem project_rejected (L : mrcal_library) (S : mrcal_solver) (a : project_arguments)
    (h : project_validate_args L a = Outcome.fail) :
    project L S a = Outcome.ok ⟨none, none⟩ := by
  unfold project
  rw [h]

/-- The kernel `mrcal_project` is called only after the validation has
returned `true`. -/
theorem project_kernel_call_only_if_ok (L : mrcal_library) (S : mrcal_solver)
    (a : project_arguments) (r : project_return) (call : mrcal_project_call)
    (hr : project L S a = Outcome.ok r) (hc : r.kernel_call = some call) :
    ∃ m, project_validate_args L a = Outcome.ok m := by
  cases hv : project_validate_args L a with
  | ok m => exact ⟨m, rfl⟩
  | fail =>
    rw [project_rejected L S a hv] at hr
    injection hr with hr
    rw [← hr] at hc
    cases hc
  | crash =>
    unfold project at hr
    simp [hv] at hr

/-- On two arrays, a call of `project` that violates a condition of the
validation fails: the validation returns `false`, `project` returns `NULL`
and the kernel is not called. -/
theorem project_fails_on_arrays (L : mrcal_library) (S : mrcal_solver) (a : project_arguments)
    (points intrinsics : PyArrayObject) (hp : a.points = PyArrayArg.array points)
    (hi : a.intrinsics = PyArrayArg.array intrinsics)
    (hviolation : ¬ ∃ m, project_validate_args L a = Outcome.ok m) :
    project_validate_args L a = Outcome.fail ∧ project L S a = Outcome.ok ⟨none, none⟩ := by
  have hfail : project_validate_args L a = Outcome.fail := by
    cases hv : project_validate_args L a with
    | ok m => exact absurd ⟨m, hv⟩ hviolation
    | fail => rfl
    | crash => exact absurd hv (project_validate_args_defined L a points intrinsics hp hi)
  exact ⟨hfail, project_rejected L S a hfail⟩

theorem project_Npoints_take (l : List Nat) (n : Nat) (h : n ≤ l.length) :
    project_Npoints l n = (((l.take n).prod : Nat) : Int) := by
  unfold project_Npoints
  induction n with
  | zero => simp
  | succ n ih =>
    have hn : n < l.length := by omega
    rw [List.range_succ, List.foldl_append, ih (by omega)]
    simp only [List.foldl_cons, List.foldl_nil]
    rw [List.take_succ, List.prod_append, List.getD_eq_getElem _ _ hn,
      List.getElem?_eq_getElem hn]
    simp

theorem project_Npoints_prod (d : List Nat) (x : Nat) :
    project_Npoints (d ++ [x]) ((d ++ [x]).length - 1) = ((d.prod : Nat) : Int) := by
  rw [project_Npoints_take _ _ (by simp)]
  simp

/-- An accepted call of `project`: the call of `mrcal_project` it makes and
the object it returns. -/
theorem project_of_ok (L : mrcal_library) (S : mrcal_solver) (a : project_arguments)
    (m : distortion_model_t) (points intrinsics : PyArrayObject)
    (hp : a.points = PyArrayArg.array points) (hi : a.intrinsics = PyArrayArg.array intrinsics)
    (hok : project_validate_args L a = Outcome.ok m) :
    ∃ call out dxy_dintrinsics dxy_dp b1 b2,
      project L S a = Outcome.ok
        ⟨some (if PyObject_IsTrue a.get_gradients then
            project_result.tuple [out, dxy_dintrinsics, dxy_dp]
          else project_result.array out), some call⟩ ∧
      call.out = PyArray_SimpleNew (points.dims.take (PyArray_NDIM points - 1) ++ [2]) NPY_DOUBLE ∧
      call.dxy_dintrinsics = some b1 ∧ call.dxy_dp = some b2 ∧
      b1 = PyArray_SimpleNew (points.dims.take (PyArray_NDIM points - 1) ++
          [2, (PyArray_DIMS intrinsics 0).toNat]) NPY_DOUBLE ∧
      b2 = PyArray_SimpleNew (points.dims.take (PyArray_NDIM points - 1) ++ [2, 3]) NPY_DOUBLE ∧
      call.N = project_Npoints points.dims (PyArray_NDIM points - 1) ∧
      call.p = points.double_data ∧ call.distortion_model = m ∧
      call.intrinsics = intrinsics.double_data ∧
      out = { call.out with double_data := (S.mrcal_project call).out } ∧
      dxy_dintrinsics = { b1 with double_data := (S.mrcal_project call).dxy_dintrinsics } ∧
      dxy_dp = { b2 with double_data := (S.mrcal_project call).dxy_dp } := by
  unfold project
  rw [hok]
  simp only [hp, hi, deref, bind, Outcome.bind, get_gradients_pointer, Option.bind, Option.map,
    pure]
  cases PyObject_IsTrue a.get_gradients <;>
    exact ⟨_, _, _, _, _, _, rfl, rfl, rfl, rfl, rfl, rfl, rfl, rfl, rfl, rfl, rfl, rfl, rfl⟩

/-- C12: for every accepted `points` array of shape `d ++ [3]` (`d` may be
empty) and `intrinsics` of length `Nintrinsics`, `project` returns, having
called `mrcal_project` with `N` the product of `d` (1 for an empty `d`), and
`3 * N` is the number of elements of `points`; the pixel array, the one handed
to the kernel and the one returned, has shape `d ++ [2]`, `dxy_dintrinsics`
has shape `d ++ [2, Nintrinsics]` and `dxy_dp` has shape `d ++ [2, 3]`. -/
theorem project_output_layout (L : mrcal_library) (S : mrcal_solver) (a : project_arguments)
    (m : distortion_model_t) (points intrinsics : PyArrayObject) (d : List Nat)
    (Nintrinsics : Nat)
    (hp : a.points = PyArrayArg.array points) (hd : points.dims = d ++ [3])
    (hi : a.intrinsics = PyArrayArg.array intrinsics) (hn : intrinsics.dims = [Nintrinsics])
    (hok : project_validate_args L a = Outcome.ok m) :
    ∃ r call out dxy_dintrinsics dxy_dp,
      project L S a = Outcome.ok r ∧ r.kernel_call = some call ∧
      call.N = ((d.prod : Nat) : Int) ∧ 3 * call.N = ((PyArray_SIZE points : Nat) : Int) ∧
      (r.result = some (project_result.array out) ∨
        r.result = some (project_result.tuple [out, dxy_dintrinsics, dxy_dp])) ∧
      call.out.dims = d ++ [2] ∧ out.dims = d ++ [2] ∧
      (∃ b, call.dxy_dintrinsics = some b ∧ b.dims = d ++ [2, Nintrinsics]) ∧
      dxy_dintrinsics.dims = d ++ [2, Nintrinsics] ∧
      (∃ b, call.dxy_dp = some b ∧ b.dims = d ++ [2, 3]) ∧
      dxy_dp.dims = d ++ [2, 3] := by
  obtain ⟨call, out, di, dp, b1, b2, hproj, hout, hb1, hb2, hb1', hb2', hN, -, -, -, ho, hdi,
    hdp⟩ := project_of_ok L S a m points intrinsics hp hi hok
  have htake : points.dims.take (PyArray_NDIM points - 1) = d := by
    simp [PyArray_NDIM, hd]
  have hN0 : (PyArray_DIMS intrinsics 0).toNat = Nintrinsics := by
    simp [PyArray_DIMS, hn]
  rw [htake] at hout hb1' hb2'
  rw [hN0] at hb1'
  refine ⟨_, call, out, di, dp, hproj, rfl, ?_, ?_, ?_, ?_, ?_, ⟨b1, hb1, ?_⟩, ?_,
    ⟨b2, hb2, ?_⟩, ?_⟩
  · rw [hN, PyArray_NDIM, hd, project_Npoints_prod]
  · rw [hN, PyArray_NDIM, hd, project_Npoints_prod, PyArray_SIZE, hd]
    simp [mul_comm]
  · cases PyObject_IsTrue a.get_gradients
    · exact Or.inl (by simp)
    · exact Or.inr (by simp)
  · rw [hout]; rfl
  · rw [ho, hout]; rfl
  · rw [hb1']; rfl
  · rw [hdi, hb1']; rfl
  · rw [hb2']; rfl
  · rw [hdp, hb2']; rfl

/-- Witness of C12: points of shape (2, 5, 3) with the 8 intrinsics of
`DISTORTION_OPENCV4`: 10 points, arrays of shape (2, 5, 2), (2, 5, 2, 8) and
(2, 5, 2, 3). -/
theorem project_output_layout_witness :
    ∃ r call out dxy_dintrinsics dxy_dp,
      project library_of_list example_solver
        { example_project_arguments with points := array_argument [2, 5, 3] NPY_DOUBLE [] } =
        Outcome.ok r ∧ r.kernel_call = some call ∧
      call.N = 10 ∧ 3 * call.N = 30 ∧
      (r.result = some (project_result.array out) ∨
        r.result = some (project_result.tuple [out, dxy_dintrinsics, dxy_dp])) ∧
      call.out.dims = [2, 5, 2] ∧ out.dims = [2, 5, 2] ∧
      (∃ b, call.dxy_dintrinsics = some b ∧ b.dims = [2, 5, 2, 8]) ∧
      dxy_dintrinsics.dims = [2, 5, 2, 8] ∧
      (∃ b, call.dxy_dp = some b ∧ b.dims = [2, 5, 2, 3]) ∧
      dxy_dp.dims = [2, 5, 2, 3] :=
  project_output_layout library_of_list example_solver
    { example_project_arguments with points := array_argument [2, 5, 3] NPY_DOUBLE [] }
    DISTORTION_OPENCV4 _ _ [2, 5] 8 rfl rfl rfl rfl (by decide)

/-- C13: an accepted call of `project` calls `mrcal_project` on the data of
`points`, the number of points, the distortion model and the data of
`intrinsics` of the call, and returns the triple (pixels, dxy_dintrinsics,
dxy_dp), in that order, when `get_gradients` is true, and the pixel array alone
when it is false.  The pixel array has the leading dimensions of `points`
followed by 2 and holds what `mrcal_project` wrote to `out`; the two other
arrays are the derivative buffers of that call with the data written to them;
an omitted `get_gradients` is `Py_False`, which is false. -/
theorem project_return_value (L : mrcal_library) (S : mrcal_solver) (a : project_arguments)
    (m : distortion_model_t) (hok : project_validate_args L a = Outcome.ok m) :
    ∃ points intrinsics r call out dxy_dintrinsics dxy_dp,
      a.points = PyArrayArg.array points ∧ a.intrinsics = PyArrayArg.array intrinsics ∧
      project L S a = Outcome.ok r ∧ r.kernel_call = some call ∧
      call.p = points.double_data ∧
      call.N = project_Npoints points.dims (PyArray_NDIM points - 1) ∧
      call.distortion_model = m ∧ call.intrinsics = intrinsics.double_data ∧
      call.out = PyArray_SimpleNew (points.dims.take (PyArray_NDIM points - 1) ++ [2])
        NPY_DOUBLE ∧
      call.dxy_dintrinsics = some (PyArray_SimpleNew
        (points.dims.take (PyArray_NDIM points - 1) ++ [2, (PyArray_DIMS intrinsics 0).toNat])
        NPY_DOUBLE) ∧
      call.dxy_dp = some (PyArray_SimpleNew
        (points.dims.take (PyArray_NDIM points - 1) ++ [2, 3]) NPY_DOUBLE) ∧
      out = { PyArray_SimpleNew (points.dims.take (PyArray_NDIM points - 1) ++ [2]) NPY_DOUBLE
        with double_data := (S.mrcal_project call).out } ∧
      dxy_dintrinsics = { PyArray_SimpleNew
        (points.dims.take (PyArray_NDIM points - 1) ++ [2, (PyArray_DIMS intrinsics 0).toNat])
        NPY_DOUBLE with double_data := (S.mrcal_project call).dxy_dintrinsics } ∧
      dxy_dp = { PyArray_SimpleNew (points.dims.take (PyArray_NDIM points - 1) ++ [2, 3])
        NPY_DOUBLE with double_data := (S.mrcal_project call).dxy_dp } ∧
      r.result = some (if PyObject_IsTrue a.get_gradients = true then
        project_result.tuple [out, dxy_dintrinsics, dxy_dp] else project_result.array out) ∧
      (PyObject_IsTrue a.get_gradients = true →
        r.result = some (project_result.tuple [out, dxy_dintrinsics, dxy_dp])) ∧
      (PyObject_IsTrue a.get_gradients = false → r.result = some (project_result.array out)) ∧
      PyObject_IsTrue
        ({ points := a.points
           distortion_model := a.distortion_model
           intrinsics := a.intrinsics } : project_arguments).get_gradients = false := by
  obtain ⟨points, intrinsics, -, hp, hi, -⟩ := (project_validate_args_ok_iff L a m).1 hok
  obtain ⟨call, out, di, dp, b1, b2, hproj, hout, hb1, hb2, hb1', hb2', hN, hcp, hm, hci, ho,
    hdi, hdp⟩ := project_of_ok L S a m points intrinsics hp hi hok
  refine ⟨points, intrinsics, _, call, out, di, dp, hp, hi, hproj, rfl, hcp, hN, hm, hci, hout,
    ?_, ?_, ?_, ?_, ?_, rfl, ?_, ?_, rfl⟩
  · rw [hb1, hb1']
  · rw [hb2, hb2']
  · rw [ho, hout]
  · rw [hdi, hb1']
  · rw [hdp, hb2']
  · intro h; simp [h]
  · intro h; simp [h]

/-- Witness of C13: the example call of `project` on one point with
`get_gradients = True` returns the triple of arrays of shapes `(1, 2)`,
`(1, 2, 8)` and `(1, 2, 3)` that hold what `mrcal_project` wrote; the same call
without `get_gradients` returns the pixel array of shape `(1, 2)` alone. -/
theorem project_return_value_witness :
    (∃ r call out dxy_dintrinsics dxy_dp,
      project library_of_list example_solver
        { example_project_arguments with get_gradients := Py_True } = Outcome.ok r ∧
      r.kernel_call = some call ∧
      r.result = some (project_result.tuple [out, dxy_dintrinsics, dxy_dp]) ∧
      call.N = 1 ∧ call.distortion_model = DISTORTION_OPENCV4 ∧
      out.dims = [1, 2] ∧ out.double_data = (example_solver.mrcal_project call).out ∧
      dxy_dintrinsics.dims = [1, 2, 8] ∧
      dxy_dintrinsics.double_data = (example_solver.mrcal_project call).dxy_dintrinsics ∧
      dxy_dp.dims = [1, 2, 3] ∧
      dxy_dp.double_data = (example_solver.mrcal_project call).dxy_dp) ∧
    ∃ r call out,
      project library_of_list example_solver example_project_arguments = Outcome.ok r ∧
      r.kernel_call = some call ∧ r.result = some (project_result.array out) ∧
      call.N = 1 ∧ call.distortion_model = DISTORTION_OPENCV4 ∧
      out.dims = [1, 2] ∧ out.double_data = (example_solver.mrcal_project call).out := by
  constructor
  · obtain ⟨points, intrinsics, r, call, out, di, dp, hp, hi, hr, hc, -, hN, hm, -, -, -, -, ho,
      hdi, hdp, -, ht, -, -⟩ :=
      project_return_value library_of_list example_solver
        { example_project_arguments with get_gradients := Py_True } DISTORTION_OPENCV4
        (by decide)
    have hp' : PyArrayArg.array ⟨[1, 3], NPY_DOUBLE, true, [], []⟩ = PyArrayArg.array points :=
      hp
    have hi' : PyArrayArg.array ⟨[8], NPY_DOUBLE, true, [], []⟩ = PyArrayArg.array intrinsics :=
      hi
    injection hp' with hp'
    injection hi' with hi'
    subst hp' hi'
    refine ⟨r, call, out, di, dp, hr, hc, ht rfl, hN.trans (by decide), hm, ?_, ?_, ?_, ?_, ?_,
      ?_⟩
    · rw [ho]; rfl
    · rw [ho]
    · rw [hdi]; rfl
    · rw [hdi]
    · rw [hdp]; rfl
    · rw [hdp]
  · obtain ⟨points, intrinsics, r, call, out, di, dp, hp, hi, hr, hc, -, hN, hm, -, -, -, -, ho,
      -, -, -, -, hf, -⟩ :=
      project_return_value library_of_list example_solver example_project_arguments
        DISTORTION_OPENCV4 (by decide)
    have hp' : PyArrayArg.array ⟨[1, 3], NPY_DOUBLE, true, [], []⟩ = PyArrayArg.array points :=
      hp
    injection hp' with hp'
    subst hp'
    refine ⟨r, call, out, hr, hc, hf rfl, hN.trans (by decide), hm, ?_, ?_⟩
    · rw [ho]; rfl
    · rw [ho]

/-- C14, at the failing input: `project` called with `None` for the points.
The layout check skips `None`, `intrinsics` passes, and the validation then
reads `PyArray_NDIM` of `None`: the call neither succeeds nor fails, its
behaviour is undefined, for every implementation of the library. -/
theorem project_validate_args_None (L : mrcal_library) (S : mrcal_solver) :
    CHECK_LAYOUT project_arguments_None.points NPY_DOUBLE [] = true ∧
    project_validate_args L project_arguments_None = Outcome.crash ∧
    project L S project_arguments_None = Outcome.crash :=
  ⟨rfl, rfl, rfl⟩

/-! ## Lemmas on `queryIntrinsicOutliernessAt` -/

/-- On an array `v` the validation of `queryIntrinsicOutliernessAt` returns
`true` exactly when none of its checks fires, and else returns `false`. -/
theorem queryIntrinsicOutliernessAt_validate_args_array (a : qioa_arguments) (v : PyArrayObject)
    (hv : a.v = PyArrayArg.array v) :
    (queryIntrinsicOutliernessAt_validate_args a = Outcome.ok () ↔
      (1 ≤ PyArray_NDIM v ∧ PyArray_DIMS v (PyArray_NDIM v - 1) = 3 ∧
        CHECK_LAYOUT a.v NPY_DOUBLE [] = true ∧ 0 ≤ a.i_camera ∧
        ∃ c n, a.solver_context = some (PySolverContext c) ∧ c.ctx = some n)) ∧
    (queryIntrinsicOutliernessAt_validate_args a = Outcome.ok () ∨
      queryIntrinsicOutliernessAt_validate_args a = Outcome.fail) := by
  unfold queryIntrinsicOutliernessAt_validate_args
  simp only [hv, deref, bind, Outcome.bind, pure]
  by_cases c1 : PyArray_NDIM v < 1
  · rw [if_pos c1]
    exact ⟨⟨(fun h => by cases h), fun h => by omega⟩, Or.inr rfl⟩
  rw [if_neg c1]
  by_cases c2 : 3 ≠ PyArray_DIMS v (PyArray_NDIM v - 1)
  · rw [if_pos c2]
    exact ⟨⟨(fun h => by cases h), fun h => absurd h.2.1.symm c2⟩, Or.inr rfl⟩
  rw [if_neg c2]
  by_cases c3 : (!CHECK_LAYOUT (PyArrayArg.array v) NPY_DOUBLE []) = true
  · rw [if_pos c3]
    refine ⟨⟨(fun h => by cases h), fun h => ?_⟩, Or.inr rfl⟩
    rw [h.2.2.1] at c3
    cases c3
  rw [if_neg c3]
  by_cases c4 : a.i_camera < 0
  · rw [if_pos c4]
    exact ⟨⟨(fun h => by cases h), fun h => by omega⟩, Or.inr rfl⟩
  rw [if_neg c4]
  have h1 : 1 ≤ PyArray_NDIM v := by omega
  have h2 : PyArray_DIMS v (PyArray_NDIM v - 1) = 3 := (not_not.1 c2).symm
  have h3 : CHECK_LAYOUT (PyArrayArg.array v) NPY_DOUBLE [] = true := by simpa using c3
  have h4 : 0 ≤ a.i_camera := by omega
  cases hs : a.solver_context with
  | none => simp
  | some o =>
    cases o with
    | PySolverContext c =>
      cases hc : c.ctx with
      | none => simp [hc]
      | some n => simp [hc, h1, h2, h3, h4]
    | _ => simp

/-- An accepted call of `queryIntrinsicOutliernessAt`: the call of
`mrcal_queryIntrinsicOutliernessAt` it makes and the object it returns. -/
theorem queryIntrinsicOutliernessAt_of_ok (S : mrcal_solver) (a : qioa_arguments)
    (v : PyArrayObject) (c : SolverContext) (hv : a.v = PyArrayArg.array v)
    (hc : a.solver_context = some (PySolverContext c))
    (hok : queryIntrinsicOutliernessAt_validate_args a = Outcome.ok ()) :
    ∃ call : mrcal_query_call,
      queryIntrinsicOutliernessAt S a = Outcome.ok
        ⟨(S.mrcal_queryIntrinsicOutliernessAt call).map fun data =>
            { call.traces with double_data := data }, some call⟩ ∧
      call.traces = PyArray_SimpleNew (v.dims.take (PyArray_NDIM v - 1)) NPY_DOUBLE ∧
      call.N = ((PyArray_SIZE v / 3 : Nat) : Int) ∧ call.v = v.double_data ∧
      call.i_camera = a.i_camera ∧ call.Noutliers = a.Noutliers ∧ call.ctx = c.ctx ∧
      call.distortion_model = c.distortion_model ∧
      call.do_optimize_intrinsic_core = c.do_optimize_intrinsic_core ∧
      call.do_optimize_intrinsic_distortions = c.do_optimize_intrinsic_distortions ∧
      call.cahvor_radial_only = c.cahvor_radial_only := by
  unfold queryIntrinsicOutliernessAt
  rw [hok]
  simp only [hv, hc, deref, deref_object, bind, Outcome.bind, pure]
  refine ⟨⟨PyArray_SimpleNew (v.dims.take (PyArray_NDIM v - 1)) NPY_DOUBLE, c.distortion_model,
    c.do_optimize_intrinsic_core, c.do_optimize_intrinsic_distortions, c.cahvor_radial_only,
    a.i_camera, v.double_data, ((PyArray_SIZE v / 3 : Nat) : Int), a.Noutliers, c.ctx⟩,
    ?_, rfl, rfl, rfl, rfl, rfl, rfl, rfl, rfl, rfl, rfl⟩
  cases S.mrcal_queryIntrinsicOutliernessAt _ <;> rfl

/-- When the validation returns `false`, `queryIntrinsicOutliernessAt` returns
`NULL` and has not called the library. -/
theorem queryIntrinsicOutliernessAt_rejected (S : mrcal_solver) (a : qioa_arguments)
    (h : queryIntrinsicOutliernessAt_validate_args a = Outcome.fail) :
    queryIntrinsicOutliernessAt S a = Outcome.ok ⟨none, none⟩ := by
  unfold queryIntrinsicOutliernessAt
  rw [h]

/-- On an array `v`, a call of `queryIntrinsicOutliernessAt` on which a check
of the validation fires fails without a call of the library: `v` without
dimensions or with a last dimension that is not 3, a layout that is not that
of a contiguous array of `double`, `i_camera < 0`, a solver context that is
missing, `None`, of another type, or empty. -/
theorem queryIntrinsicOutliernessAt_fails_on_array (S : mrcal_solver) (a : qioa_arguments)
    (v : PyArrayObject) (hv : a.v = PyArrayArg.array v)
    (hviolation : PyArray_NDIM v < 1 ∨ PyArray_DIMS v (PyArray_NDIM v - 1) ≠ 3 ∨
      CHECK_LAYOUT a.v NPY_DOUBLE [] = false ∨ a.i_camera < 0 ∨
      a.solver_context = none ∨ a.solver_context = some Py_None ∨
      (∀ c, a.solver_context ≠ some (PySolverContext c)) ∨
      (∃ c, a.solver_context = some (PySolverContext c) ∧ c.ctx = none)) :
    queryIntrinsicOutliernessAt_validate_args a = Outcome.fail ∧
    queryIntrinsicOutliernessAt S a = Outcome.ok ⟨none, none⟩ := by
  obtain ⟨hiff, hdef⟩ := queryIntrinsicOutliernessAt_validate_args_array a v hv
  have hfail : queryIntrinsicOutliernessAt_validate_args a = Outcome.fail := by
    rcases hdef with hok | hfail
    · obtain ⟨h1, h2, h3, h4, c, n, hc, hn⟩ := hiff.1 hok
      rcases hviolation with g | g | g | g | g | g | g | ⟨c1, g, g1⟩
      · omega
      · exact absurd h2 g
      · rw [h3] at g; cases g
      · omega
      · rw [hc] at g; cases g
      · rw [hc] at g; cases g
      · exact absurd hc (g c)
      · rw [hc] at g
        injection g with g
        injection g with g
        rw [g, g1] at hn
        cases hn
    · exact hfail
  exact ⟨hfail, queryIntrinsicOutliernessAt_rejected S a hfail⟩

/-- C15, at the failing input: `queryIntrinsicOutliernessAt` called with
`None` for `v`, a negative `i_camera` and `None` for the solver context.  The
first statement of the validation reads `PyArray_NDIM` of `None`, before any
check: the call does not fail, its behaviour is undefined. -/
theorem query_validation_None (S : mrcal_solver) :
    qioa_arguments_None.i_camera < 0 ∧ qioa_arguments_None.solver_context = some Py_None ∧
    queryIntrinsicOutliernessAt_validate_args qioa_arguments_None = Outcome.crash ∧
    queryIntrinsicOutliernessAt S qioa_arguments_None = Outcome.crash :=
  ⟨by decide, rfl, rfl, rfl⟩

theorem CHECK_LAYOUT_observations_board (x : PyArrayObject) :
    CHECK_LAYOUT (PyArrayArg.array x) NPY_DOUBLE [-1, -1, -1, -1] = true ↔
      PyArray_NDIM x = 4 ∧ x.type = NPY_DOUBLE ∧ x.c_contiguous = true := by
  simp [CHECK_LAYOUT, List.range, List.range.loop, and_assoc]

/-- What the validation does establish on the shape of `observations_board`
when there are board observations: four dimensions, the second and the third
of the width of the calibration object. -/
theorem observations_board_shape_checked (L : mrcal_library) (a : optimize_arguments)
    (m : distortion_model_t) (observations_board : PyArrayObject)
    (hb : a.observations_board = PyArrayArg.array observations_board)
    (hN : 0 < PyArray_DIMS observations_board 0)
    (h : optimize_validate_args L a = Outcome.ok m) :
    PyArray_NDIM observations_board = 4 ∧
    ∃ w, a.calibration_object_width_n = some (PyInt w) ∧
      PyArray_DIMS observations_board 1 = to_int w ∧
      PyArray_DIMS observations_board 2 = to_int w := by
  have hstage := (optimize_validate_args_ok_iff L a m).1 h
  obtain ⟨d, w, -, -, hw, -, h1, h2⟩ :=
    validate_calibration_object_ok a observations_board hb hN hstage.2.2.1
  refine ⟨?_, w, hw, h1.symm, h2.symm⟩
  have hl := hstage.1
  unfold optimize_check_layout at hl
  simp only [Bool.and_eq_true] at hl
  have hob := hl.1.1.1.1.1.1.2
  rw [hb, CHECK_LAYOUT_observations_board] at hob
  exact hob.1

/-- C11, at the failing input: the validation never examines the last
dimension of `observations_board`, its verdict is the same for every size of
it; the example call with four observations of a 10 by 10 board is accepted
with `observations_board` of shape (4, 10, 10, 3). -/
theorem observations_board_last_dimension_unchecked :
    (∀ (L : mrcal_library) (a : optimize_arguments) (N W1 W2 d3 e3 : Nat) (type : NPY_TYPES)
        (c_contiguous : Bool) (int_data : List Int) (double_data : List double),
      optimize_validate_args L
        { a with observations_board :=
            PyArrayArg.array ⟨[N, W1, W2, d3], type, c_contiguous, int_data, double_data⟩ } =
      optimize_validate_args L
        { a with observations_board :=
            PyArrayArg.array ⟨[N, W1, W2, e3], type, c_contiguous, int_data, double_data⟩ }) ∧
    example_arguments.calibration_object_width_n = some (PyInt 10) ∧
    optimize_validate_args library_of_list
      { example_arguments with
        observations_board := array_argument [4, 10, 10, 3] NPY_DOUBLE [] } =
      Outcome.ok DISTORTION_OPENCV4 :=
  ⟨fun _ _ _ _ _ _ _ _ _ _ _ => rfl, rfl, by decide⟩

/-- When the validation returns `false`, `optimize` goes to `done`: it returns
`NULL`, has not called the solver and has written nothing. -/
theorem optimize_rejected (L : mrcal_library) (S : mrcal_solver)
    (stack_board : Nat → observation_board_t) (stack_point : Nat → observation_point_t)
    (a : optimize_arguments)
    (h : optimize_validate_args L (optimize_set_size0 a) = Outcome.fail) :
    optimize L S stack_board stack_point a =
      Outcome.ok ⟨none, none, a.intrinsics, a.extrinsics, a.frames, a.points, a.solver_context⟩ := by
  unfold optimize
  simp only [h]

theorem optimize_solve_ok (S : mrcal_solver) (stack_board : Nat → observation_board_t)
    (stack_point : Nat → observation_point_t) (a : optimize_arguments) (m : distortion_model_t)
    (call : mrcal_optimize_call)
    (h : optimize_solve S stack_board stack_point a m = Outcome.ok call) :
    ∃ arrays buffers, call = optimize_call stack_board stack_point a arrays m buffers := by
  unfold optimize_solve at h
  simp only [bind, Outcome.bind, pure] at h
  cases hd : optimize_deref a with
  | ok arrays =>
    simp only [hd] at h
    cases hb : optimize_allocate S stack_point a arrays m with
    | ok buffers =>
      simp only [hb] at h
      injection h with h
      exact ⟨arrays, buffers, h.symm⟩
    | fail => simp [hb] at h
    | crash => simp [hb] at h
  | fail => simp [hd] at h
  | crash => simp [hd] at h

/-- An accepted call of `optimize` that returns has called the solver and has
stored the settings of the solve in the solver context. -/
theorem optimize_accepted (L : mrcal_library) (S : mrcal_solver)
    (stack_board : Nat → observation_board_t) (stack_point : Nat → observation_point_t)
    (a : optimize_arguments) (m : distortion_model_t) (r : optimize_return)
    (hok : optimize_validate_args L (optimize_set_size0 a) = Outcome.ok m)
    (hr : optimize L S stack_board stack_point a = Outcome.ok r) :
    ∃ arrays buffers,
      r.solver_call =
        some (optimize_call stack_board stack_point (optimize_set_size0 a) arrays m buffers) ∧
      r.solver_context = optimize_solver_context (optimize_set_size0 a) m
        (S.mrcal_optimize (optimize_call stack_board stack_point (optimize_set_size0 a) arrays m
          buffers)).solver_context := by
  unfold optimize at hr
  simp only [hok] at hr
  cases hs : optimize_solve S stack_board stack_point (optimize_set_size0 a) m with
  | ok call =>
    simp only [hs] at hr
    injection hr with hr
    obtain ⟨arrays, buffers, hc⟩ := optimize_solve_ok S stack_board stack_point _ m call hs
    subst hc
    subst hr
    exact ⟨arrays, buffers, rfl, rfl⟩
  | fail => simp [hs] at hr
  | crash => simp [hs] at hr

/-- The validation looks at the type of the solver context only. -/
theorem validation_ignores_context (L : mrcal_library) (a : optimize_arguments)
    (c c1 : SolverContext) :
    optimize_validate_args L (optimize_set_size0 (on_solver_context a c)) =
      optimize_validate_args L (optimize_set_size0 (on_solver_context a c1)) := rfl

/-- The validation does not look at the four `do_optimize_*` arguments. -/
theorem validation_ignores_flags (L : mrcal_library) (a : optimize_arguments)
    (f1 f2 f3 f4 : PyObject) :
    optimize_validate_args L (optimize_set_size0
      { a with
        do_optimize_intrinsic_core := f1
        do_optimize_intrinsic_distortions := f2
        do_optimize_extrinsics := f3
        do_optimize_frames := f4 }) =
      optimize_validate_args L (optimize_set_size0 a) := rfl

/-- An accepted call of `optimize` on a solver context leaves the family and
the flags of the call in the context. -/
theorem optimize_context_accepted (L : mrcal_library) (S : mrcal_solver)
    (stack_board : Nat → observation_board_t) (stack_point : Nat → observation_point_t)
    (a : optimize_arguments) (c : SolverContext) (m : distortion_model_t) (r : optimize_return)
    (hok : optimize_validate_args L (optimize_set_size0 (on_solver_context a c)) = Outcome.ok m)
    (hr : optimize L S stack_board stack_point (on_solver_context a c) = Outcome.ok r) :
    ∃ c1, r.solver_context = some (PySolverContext c1) ∧ c1.distortion_model = m ∧
      c1.do_optimize_intrinsic_core = PyObject_IsTrue a.do_optimize_intrinsic_core ∧
      c1.do_optimize_intrinsic_distortions =
        PyObject_IsTrue a.do_optimize_intrinsic_distortions ∧
      c1.cahvor_radial_only = PyObject_IsTrue a.cahvor_radial_only := by
  obtain ⟨arrays, buffers, -, hc⟩ := optimize_accepted L S stack_board stack_point _ m r hok hr
  have hs : (optimize_set_size0 (on_solver_context a c)).solver_context =
      some (PySolverContext c) := rfl
  unfold optimize_solver_context at hc
  simp only [hs] at hc
  exact ⟨_, hc, rfl, rfl, rfl, rfl⟩

theorem optimize_sequence_cons (L : mrcal_library) (S : mrcal_solver) (i : optimize_invocation)
    (rest : List optimize_invocation) (c cf : SolverContext)
    (h : optimize_sequence L S (i :: rest) c = Outcome.ok cf) :
    ∃ r c1, optimize L S i.stack_board i.stack_point (on_solver_context i.arguments c) =
        Outcome.ok r ∧ r.solver_context = some (PySolverContext c1) ∧
      optimize_sequence L S rest c1 = Outcome.ok cf := by
  have hcons : optimize_sequence L S (i :: rest) c =
      (match optimize_on_context L S i c with
       | Outcome.ok c1 => optimize_sequence L S rest c1
       | _ => Outcome.crash) := rfl
  rw [hcons] at h
  unfold optimize_on_context at h
  cases hr : optimize L S i.stack_board i.stack_point (on_solver_context i.arguments c) with
  | ok r =>
    simp only [hr] at h
    cases hs : r.solver_context with
    | none => simp [hs] at h
    | some o =>
      cases o <;> simp only [hs] at h <;> try contradiction
      rename_i c1
      exact ⟨r, c1, rfl, hs, h⟩
  | fail => simp [hr] at h
  | crash => simp [hr] at h

/-- Calls of `optimize` that the validation rejects leave the solver context
as it is. -/
theorem optimize_sequence_rejected (L : mrcal_library) (S : mrcal_solver)
    (later : List optimize_invocation)
    (hrej : ∀ j ∈ later, ∃ c1,
      optimize_validate_args L (optimize_set_size0 (on_solver_context j.arguments c1)) =
        Outcome.fail)
    (c cf : SolverContext) (h : optimize_sequence L S later c = Outcome.ok cf) : cf = c := by
  induction later generalizing c with
  | nil =>
    have hnil : optimize_sequence L S [] c = Outcome.ok c := rfl
    rw [hnil] at h
    injection h with h
    exact h.symm
  | cons j rest ih =>
    obtain ⟨r, c1, hr, hc, hrest⟩ := optimize_sequence_cons L S j rest c cf h
    obtain ⟨c2, hfail⟩ := hrej j (List.mem_cons_self _ _)
    rw [validation_ignores_context L j.arguments c2 c] at hfail
    rw [optimize_rejected L S _ _ _ hfail] at hr
    injection hr with hr
    subst hr
    have hcc : c1 = c := by
      have h1 : (some (PySolverContext c) : Option PyObject) = some (PySolverContext c1) := hc
      injection h1 with h1
      injection h1 with h1
      exact h1.symm
    subst hcc
    exact ih (fun k hk => hrej k (List.mem_cons_of_mem _ hk)) c1 hrest

/-- C17: let `optimize` be called on the solver context `c` with arguments the
validation accepts, `m` being the family of the model name, and then any
number of times with arguments it rejects, `cf` being the context at the end.
The context right after the accepted call records `m`,
`do_optimize_intrinsic_core` and `do_optimize_intrinsic_distortions` of that
call, and every call of `queryIntrinsicOutliernessAt` on `cf` that reaches the
library hands it the family and the two flags of that call, the most recent
accepted one. -/
theorem solve_time_settings (L : mrcal_library) (S : mrcal_solver) (i : optimize_invocation)
    (later : List optimize_invocation) (c cf : SolverContext) (m : distortion_model_t)
    (hok : optimize_validate_args L (optimize_set_size0 (on_solver_context i.arguments c)) =
      Outcome.ok m)
    (hrej : ∀ j ∈ later, ∃ c1,
      optimize_validate_args L (optimize_set_size0 (on_solver_context j.arguments c1)) =
        Outcome.fail)
    (hseq : optimize_sequence L S (i :: later) c = Outcome.ok cf) :
    (∃ name, i.arguments.distortion_model = PyString name ∧
      m = L.mrcal_distortion_model_from_name name) ∧
    (∃ r c1, optimize L S i.stack_board i.stack_point (on_solver_context i.arguments c) =
        Outcome.ok r ∧ r.solver_context = some (PySolverContext c1) ∧
      c1.distortion_model = m ∧
      c1.do_optimize_intrinsic_core = PyObject_IsTrue i.arguments.do_optimize_intrinsic_core ∧
      c1.do_optimize_intrinsic_distortions =
        PyObject_IsTrue i.arguments.do_optimize_intrinsic_distortions) ∧
    ∀ (S1 : mrcal_solver) (q : qioa_arguments) (r : qioa_return) (call : mrcal_query_call),
      q.solver_context = some (PySolverContext cf) →
      queryIntrinsicOutliernessAt S1 q = Outcome.ok r → r.query_call = some call →
      call.distortion_model = m ∧
      call.do_optimize_intrinsic_core =
        PyObject_IsTrue i.arguments.do_optimize_intrinsic_core ∧
      call.do_optimize_intrinsic_distortions =
        PyObject_IsTrue i.arguments.do_optimize_intrinsic_distortions := by
  obtain ⟨r, c1, hr, hc, hrest⟩ := optimize_sequence_cons L S i later c cf hseq
  obtain ⟨c2, hc2, hm, hcore, hdist, -⟩ :=
    optimize_context_accepted L S _ _ i.arguments c m r hok hr
  have h12 : c1 = c2 := by
    rw [hc] at hc2
    injection hc2 with hc2
    injection hc2
  subst h12
  have hcf : cf = c1 := optimize_sequence_rejected L S later hrej c1 cf hrest
  subst hcf
  refine ⟨?_, ⟨r, cf, hr, hc, hm, hcore, hdist⟩, ?_⟩
  · have hstage := (optimize_validate_args_ok_iff L _ m).1 hok
    obtain ⟨name, intrinsics, h1, h2, -⟩ := validate_distortion_model_ok L _ m hstage.2.2.2.2.1
    exact ⟨name, h1, h2⟩
  · intro S1 q rq call hq hrq hcall
    cases hv : queryIntrinsicOutliernessAt_validate_args q with
    | crash =>
      unfold queryIntrinsicOutliernessAt at hrq
      simp [hv] at hrq
    | fail =>
      rw [queryIntrinsicOutliernessAt_rejected S1 q hv] at hrq
      injection hrq with hrq
      subst hrq
      simp at hcall
    | ok u =>
      cases hqv : q.v with
      | array v =>
        obtain ⟨call1, hq1, -, -, -, -, -, -, g1, g2, g3, -⟩ :=
          queryIntrinsicOutliernessAt_of_ok S1 q v cf hqv hq hv
        rw [hq1] at hrq
        injection hrq with hrq
        subst hrq
        simp only [Option.some.injEq] at hcall
        subst hcall
        exact ⟨g1.trans hm, g2.trans hcore, g3.trans hdist⟩
      | NULL =>
        unfold queryIntrinsicOutliernessAt_validate_args at hv
        simp [hqv, deref, bind, Outcome.bind] at hv
      | None =>
        unfold queryIntrinsicOutliernessAt_validate_args at hv
        simp [hqv, deref, bind, Outcome.bind] at hv

/-- Witness of C17: on an empty context, the example call with
`do_optimize_intrinsic_core = False`, accepted, then a call with
`DISTORTION_OPENCV8` and `do_optimize_intrinsic_distortions = False`,
rejected: a query is made with `DISTORTION_OPENCV4`, `false` and `true`. -/
theorem solve_time_settings_witness :
    optimize_sequence library_of_list example_solver
      [example_invocation, example_rejected_invocation] empty_context =
      Outcome.ok ⟨some 1, DISTORTION_OPENCV4, false, true, false⟩ ∧
    ∀ (S1 : mrcal_solver) (q : qioa_arguments) (r : qioa_return) (call : mrcal_query_call),
      q.solver_context =
        some (PySolverContext ⟨some 1, DISTORTION_OPENCV4, false, true, false⟩) →
      queryIntrinsicOutliernessAt S1 q = Outcome.ok r → r.query_call = some call →
      call.distortion_model = DISTORTION_OPENCV4 ∧
      call.do_optimize_intrinsic_core = false ∧
      call.do_optimize_intrinsic_distortions = true :=
  ⟨by decide,
    (solve_time_settings library_of_list example_solver example_invocation
      [example_rejected_invocation] empty_context
      ⟨some 1, DISTORTION_OPENCV4, false, true, false⟩ DISTORTION_OPENCV4 (by decide)
      (fun j hj => ⟨empty_context, by
        rw [List.mem_singleton] at hj
        subst hj
        decide⟩)
      (by decide)).2.2⟩

/-- C18: whenever `optimize_validate_args` returns `false`, `optimize`
returns `NULL` without a call of the solver, and the caller's `intrinsics`,
`extrinsics`, `frames` and `points` and the solver context, every field of
it, are as they were. -/
theorem validation_failure_atomic (L : mrcal_library) (S : mrcal_solver)
    (stack_board : Nat → observation_board_t) (stack_point : Nat → observation_point_t)
    (a : optimize_arguments)
    (h : optimize_validate_args L (optimize_set_size0 a) = Outcome.fail) :
    ∃ r, optimize L S stack_board stack_point a = Outcome.ok r ∧
      r.result = none ∧ r.solver_call = none ∧
      r.intrinsics = a.intrinsics ∧ r.extrinsics = a.extrinsics ∧ r.frames = a.frames ∧
      r.points = a.points ∧ r.solver_context = a.solver_context :=
  ⟨_, optimize_rejected L S stack_board stack_point a h, rfl, rfl, rfl, rfl, rfl, rfl, rfl⟩

/-- Witness of C18: the rejected example call, made on a context that holds
the state and the settings of an earlier solve. -/
theorem validation_failure_atomic_witness :
    ∃ r, optimize library_of_list example_solver stack_all_zeros stack_points_zeros
        (on_solver_context example_rejected_invocation.arguments
          ⟨some 7, DISTORTION_CAHVOR, true, false, true⟩) = Outcome.ok r ∧
      r.result = none ∧ r.solver_call = none ∧
      r.intrinsics = example_arguments.intrinsics ∧
      r.extrinsics = example_arguments.extrinsics ∧ r.frames = example_arguments.frames ∧
      r.points = example_arguments.points ∧
      r.solver_context = some (PySolverContext ⟨some 7, DISTORTION_CAHVOR, true, false, true⟩) :=
  validation_failure_atomic library_of_list example_solver stack_all_zeros stack_points_zeros
    (on_solver_context example_rejected_invocation.arguments
      ⟨some 7, DISTORTION_CAHVOR, true, false, true⟩) (by decide)

theorem example_arguments_none_reaches_solver :
    solver_problem_details (optimize library_of_list example_solver stack_all_zeros
      stack_points_zeros example_arguments_none) =
      some ⟨false, false, false, false, false, false⟩ := by
  decide

/-- C19, counterexample: the example call with the four `do_optimize_*`
arguments `False` has problem details with `IS_OPTIMIZE_NONE`, is accepted by
the validation, and `optimize` calls the solver with these problem details. -/
theorem problem_details_counterexample :
    IS_OPTIMIZE_NONE (optimize_problem_details example_arguments_none) = true ∧
    optimize_validate_args library_of_list (optimize_set_size0 example_arguments_none) =
      Outcome.ok DISTORTION_OPENCV4 ∧
    solver_problem_details (optimize library_of_list example_solver stack_all_zeros
      stack_points_zeros example_arguments_none) =
      some ⟨false, false, false, false, false, false⟩ := by
  decide

/-- C19, amended: `optimize` does not examine the problem details.  A call
that the validation accepts is accepted with any other four `do_optimize_*`
arguments, and when it returns it has called the solver with the four flags
as they were given. -/
theorem problem_details_not_examined (L : mrcal_library) (S : mrcal_solver)
    (stack_board : Nat → observation_board_t) (stack_point : Nat → observation_point_t)
    (a : optimize_arguments) (m : distortion_model_t) (r : optimize_return)
    (hok : optimize_validate_args L (optimize_set_size0 a) = Outcome.ok m)
    (hr : optimize L S stack_board stack_point a = Outcome.ok r) :
    (∀ f1 f2 f3 f4 : PyObject,
      optimize_validate_args L (optimize_set_size0
        { a with
          do_optimize_intrinsic_core := f1
          do_optimize_intrinsic_distortions := f2
          do_optimize_extrinsics := f3
          do_optimize_frames := f4 }) = Outcome.ok m) ∧
    ∃ call, r.solver_call = some call ∧
      call.problem_details.do_optimize_intrinsic_core =
        PyObject_IsTrue a.do_optimize_intrinsic_core ∧
      call.problem_details.do_optimize_intrinsic_distortions =
        PyObject_IsTrue a.do_optimize_intrinsic_distortions ∧
      call.problem_details.do_optimize_extrinsics = PyObject_IsTrue a.do_optimize_extrinsics ∧
      call.problem_details.do_optimize_frames = PyObject_IsTrue a.do_optimize_frames := by
  refine ⟨fun f1 f2 f3 f4 => (validation_ignores_flags L a f1 f2 f3 f4).trans hok, ?_⟩
  obtain ⟨arrays, buffers, hc, -⟩ := optimize_accepted L S stack_board stack_point a m r hok hr
  exact ⟨_, hc, rfl, rfl, rfl, rfl⟩

/-- Witness of C19: the example call with the four flags `False` returns,
having called the solver with none of the four flags set. -/
theorem problem_details_not_examined_witness :
    ∃ r call, optimize library_of_list example_solver stack_all_zeros stack_points_zeros
        example_arguments_none = Outcome.ok r ∧ r.solver_call = some call ∧
      IS_OPTIMIZE_NONE call.problem_details = true := by
  cases h : optimize library_of_list example_solver stack_all_zeros stack_points_zeros
      example_arguments_none with
  | ok r =>
    obtain ⟨-, call, hc, h1, h2, h3, h4⟩ :=
      problem_details_not_examined library_of_list example_solver stack_all_zeros
        stack_points_zeros example_arguments_none DISTORTION_OPENCV4 r (by decide) h
    refine ⟨r, call, rfl, hc, ?_⟩
    rw [IS_OPTIMIZE_NONE, h1, h2, h3, h4]
    decide
  | fail =>
    have h0 := example_arguments_none_reaches_solver
    rw [h] at h0
    cases h0
  | crash =>
    have h0 := example_arguments_none_reaches_solver
    rw [h] at h0
    cases h0

/-- Every call of the solver that `optimize` makes has `check_gradient`
`false`: the argument is the literal `false`. -/
theorem optimize_solver_call_check_gradient (L : mrcal_library) (S : mrcal_solver)
    (stack_board : Nat → observation_board_t) (stack_point : Nat → observation_point_t)
    (a : optimize_arguments) (r : optimize_return) (call : mrcal_optimize_call)
    (hr : optimize L S stack_board stack_point a = Outcome.ok r)
    (hc : r.solver_call = some call) : call.check_gradient = false := by
  cases hv : optimize_validate_args L (optimize_set_size0 a) with
  | ok m =>
    obtain ⟨arrays, buffers, hc1, -⟩ := optimize_accepted L S stack_board stack_point a m r hv hr
    rw [hc1] at hc
    injection hc with hc
    rw [← hc]
    rfl
  | fail =>
    rw [optimize_rejected L S stack_board stack_point a hv] at hr
    injection hr with hr
    rw [← hr] at hc
    cases hc
  | crash =>
    unfold optimize at hr
    simp [hv] at hr

theorem example_optimize_check_gradient :
    solver_check_gradient (optimize library_of_list example_solver stack_all_zeros
      stack_points_zeros example_arguments) = some false := by
  decide

theorem reaches_solver_of_check_gradient (o : Outcome optimize_return) (b : Bool)
    (h : solver_check_gradient o = some b) :
    ∃ r call, o = Outcome.ok r ∧ r.solver_call = some call := by
  cases o with
  | ok r =>
    cases hc : r.solver_call with
    | none => simp [solver_check_gradient, hc] at h
    | some call => exact ⟨r, call, rfl, hc⟩
  | fail => simp [solver_check_gradient] at h
  | crash => simp [solver_check_gradient] at h

/-- C20, counterexample: `optimize` takes no keyword `checkGradient` or
`check_gradient`, and there is no call of `optimize`, whatever its arguments,
in which the solver is called with `check_gradient = true`. -/
theorem check_gradient_counterexample :
    "checkGradient" ∉ optimize_keywords ∧ "check_gradient" ∉ optimize_keywords ∧
    ¬ ∃ (L : mrcal_library) (S : mrcal_solver) (stack_board : Nat → observation_board_t)
        (stack_point : Nat → observation_point_t) (a : optimize_arguments)
        (r : optimize_return) (call : mrcal_optimize_call),
      optimize L S stack_board stack_point a = Outcome.ok r ∧ r.solver_call = some call ∧
      call.check_gradient = true := by
  refine ⟨by decide, by decide, ?_⟩
  rintro ⟨L, S, sb, sp, a, r, call, hr, hc, ht⟩
  rw [optimize_solver_call_check_gradient L S sb sp a r call hr hc] at ht
  cases ht

/-- C20, amended: `optimize` has no check-gradient option: no keyword of it
is `checkGradient` or `check_gradient`, and every call of the solver that
`optimize` makes has `check_gradient = false`. -/
theorem check_gradient_false (L : mrcal_library) (S : mrcal_solver)
    (stack_board : Nat → observation_board_t) (stack_point : Nat → observation_point_t)
    (a : optimize_arguments) (r : optimize_return) (call : mrcal_optimize_call)
    (hr : optimize L S stack_board stack_point a = Outcome.ok r)
    (hc : r.solver_call = some call) :
    call.check_gradient = false ∧ ∀ name ∈ optimize_keywords,
      name ≠ "checkGradient" ∧ name ≠ "check_gradient" :=
  ⟨optimize_solver_call_check_gradient L S stack_board stack_point a r call hr hc, by decide⟩

/-- Witness of C20: the example call returns, having called the solver with
`check_gradient = false`. -/
theorem check_gradient_false_witness :
    ∃ r call, optimize library_of_list example_solver stack_all_zeros stack_points_zeros
        example_arguments = Outcome.ok r ∧ r.solver_call = some call ∧
      call.check_gradient = false := by
  obtain ⟨r, call, hr, hc⟩ := reaches_solver_of_check_gradient _ _ example_optimize_check_gradient
  exact ⟨r, call, hr, hc,
    (check_gradient_false library_of_list example_solver stack_all_zeros stack_points_zeros
      example_arguments r call hr hc).1⟩


/-! ## Lemmas on the report of `optimize` -/

/-- An accepted `validate_Ncameras` stage has read `intrinsics`, `extrinsics`
and `imagersizes` as arrays. -/
theorem validate_Ncameras_arrays (a : optimize_arguments)
    (h : validate_Ncameras a = Outcome.ok ()) :
    ∃ intrinsics extrinsics imagersizes, a.intrinsics = PyArrayArg.array intrinsics ∧
      a.extrinsics = PyArrayArg.array extrinsics ∧
      a.imagersizes = PyArrayArg.array imagersizes := by
  unfold validate_Ncameras at h
  cases hi : a.intrinsics <;> simp only [hi, deref, bind, Outcome.bind] at h <;>
    try contradiction
  cases he : a.extrinsics <;> simp only [he] at h <;> try contradiction
  cases hs : a.imagersizes <;> simp only [hs] at h
  · exfalso; revert h; split_ifs <;> simp
  · exfalso; revert h; split_ifs <;> simp
  · exact ⟨_, _, _, rfl, rfl, rfl⟩

/-- An accepted `validate_calibration_object` stage has read
`observations_board` and `indices_frame_camera_board` as arrays with the same
number of rows. -/
theorem validate_calibration_object_arrays (a : optimize_arguments)
    (h : validate_calibration_object a = Outcome.ok ()) :
    ∃ observations_board indices_frame_camera_board,
      a.observations_board = PyArrayArg.array observations_board ∧
      a.indices_frame_camera_board = PyArrayArg.array indices_frame_camera_board ∧
      PyArray_DIMS indices_frame_camera_board 0 = PyArray_DIMS observations_board 0 := by
  unfold validate_calibration_object at h
  cases hb : a.observations_board <;> simp only [hb, deref, bind, Outcome.bind] at h <;>
    try contradiction
  cases hi : a.indices_frame_camera_board <;> simp only [hi] at h <;> try contradiction
  rename_i ob idx
  refine ⟨ob, idx, rfl, rfl, ?_⟩
  by_contra c
  simp [c] at h

/-- An accepted `validate_NobservationsPoint` stage has read
`observations_point` and `indices_point_camera_points` as arrays with the same
number of rows. -/
theorem validate_NobservationsPoint_arrays (a : optimize_arguments)
    (h : validate_NobservationsPoint a = Outcome.ok ()) :
    ∃ observations_point indices_point_camera_points,
      a.observations_point = PyArrayArg.array observations_point ∧
      a.indices_point_camera_points = PyArrayArg.array indices_point_camera_points ∧
      PyArray_DIMS indices_point_camera_points 0 = PyArray_DIMS observations_point 0 := by
  unfold validate_NobservationsPoint at h
  cases hb : a.observations_point <;> simp only [hb, deref, bind, Outcome.bind] at h <;>
    try contradiction
  cases hi : a.indices_point_camera_points <;> simp only [hi] at h <;> try contradiction
  rename_i ob idx
  refine ⟨ob, idx, rfl, rfl, ?_⟩
  by_contra c
  simp [c] at h

/-- After `SET_SIZE0_IF_NONE` the argument is an array. -/
theorem SET_SIZE0_IF_NONE_array (x : PyArrayArg) (type : NPY_TYPES) (dims : List Nat) :
    ∃ y, SET_SIZE0_IF_NONE x type dims = PyArrayArg.array y := by
  cases x <;> exact ⟨_, rfl⟩

/-- The block of `optimize` after an accepted validation finds an array behind
every array argument it reads. -/
theorem optimize_validated_deref (L : mrcal_library) (a : optimize_arguments)
    (m : distortion_model_t)
    (hok : optimize_validate_args L (optimize_set_size0 a) = Outcome.ok m) :
    ∃ arrays, optimize_deref (optimize_set_size0 a) = Outcome.ok arrays ∧
      (optimize_set_size0 a).intrinsics = PyArrayArg.array arrays.intrinsics ∧
      (optimize_set_size0 a).extrinsics = PyArrayArg.array arrays.extrinsics ∧
      (optimize_set_size0 a).frames = PyArrayArg.array arrays.frames ∧
      (optimize_set_size0 a).points = PyArrayArg.array arrays.points ∧
      (optimize_set_size0 a).observations_board = PyArrayArg.array arrays.observations_board ∧
      (optimize_set_size0 a).indices_frame_camera_board =
        PyArrayArg.array arrays.indices_frame_camera_board ∧
      (optimize_set_size0 a).observations_point = PyArrayArg.array arrays.observations_point ∧
      (optimize_set_size0 a).indices_point_camera_points =
        PyArrayArg.array arrays.indices_point_camera_points ∧
      (optimize_set_size0 a).imagersizes = PyArrayArg.array arrays.imagersizes := by
  have hstage := (optimize_validate_args_ok_iff L _ m).1 hok
  obtain ⟨i, e, s, hi, he, hs⟩ := validate_Ncameras_arrays _ hstage.2.1
  obtain ⟨ob, idx, hob, hidx, -⟩ := validate_calibration_object_arrays _ hstage.2.2.1
  obtain ⟨op, idp, hop, hidp, -⟩ := validate_NobservationsPoint_arrays _ hstage.2.2.2.1
  obtain ⟨f, hf⟩ : ∃ y, (optimize_set_size0 a).frames = PyArrayArg.array y :=
    SET_SIZE0_IF_NONE_array _ _ _
  obtain ⟨p, hp⟩ : ∃ y, (optimize_set_size0 a).points = PyArrayArg.array y :=
    SET_SIZE0_IF_NONE_array _ _ _
  refine ⟨⟨i, e, f, p, ob, idx, op, idp, s⟩, ?_, hi, he, hf, hp, hob, hidx, hop, hidp, hs⟩
  unfold optimize_deref
  simp only [hi, he, hf, hp, hob, hidx, hop, hidp, hs, deref, bind, Outcome.bind, pure]


/-- A freshly made array of non-negative dimensions is there to be written to. -/
theorem deref_new_checked (dims : List Int) (type : NPY_TYPES) :
    deref_new (PyArray_SimpleNew_checked dims type) =
      if (dims.all fun d => decide (0 ≤ d)) = true then
        Outcome.ok (PyArray_SimpleNew (dims.map Int.toNat) type)
      else Outcome.crash := by
  unfold PyArray_SimpleNew_checked
  split_ifs <;> rfl

/-- A dimension of an array is not negative. -/
theorem PyArray_DIMS_nonneg (x : PyArrayObject) (i : Nat) : 0 ≤ PyArray_DIMS x i := by
  unfold PyArray_DIMS
  exact Int.natCast_nonneg _

/-- The count `Npoints_fromBoards` is the product of the three numbers when
that fits an `int`. -/
theorem optimize_Npoints_fromBoards_of_fits (a : optimize_arguments) (arrays : optimize_arrays)
    (hW : 0 ≤ optimize_calibration_object_width_n a (PyArray_DIMS arrays.observations_board 0))
    (hfit : PyArray_DIMS arrays.observations_board 0 *
      optimize_calibration_object_width_n a (PyArray_DIMS arrays.observations_board 0) *
      optimize_calibration_object_width_n a (PyArray_DIMS arrays.observations_board 0) <
        2 ^ 31) :
    optimize_Npoints_fromBoards a arrays =
      PyArray_DIMS arrays.observations_board 0 *
        optimize_calibration_object_width_n a (PyArray_DIMS arrays.observations_board 0) *
        optimize_calibration_object_width_n a (PyArray_DIMS arrays.observations_board 0) := by
  have hN := PyArray_DIMS_nonneg arrays.observations_board 0
  unfold optimize_Npoints_fromBoards
  simp only []
  generalize optimize_calibration_object_width_n a (PyArray_DIMS arrays.observations_board 0) = W
    at hW hfit ⊢
  generalize PyArray_DIMS arrays.observations_board 0 = N at hN hfit ⊢
  have hNW : 0 ≤ N * W := mul_nonneg hN hW
  have hNWW : 0 ≤ N * W * W := mul_nonneg hNW hW
  have hle : N * W < 2 ^ 31 := by
    rcases hW.eq_or_lt with h0 | hpos
    · rw [← h0]; norm_num
    · have : N * W * 1 ≤ N * W * W := mul_le_mul_of_nonneg_left (by omega) hNW
      omega
  rw [to_int_of_fits (N * W) (by omega) hle, to_int_of_fits (N * W * W) (by omega) hfit]

/-- The output arrays that `optimize` makes: they are made when the number of
measurements, the number of intrinsics and the `int` product
`Npoints_fromBoards` are not negative, and then have the sizes the code
computes. -/
theorem optimize_allocate_eq (S : mrcal_solver) (stack_point : Nat → observation_point_t)
    (a : optimize_arguments) (arrays : optimize_arrays) (m : distortion_model_t)
    (hN : 0 ≤ optimize_Nmeasurements S stack_point a arrays m)
    (hI : set_and_true a.get_intrinsic_covariances = true → 0 ≤ S.mrcal_getNintrinsicParams m)
    (hP : 0 ≤ optimize_Npoints_fromBoards a arrays) :
    optimize_allocate S stack_point a arrays m = Outcome.ok
      ⟨PyArray_SimpleNew [(optimize_Nmeasurements S stack_point a arrays m).toNat] NPY_DOUBLE,
       if S.mrcal_getNintrinsicParams m ≠ 0 ∧ set_and_true a.get_intrinsic_covariances = true
       then some (PyArray_SimpleNew [(PyArray_DIMS arrays.intrinsics 0).toNat,
         (S.mrcal_getNintrinsicParams m).toNat, (S.mrcal_getNintrinsicParams m).toNat] NPY_DOUBLE)
       else none,
       PyArray_SimpleNew [(optimize_Npoints_fromBoards a arrays).toNat] NPY_INT,
       PyArray_SimpleNew [(optimize_Npoints_fromBoards a arrays).toNat] NPY_INT⟩ := by
  have hcam := PyArray_DIMS_nonneg arrays.intrinsics 0
  unfold optimize_allocate
  simp only [bind, Outcome.bind, pure, deref_new_checked]
  by_cases hc : S.mrcal_getNintrinsicParams m ≠ 0 ∧
      set_and_true a.get_intrinsic_covariances = true
  · have hI' := hI hc.2
    simp [hc, hN, hP, hcam, hI']
  · simp [hc, hN, hP]

/-- When `optimize_allocate` has made the arrays, the counts were not
negative. -/
theorem optimize_allocate_ok (S : mrcal_solver) (stack_point : Nat → observation_point_t)
    (a : optimize_arguments) (arrays : optimize_arrays) (m : distortion_model_t)
    (buffers : optimize_buffers)
    (h : optimize_allocate S stack_point a arrays m = Outcome.ok buffers) :
    0 ≤ optimize_Nmeasurements S stack_point a arrays m ∧
    (S.mrcal_getNintrinsicParams m ≠ 0 → set_and_true a.get_intrinsic_covariances = true →
      0 ≤ S.mrcal_getNintrinsicParams m) ∧
    0 ≤ optimize_Npoints_fromBoards a arrays := by
  unfold optimize_allocate at h
  simp only [bind, Outcome.bind, pure, deref_new_checked] at h
  by_cases hN : 0 ≤ optimize_Nmeasurements S stack_point a arrays m
  · refine ⟨hN, fun h0 ht => ?_, ?_⟩
    · by_contra hI
      simp [hN, h0, ht, hI] at h
    · by_contra hP
      by_cases hc : S.mrcal_getNintrinsicParams m ≠ 0 ∧
          set_and_true a.get_intrinsic_covariances = true
      · by_cases hI : 0 ≤ S.mrcal_getNintrinsicParams m
        · simp [hN, hc, hI, hP, PyArray_DIMS_nonneg] at h
        · simp [hN, hc, hI] at h
      · simp [hN, hc, hP] at h
  · simp [hN] at h


/-- The dictionary of `optimize` is made exactly when the two counts that the
solver reports are not negative, and then holds these items. -/
theorem optimize_pystats_eq (call : mrcal_optimize_call) (r : mrcal_optimize_result) :
    optimize_pystats call r =
      if 0 ≤ r.stats.Noutliers ∧ 0 ≤ r.stats.NoutsideROI then
        some ([("rms_reproj_error__pixels",
            dict_value.object (PyFloat r.stats.rms_reproj_error__pixels)),
          ("Noutliers", dict_value.object (PyInt r.stats.Noutliers)),
          ("x", dict_value.array { call.x_final with double_data := r.x_final })] ++
          (match call.intrinsic_covariances with
           | some c => [("intrinsic_covariances",
               dict_value.array { c with double_data := r.intrinsic_covariances })]
           | none => []) ++
          [("outlier_indices", dict_value.array
              { call.outlier_indices_final with
                dims := [r.stats.Noutliers.toNat]
                int_data := r.outlier_indices_final.take r.stats.Noutliers.toNat ++
                  List.replicate (r.stats.Noutliers.toNat - r.outlier_indices_final.length) 0 }),
           ("outside_ROI_indices", dict_value.array
              { call.outside_ROI_indices_final with
                dims := [r.stats.NoutsideROI.toNat]
                int_data := r.outside_ROI_indices_final.take r.stats.NoutsideROI.toNat ++
                  List.replicate
                    (r.stats.NoutsideROI.toNat - r.outside_ROI_indices_final.length) 0 })])
      else none := by
  unfold optimize_pystats PyArray_Resize
  by_cases h1 : r.stats.Noutliers < 0
  · have : ¬ (0 ≤ r.stats.Noutliers) := by omega
    simp [h1, this]
  · by_cases h2 : r.stats.NoutsideROI < 0
    · have : ¬ (0 ≤ r.stats.NoutsideROI) := by omega
      simp [h1, h2, this]
    · have g1 : 0 ≤ r.stats.Noutliers := by omega
      have g2 : 0 ≤ r.stats.NoutsideROI := by omega
      simp [h1, h2, g1, g2]

/-- An accepted call of `optimize` that returns: the arrays it reads, the
arrays it makes, the call of the solver and the object returned. -/
theorem optimize_accepted_full (L : mrcal_library) (S : mrcal_solver)
    (stack_board : Nat → observation_board_t) (stack_point : Nat → observation_point_t)
    (a : optimize_arguments) (m : distortion_model_t) (r : optimize_return)
    (hok : optimize_validate_args L (optimize_set_size0 a) = Outcome.ok m)
    (hr : optimize L S stack_board stack_point a = Outcome.ok r) :
    ∃ arrays buffers,
      optimize_deref (optimize_set_size0 a) = Outcome.ok arrays ∧
      optimize_allocate S stack_point (optimize_set_size0 a) arrays m = Outcome.ok buffers ∧
      r.solver_call =
        some (optimize_call stack_board stack_point (optimize_set_size0 a) arrays m buffers) ∧
      r.result = optimize_pystats
        (optimize_call stack_board stack_point (optimize_set_size0 a) arrays m buffers)
        (S.mrcal_optimize
          (optimize_call stack_board stack_point (optimize_set_size0 a) arrays m buffers)) := by
  unfold optimize at hr
  simp only [hok] at hr
  unfold optimize_solve at hr
  simp only [bind, Outcome.bind, pure] at hr
  cases hd : optimize_deref (optimize_set_size0 a) with
  | ok arrays =>
    simp only [hd] at hr
    cases hb : optimize_allocate S stack_point (optimize_set_size0 a) arrays m with
    | ok buffers =>
      simp only [hb] at hr
      injection hr with hr
      subst hr
      exact ⟨arrays, buffers, rfl, hb, rfl, rfl⟩
    | fail => simp [hb] at hr
    | crash => simp [hb] at hr
  | fail => simp [hd] at hr
  | crash => simp [hd] at hr

/-- The line `SET_SIZE0_IF_NONE` leaves an array alone. -/
theorem SET_SIZE0_IF_NONE_of_array (x : PyArrayArg) (y : PyArrayObject) (type : NPY_TYPES)
    (dims : List Nat) (h : x = PyArrayArg.array y) :
    SET_SIZE0_IF_NONE x type dims = PyArrayArg.array y := by
  rw [h]; rfl

/-- With board observations, an accepted call has an `observations_board` of
four dimensions, the second and the third of the width that `optimize` hands
to the solver. -/
theorem optimize_accepted_width (L : mrcal_library) (a : optimize_arguments)
    (m : distortion_model_t) (ob : PyArrayObject)
    (hob : a.observations_board = PyArrayArg.array ob)
    (hN : 0 < PyArray_DIMS ob 0)
    (hok : optimize_validate_args L (optimize_set_size0 a) = Outcome.ok m) :
    PyArray_NDIM ob = 4 ∧
    PyArray_DIMS ob 1 = optimize_calibration_object_width_n a (PyArray_DIMS ob 0) ∧
    PyArray_DIMS ob 2 = optimize_calibration_object_width_n a (PyArray_DIMS ob 0) := by
  have e1 : (optimize_set_size0 a).observations_board = PyArrayArg.array ob :=
    SET_SIZE0_IF_NONE_of_array _ _ _ _ hob
  obtain ⟨h4, w, hw, h1, h2⟩ := observations_board_shape_checked L _ m ob e1 hN hok
  have hw' : a.calibration_object_width_n = some (PyInt w) := hw
  have hne : PyArray_DIMS ob 0 ≠ 0 := by omega
  have hW : optimize_calibration_object_width_n a (PyArray_DIMS ob 0) = to_int w := by
    unfold optimize_calibration_object_width_n
    simp [hne, hw', PyInt_Check, PyInt_AsLong]
  exact ⟨h4, h1.trans hW.symm, h2.trans hW.symm⟩


/-- In an accepted call whose number of board points fits an `int`, the count
`Npoints_fromBoards` is the product `NobservationsBoard * W * W`. -/
theorem optimize_Npoints_fromBoards_accepted (L : mrcal_library) (a : optimize_arguments)
    (m : distortion_model_t) (arrays : optimize_arrays)
    (hok : optimize_validate_args L (optimize_set_size0 a) = Outcome.ok m)
    (hd : optimize_deref (optimize_set_size0 a) = Outcome.ok arrays)
    (hfit : optimize_board_points a < 2 ^ 31) :
    optimize_Npoints_fromBoards (optimize_set_size0 a) arrays =
      PyArray_DIMS arrays.observations_board 0 *
        optimize_calibration_object_width_n (optimize_set_size0 a)
          (PyArray_DIMS arrays.observations_board 0) *
        optimize_calibration_object_width_n (optimize_set_size0 a)
          (PyArray_DIMS arrays.observations_board 0) := by
  obtain ⟨arrays1, hd1, -, -, -, -, hob, -⟩ := optimize_validated_deref L a m hok
  rw [hd] at hd1
  injection hd1 with hd1
  subst hd1
  have hN := PyArray_DIMS_nonneg arrays.observations_board 0
  rcases hN.eq_or_lt with h0 | hpos
  · have hW : optimize_calibration_object_width_n (optimize_set_size0 a)
        (PyArray_DIMS arrays.observations_board 0) = 0 := by
      unfold optimize_calibration_object_width_n
      simp [← h0]
    apply optimize_Npoints_fromBoards_of_fits
    · rw [hW]
    · rw [hW]; norm_num
  · cases hx : a.observations_board with
    | array ob =>
      have e1 : (optimize_set_size0 a).observations_board = PyArrayArg.array ob :=
        SET_SIZE0_IF_NONE_of_array _ _ _ _ hx
      rw [e1] at hob
      injection hob with hob
      subst hob
      obtain ⟨-, h1, h2⟩ := optimize_accepted_width L a m _ hx hpos hok
      have hfit' : PyArray_DIMS arrays.observations_board 0 *
          PyArray_DIMS arrays.observations_board 1 *
          PyArray_DIMS arrays.observations_board 2 < 2 ^ 31 := by
        unfold optimize_board_points at hfit
        rw [hx] at hfit
        exact hfit
      have hW : optimize_calibration_object_width_n (optimize_set_size0 a)
          (PyArray_DIMS arrays.observations_board 0) =
          optimize_calibration_object_width_n a (PyArray_DIMS arrays.observations_board 0) :=
        rfl
      apply optimize_Npoints_fromBoards_of_fits
      · rw [hW, ← h1]; exact PyArray_DIMS_nonneg _ _
      · rw [hW, ← h1]
        nth_rewrite 2 [h1]
        rw [← h2]
        exact hfit'
    | NULL =>
      have e1 : (optimize_set_size0 a).observations_board =
          SET_SIZE0_IF_NONE PyArrayArg.NULL NPY_DOUBLE [0, 179, 171, 2] := by
        show SET_SIZE0_IF_NONE a.observations_board _ _ = _
        rw [hx]
      rw [e1] at hob
      have : PyArray_DIMS arrays.observations_board 0 = 0 := by
        injection hob with hob
        rw [← hob]; rfl
      omega
    | None =>
      have e1 : (optimize_set_size0 a).observations_board =
          SET_SIZE0_IF_NONE PyArrayArg.None NPY_DOUBLE [0, 179, 171, 2] := by
        show SET_SIZE0_IF_NONE a.observations_board _ _ = _
        rw [hx]
      rw [e1] at hob
      have : PyArray_DIMS arrays.observations_board 0 = 0 := by
        injection hob with hob
        rw [← hob]; rfl
      omega

/-- An accepted call of `optimize` returns, and returns a dictionary, when the
counts that the solver functions return are not negative and the number of
board points fits an `int`. -/
theorem optimize_returns_report (L : mrcal_library) (S : mrcal_solver)
    (stack_board : Nat → observation_board_t) (stack_point : Nat → observation_point_t)
    (a : optimize_arguments) (m : distortion_model_t)
    (hok : optimize_validate_args L (optimize_set_size0 a) = Outcome.ok m)
    (hS : counts_nonnegative S) (hfit : optimize_board_points a < 2 ^ 31) :
    ∃ r dict, optimize L S stack_board stack_point a = Outcome.ok r ∧ r.result = some dict := by
  obtain ⟨arrays, hd, -⟩ := optimize_validated_deref L a m hok
  obtain ⟨h1, h2, h3, h4⟩ := hS
  have hP : 0 ≤ optimize_Npoints_fromBoards (optimize_set_size0 a) arrays := by
    rw [optimize_Npoints_fromBoards_accepted L a m arrays hok hd hfit, mul_assoc]
    exact mul_nonneg (PyArray_DIMS_nonneg _ _) (mul_self_nonneg _)
  have hb := optimize_allocate_eq S stack_point (optimize_set_size0 a) arrays m
    (h1 _ _ _ _ _ _ _) (fun _ => h2 m) hP
  have hopt : ∃ r call, optimize L S stack_board stack_point a = Outcome.ok r ∧
      r.result = optimize_pystats call (S.mrcal_optimize call) := by
    unfold optimize
    simp only [hok]
    unfold optimize_solve
    simp only [hd, hb, bind, Outcome.bind, pure]
    exact ⟨_, _, rfl, rfl⟩
  obtain ⟨r, call, hr, hres⟩ := hopt
  rw [optimize_pystats_eq, if_pos ⟨h3 _, h4 _⟩] at hres
  exact ⟨r, _, hr, hres⟩


/-- An accepted call of `optimize` that returns a dictionary: the sizes of the
arrays handed to the solver, and the items of the dictionary. -/
theorem optimize_report (L : mrcal_library) (S : mrcal_solver)
    (stack_board : Nat → observation_board_t) (stack_point : Nat → observation_point_t)
    (a : optimize_arguments) (m : distortion_model_t) (r : optimize_return)
    (dict : List (String × dict_value))
    (hok : optimize_validate_args L (optimize_set_size0 a) = Outcome.ok m)
    (hr : optimize L S stack_board stack_point a = Outcome.ok r)
    (hdict : r.result = some dict) :
    ∃ call, r.solver_call = some call ∧
      call.distortion_model = m ∧
      call.problem_details = optimize_problem_details a ∧
      0 ≤ S.mrcal_getNmeasurements call.Ncameras call.NobservationsBoard
        call.observations_point call.NobservationsPoint call.calibration_object_width_n
        call.problem_details call.distortion_model ∧
      call.x_final = PyArray_SimpleNew
        [(S.mrcal_getNmeasurements call.Ncameras call.NobservationsBoard
          call.observations_point call.NobservationsPoint call.calibration_object_width_n
          call.problem_details call.distortion_model).toNat] NPY_DOUBLE ∧
      call.intrinsic_covariances =
        (if S.mrcal_getNintrinsicParams m ≠ 0 ∧ set_and_true a.get_intrinsic_covariances = true
         then some (PyArray_SimpleNew [call.Ncameras.toNat,
           (S.mrcal_getNintrinsicParams m).toNat, (S.mrcal_getNintrinsicParams m).toNat]
           NPY_DOUBLE)
         else none) ∧
      call.outlier_indices_final = PyArray_SimpleNew
        [(to_int (to_int (call.NobservationsBoard * call.calibration_object_width_n) *
          call.calibration_object_width_n)).toNat] NPY_INT ∧
      0 ≤ to_int (to_int (call.NobservationsBoard * call.calibration_object_width_n) *
          call.calibration_object_width_n) ∧
      (optimize_board_points a < 2 ^ 31 →
        to_int (to_int (call.NobservationsBoard * call.calibration_object_width_n) *
          call.calibration_object_width_n) =
        call.NobservationsBoard * call.calibration_object_width_n *
          call.calibration_object_width_n) ∧
      0 ≤ (S.mrcal_optimize call).stats.Noutliers ∧ 0 ≤ call.Ncameras ∧
      optimize_pystats call (S.mrcal_optimize call) = some dict := by
  obtain ⟨arrays, buffers, hd, hb, hc, hres⟩ :=
    optimize_accepted_full L S stack_board stack_point a m r hok hr
  obtain ⟨hN, hI, hP⟩ := optimize_allocate_ok S stack_point _ arrays m buffers hb
  have hI' : set_and_true (optimize_set_size0 a).get_intrinsic_covariances = true →
      0 ≤ S.mrcal_getNintrinsicParams m := by
    intro ht
    by_cases h0 : S.mrcal_getNintrinsicParams m = 0
    · omega
    · exact hI h0 ht
  have hb' := optimize_allocate_eq S stack_point _ arrays m hN hI' hP
  rw [hb] at hb'
  injection hb' with hb'
  rw [hdict] at hres
  have hpos : 0 ≤ (S.mrcal_optimize
      (optimize_call stack_board stack_point (optimize_set_size0 a) arrays m
        buffers)).stats.Noutliers := by
    rw [optimize_pystats_eq] at hres
    by_contra hneg
    rw [if_neg (fun h => hneg h.1)] at hres
    cases hres
  refine ⟨_, hc, rfl, rfl, hN, ?_, ?_, ?_, hP,
    optimize_Npoints_fromBoards_accepted L a m arrays hok hd, hpos, PyArray_DIMS_nonneg _ _,
    hres.symm⟩
  · rw [hb']; rfl
  · rw [hb']; rfl
  · rw [hb']; rfl

/-- The items of the dictionary that `optimize` returns, key by key. -/
theorem optimize_pystats_items (call : mrcal_optimize_call) (res : mrcal_optimize_result)
    (dict : List (String × dict_value)) (h : optimize_pystats call res = some dict)
    (key : String) (v : dict_value) :
    (key, v) ∈ dict ↔
      (key = "rms_reproj_error__pixels" ∧
        v = dict_value.object (PyFloat res.stats.rms_reproj_error__pixels)) ∨
      (key = "Noutliers" ∧ v = dict_value.object (PyInt res.stats.Noutliers)) ∨
      (key = "x" ∧ v = dict_value.array { call.x_final with double_data := res.x_final }) ∨
      (key = "intrinsic_covariances" ∧ ∃ c, call.intrinsic_covariances = some c ∧
        v = dict_value.array { c with double_data := res.intrinsic_covariances }) ∨
      (key = "outlier_indices" ∧ v = dict_value.array
        { call.outlier_indices_final with
          dims := [res.stats.Noutliers.toNat]
          int_data := res.outlier_indices_final.take res.stats.Noutliers.toNat ++
            List.replicate (res.stats.Noutliers.toNat - res.outlier_indices_final.length) 0 }) ∨
      (key = "outside_ROI_indices" ∧ v = dict_value.array
        { call.outside_ROI_indices_final with
          dims := [res.stats.NoutsideROI.toNat]
          int_data := res.outside_ROI_indices_final.take res.stats.NoutsideROI.toNat ++
            List.replicate
              (res.stats.NoutsideROI.toNat - res.outside_ROI_indices_final.length) 0 }) := by
  rw [optimize_pystats_eq] at h
  split_ifs at h
  injection h with h
  subst h
  cases hc : call.intrinsic_covariances <;>
    simp only [List.mem_append, List.mem_cons, List.mem_singleton, List.not_mem_nil,
      Prod.mk.injEq, or_false, false_or] <;> simp <;> tauto


/-! ## The report of `optimize` -/

/-- The counts that `reporting_solver` reports are not negative. -/
theorem reporting_solver_counts : counts_nonnegative reporting_solver := by
  refine ⟨fun _ _ _ _ _ _ _ => Int.natCast_nonneg _, fun m => ?_, fun _ => ?_, fun _ => ?_⟩
  · cases m <;> decide
  · show (0 : Int) ≤ 3
    decide
  · show (0 : Int) ≤ 0
    decide

/-- The first dimension of an array made with a non-negative first dimension. -/
theorem PyArray_DIMS_SimpleNew_toNat (n : Int) (hn : 0 ≤ n) (rest : List Nat) (type : NPY_TYPES)
    (data : List double) :
    PyArray_DIMS { PyArray_SimpleNew (n.toNat :: rest) type with double_data := data } 0 = n := by
  simp [PyArray_DIMS, PyArray_SimpleNew, Int.toNat_of_nonneg hn]

/-- C21: in every dictionary that an accepted call of `optimize` returns, the
item `x` is a 1-dimensional array whose length is `mrcal_getNmeasurements` on
the `Ncameras`, the observation counts, the point records, the target width,
the problem details and the distortion model that the solver was called
with.  The call returns a dictionary whenever the counts of the library are
not negative and the number of board points `N * W * W` fits an `int`. -/
theorem residual_vector_length (L : mrcal_library) (S : mrcal_solver)
    (stack_board : Nat → observation_board_t) (stack_point : Nat → observation_point_t)
    (a : optimize_arguments) (m : distortion_model_t)
    (hok : optimize_validate_args L (optimize_set_size0 a) = Outcome.ok m) :
    (counts_nonnegative S → optimize_board_points a < 2 ^ 31 →
      ∃ r dict, optimize L S stack_board stack_point a = Outcome.ok r ∧ r.result = some dict) ∧
    ∀ r dict, optimize L S stack_board stack_point a = Outcome.ok r → r.result = some dict →
      ∃ call x, r.solver_call = some call ∧
        ("x", dict_value.array x) ∈ dict ∧ (∀ v, ("x", v) ∈ dict → v = dict_value.array x) ∧
        PyArray_NDIM x = 1 ∧
        PyArray_DIMS x 0 = S.mrcal_getNmeasurements call.Ncameras call.NobservationsBoard
          call.observations_point call.NobservationsPoint call.calibration_object_width_n
          call.problem_details call.distortion_model := by
  refine ⟨optimize_returns_report L S stack_board stack_point a m hok, fun r dict hr hdict => ?_⟩
  obtain ⟨call, hc, -, -, hN, hx, -, -, -, -, -, -, hres⟩ :=
    optimize_report L S stack_board stack_point a m r dict hok hr hdict
  have hitems := optimize_pystats_items call (S.mrcal_optimize call) dict hres
  refine ⟨call, { call.x_final with double_data := (S.mrcal_optimize call).x_final }, hc,
    ?_, ?_, ?_, ?_⟩
  · rw [hitems]
    exact Or.inr (Or.inr (Or.inl ⟨rfl, rfl⟩))
  · intro v hv
    rw [hitems] at hv
    rcases hv with ⟨h, -⟩ | ⟨h, -⟩ | ⟨-, h⟩ | ⟨h, -⟩ | ⟨h, -⟩ | ⟨h, -⟩
    · exact absurd h (by decide)
    · exact absurd h (by decide)
    · exact h
    · exact absurd h (by decide)
    · exact absurd h (by decide)
    · exact absurd h (by decide)
  · rw [hx]; rfl
  · rw [hx]
    exact PyArray_DIMS_SimpleNew_toNat _ hN [] _ _

/-- Witness of C21: the example call with `reporting_solver` returns a
dictionary whose `x` has the length that `mrcal_getNmeasurements` gives. -/
theorem residual_vector_length_witness :
    ∃ r dict call x,
      optimize library_of_list reporting_solver stack_all_zeros stack_points_zeros
        example_arguments = Outcome.ok r ∧ r.result = some dict ∧ r.solver_call = some call ∧
      ("x", dict_value.array x) ∈ dict ∧ PyArray_NDIM x = 1 ∧
      PyArray_DIMS x 0 = reporting_solver.mrcal_getNmeasurements call.Ncameras
        call.NobservationsBoard call.observations_point call.NobservationsPoint
        call.calibration_object_width_n call.problem_details call.distortion_model := by
  obtain ⟨hex, hall⟩ := residual_vector_length library_of_list reporting_solver stack_all_zeros
    stack_points_zeros example_arguments DISTORTION_OPENCV4 (by decide)
  obtain ⟨r, dict, hr, hdict⟩ := hex reporting_solver_counts (by decide)
  obtain ⟨call, x, hc, hx, -, h1, h2⟩ := hall r dict hr hdict
  exact ⟨r, dict, call, x, hr, hdict, hc, hx, h1, h2⟩

/-- C22, amended: in an accepted call of `optimize` the outlier buffer handed
to the solver is 1-dimensional and has as many elements as the `int` product
`NobservationsBoard * W * W`, which is `NobservationsBoard * W * W` when the
number of board points fits an `int`; the returned dictionary has `Noutliers`
from the solver's stats, and when the solver left a buffer of that capacity and
`Noutliers` does not exceed it, the item `outlier_indices` is the first
`Noutliers` entries of the buffer, of length `Noutliers`.  The call returns a
dictionary whenever the counts of the library are not negative and the number
of board points fits an `int`. -/
theorem outlier_index_report (L : mrcal_library) (S : mrcal_solver)
    (stack_board : Nat → observation_board_t) (stack_point : Nat → observation_point_t)
    (a : optimize_arguments) (m : distortion_model_t)
    (hok : optimize_validate_args L (optimize_set_size0 a) = Outcome.ok m) :
    (counts_nonnegative S → optimize_board_points a < 2 ^ 31 →
      ∃ r dict, optimize L S stack_board stack_point a = Outcome.ok r ∧ r.result = some dict) ∧
    ∀ r dict, optimize L S stack_board stack_point a = Outcome.ok r → r.result = some dict →
      ∃ call o, r.solver_call = some call ∧
        PyArray_NDIM call.outlier_indices_final = 1 ∧
        ((PyArray_SIZE call.outlier_indices_final : Nat) : Int) =
          to_int (to_int (call.NobservationsBoard * call.calibration_object_width_n) *
            call.calibration_object_width_n) ∧
        (optimize_board_points a < 2 ^ 31 →
          ((PyArray_SIZE call.outlier_indices_final : Nat) : Int) =
            call.NobservationsBoard * call.calibration_object_width_n *
              call.calibration_object_width_n) ∧
        ("outlier_indices", dict_value.array o) ∈ dict ∧
        ("Noutliers", dict_value.object (PyInt (S.mrcal_optimize call).stats.Noutliers)) ∈ dict ∧
        ((S.mrcal_optimize call).outlier_indices_final.length =
            PyArray_SIZE call.outlier_indices_final →
          (S.mrcal_optimize call).stats.Noutliers ≤
            ((PyArray_SIZE call.outlier_indices_final : Nat) : Int) →
          o.int_data = (S.mrcal_optimize call).outlier_indices_final.take
            (S.mrcal_optimize call).stats.Noutliers.toNat ∧
          ((o.int_data.length : Nat) : Int) = (S.mrcal_optimize call).stats.Noutliers ∧
          PyArray_NDIM o = 1 ∧ PyArray_DIMS o 0 = (S.mrcal_optimize call).stats.Noutliers) := by
  refine ⟨optimize_returns_report L S stack_board stack_point a m hok, fun r dict hr hdict => ?_⟩
  obtain ⟨call, hc, -, -, -, -, -, ho, hcap, hfits, hpos, -, hres⟩ :=
    optimize_report L S stack_board stack_point a m r dict hok hr hdict
  have hitems := optimize_pystats_items call (S.mrcal_optimize call) dict hres
  have hsize : ((PyArray_SIZE call.outlier_indices_final : Nat) : Int) =
      to_int (to_int (call.NobservationsBoard * call.calibration_object_width_n) *
        call.calibration_object_width_n) := by
    rw [ho]
    simp [PyArray_SIZE, PyArray_SimpleNew, Int.toNat_of_nonneg hcap]
  refine ⟨call, _, hc, ?_, hsize, fun hfit => hsize.trans (hfits hfit),
    (hitems _ _).2 (Or.inr (Or.inr (Or.inr (Or.inr (Or.inl ⟨rfl, rfl⟩))))),
    (hitems _ _).2 (Or.inr (Or.inl ⟨rfl, rfl⟩)), ?_⟩
  · rw [ho]; rfl
  · intro hlen hle
    have hle' : (S.mrcal_optimize call).stats.Noutliers.toNat ≤
        (S.mrcal_optimize call).outlier_indices_final.length := by
      rw [hlen]; omega
    have hzero : (S.mrcal_optimize call).stats.Noutliers.toNat -
        (S.mrcal_optimize call).outlier_indices_final.length = 0 := by omega
    refine ⟨?_, ?_, rfl, ?_⟩
    · simp [hzero]
    · simp only [hzero, List.replicate_zero, List.append_nil, List.length_take]
      omega
    · simp [PyArray_DIMS, Int.toNat_of_nonneg hpos]

/-- C22, counterexample: the accepted call with one observation of a 65536 by
65536 board (in an `observations_board` of last dimension 0) hands the solver
`NobservationsBoard = 1`, `W = 65536` and an outlier buffer of 0 elements, not
of `1 * 65536 * 65536`; the accepted call with a 46341 by 46341 board, whose
`int` product is negative, has no defined behaviour. -/
theorem outlier_capacity_counterexample :
    optimize_validate_args library_of_list (optimize_set_size0 example_arguments_wide) =
      Outcome.ok DISTORTION_OPENCV4 ∧
    solver_board_counts (optimize library_of_list example_solver stack_all_zeros
      stack_points_zeros example_arguments_wide) = some (1, 65536) ∧
    solver_outlier_capacity (optimize library_of_list example_solver stack_all_zeros
      stack_points_zeros example_arguments_wide) = some 0 ∧
    optimize_validate_args library_of_list (optimize_set_size0 example_arguments_overflow) =
      Outcome.ok DISTORTION_OPENCV4 ∧
    optimize_undefined (optimize library_of_list example_solver stack_all_zeros
      stack_points_zeros example_arguments_overflow) = true := by
  decide

/-- The example call with `reporting_solver` hands the solver an outlier
buffer of `4 * 10 * 10` elements. -/
theorem example_outlier_capacity :
    solver_outlier_capacity (optimize library_of_list reporting_solver stack_all_zeros
      stack_points_zeros example_arguments) = some 400 := by
  decide

/-- Witness of C22: the example call with `reporting_solver` (3 outliers, a
buffer of 400) returns the first 3 entries of the buffer. -/
theorem outlier_index_report_witness :
    ∃ r dict call o,
      optimize library_of_list reporting_solver stack_all_zeros stack_points_zeros
        example_arguments = Outcome.ok r ∧ r.result = some dict ∧ r.solver_call = some call ∧
      PyArray_SIZE call.outlier_indices_final = 400 ∧
      ("outlier_indices", dict_value.array o) ∈ dict ∧
      ("Noutliers", dict_value.object (PyInt 3)) ∈ dict ∧
      o.int_data = (reporting_solver.mrcal_optimize call).outlier_indices_final.take 3 ∧
      ((o.int_data.length : Nat) : Int) = 3 ∧ PyArray_DIMS o 0 = 3 := by
  obtain ⟨hex, hall⟩ := outlier_index_report library_of_list reporting_solver stack_all_zeros
    stack_points_zeros example_arguments DISTORTION_OPENCV4 (by decide)
  obtain ⟨r, dict, hr, hdict⟩ := hex reporting_solver_counts (by decide)
  obtain ⟨call, o, hc, -, -, -, ho, hn, himp⟩ := hall r dict hr hdict
  have hcap : PyArray_SIZE call.outlier_indices_final = 400 := by
    have h := example_outlier_capacity
    rw [hr] at h
    simp only [solver_outlier_capacity, hc, Option.map, Option.some.injEq] at h
    exact h
  have hlen : (reporting_solver.mrcal_optimize call).outlier_indices_final.length =
      PyArray_SIZE call.outlier_indices_final := by
    show ((List.range (PyArray_SIZE call.outlier_indices_final)).map _).length = _
    rw [List.length_map, List.length_range]
  have hle : (reporting_solver.mrcal_optimize call).stats.Noutliers ≤
      ((PyArray_SIZE call.outlier_indices_final : Nat) : Int) := by
    rw [hcap]
    show (3 : Int) ≤ 400
    decide
  obtain ⟨h1, h2, -, h3⟩ := himp hlen hle
  exact ⟨r, dict, call, o, hr, hdict, hc, hcap, ho, hn, h1, h2, h3⟩

/-- C23: for a library whose `mrcal_getNintrinsicParams` is `4 + N_d` with
`N_d` not negative, an accepted call of `optimize` returns a dictionary whenever
the counts of the library are not negative and the number of board points
`N * W * W` fits an `int`; every dictionary it returns has
`rms_reproj_error__pixels` and `Noutliers` from the solver's stats, has the key
`intrinsic_covariances` exactly when `get_intrinsic_covariances` was given and
true, and then its value is an array of shape `(Ncameras, 4 + N_d, 4 + N_d)`. -/
theorem stats_report_contents (L : mrcal_library) (S : mrcal_solver)
    (stack_board : Nat → observation_board_t) (stack_point : Nat → observation_point_t)
    (a : optimize_arguments) (m : distortion_model_t)
    (hok : optimize_validate_args L (optimize_set_size0 a) = Outcome.ok m)
    (hcount : S.mrcal_getNintrinsicParams m = 4 + L.mrcal_getNdistortionParams m)
    (hNd : 0 ≤ L.mrcal_getNdistortionParams m) :
    (counts_nonnegative S → optimize_board_points a < 2 ^ 31 →
      ∃ r dict, optimize L S stack_board stack_point a = Outcome.ok r ∧ r.result = some dict) ∧
    ∀ r dict, optimize L S stack_board stack_point a = Outcome.ok r → r.result = some dict →
      ∃ call, r.solver_call = some call ∧
        ("rms_reproj_error__pixels", dict_value.object
          (PyFloat (S.mrcal_optimize call).stats.rms_reproj_error__pixels)) ∈ dict ∧
        ("Noutliers", dict_value.object (PyInt (S.mrcal_optimize call).stats.Noutliers)) ∈ dict ∧
        (dict_has_key dict "intrinsic_covariances" ↔
          set_and_true a.get_intrinsic_covariances = true) ∧
        ∀ v, ("intrinsic_covariances", v) ∈ dict →
          ∃ c, v = dict_value.array c ∧ PyArray_NDIM c = 3 ∧
            PyArray_DIMS c 0 = call.Ncameras ∧
            PyArray_DIMS c 1 = 4 + L.mrcal_getNdistortionParams m ∧
            PyArray_DIMS c 2 = 4 + L.mrcal_getNdistortionParams m := by
  refine ⟨optimize_returns_report L S stack_board stack_point a m hok, fun r dict hr hdict => ?_⟩
  obtain ⟨call, hc, -, -, -, -, hcov, -, -, -, -, hcam, hres⟩ :=
    optimize_report L S stack_board stack_point a m r dict hok hr hdict
  have hitems := optimize_pystats_items call (S.mrcal_optimize call) dict hres
  have hne : S.mrcal_getNintrinsicParams m ≠ 0 := by omega
  have hpos : 0 ≤ S.mrcal_getNintrinsicParams m := by omega
  refine ⟨call, hc, (hitems _ _).2 (Or.inl ⟨rfl, rfl⟩),
    (hitems _ _).2 (Or.inr (Or.inl ⟨rfl, rfl⟩)), ⟨?_, ?_⟩, ?_⟩
  · rintro ⟨v, hv⟩
    rw [hitems] at hv
    rcases hv with ⟨h, -⟩ | ⟨h, -⟩ | ⟨h, -⟩ | ⟨-, c, h, -⟩ | ⟨h, -⟩ | ⟨h, -⟩
    · exact absurd h (by decide)
    · exact absurd h (by decide)
    · exact absurd h (by decide)
    · rw [hcov] at h
      by_contra hf
      rw [if_neg (fun g => hf g.2)] at h
      cases h
    · exact absurd h (by decide)
    · exact absurd h (by decide)
  · intro ht
    rw [if_pos ⟨hne, ht⟩] at hcov
    exact ⟨_, (hitems _ _).2 (Or.inr (Or.inr (Or.inr (Or.inl ⟨rfl, _, hcov, rfl⟩))))⟩
  · intro v hv
    rw [hitems] at hv
    rcases hv with ⟨h, -⟩ | ⟨h, -⟩ | ⟨h, -⟩ | ⟨-, c, h, hv⟩ | ⟨h, -⟩ | ⟨h, -⟩
    · exact absurd h (by decide)
    · exact absurd h (by decide)
    · exact absurd h (by decide)
    · rw [hcov] at h
      split_ifs at h
      injection h with h
      subst h
      refine ⟨_, hv, rfl, ?_, ?_, ?_⟩
      · simp [PyArray_DIMS, PyArray_SimpleNew, Int.toNat_of_nonneg hcam]
      · rw [← hcount]
        simp [PyArray_DIMS, PyArray_SimpleNew, Int.toNat_of_nonneg hpos]
      · rw [← hcount]
        simp [PyArray_DIMS, PyArray_SimpleNew, Int.toNat_of_nonneg hpos]
    · exact absurd h (by decide)
    · exact absurd h (by decide)

/-- Witness of C23: the example call with `get_intrinsic_covariances = True`
returns both stats and covariances of shape `(Ncameras, 8, 8)`. -/
theorem stats_report_contents_witness :
    ∃ r dict call,
      optimize library_of_list reporting_solver stack_all_zeros stack_points_zeros
        { example_arguments with get_intrinsic_covariances := some Py_True } = Outcome.ok r ∧
      r.result = some dict ∧ r.solver_call = some call ∧
      ("rms_reproj_error__pixels", dict_value.object (PyFloat double.one)) ∈ dict ∧
      ("Noutliers", dict_value.object (PyInt 3)) ∈ dict ∧
      dict_has_key dict "intrinsic_covariances" ∧
      ∀ v, ("intrinsic_covariances", v) ∈ dict →
        ∃ c, v = dict_value.array c ∧ PyArray_NDIM c = 3 ∧ PyArray_DIMS c 0 = call.Ncameras ∧
          PyArray_DIMS c 1 = 8 ∧ PyArray_DIMS c 2 = 8 := by
  obtain ⟨hex, hall⟩ := stats_report_contents library_of_list reporting_solver stack_all_zeros
    stack_points_zeros { example_arguments with get_intrinsic_covariances := some Py_True }
    DISTORTION_OPENCV4 (by decide) (by decide) (by decide)
  obtain ⟨r, dict, hr, hdict⟩ := hex reporting_solver_counts (by decide)
  obtain ⟨call, hc, h1, h2, h3, h4⟩ := hall r dict hr hdict
  exact ⟨r, dict, call, hr, hdict, hc, h1, h2, h3.2 (by decide), h4⟩


/-! ## The records handed to the solver -/

/-- Marking a skipped frame leaves `i_camera` of the records alone. -/
theorem mark_skip_frame_i_camera (cs : Int) (n : Nat) (c : Nat → observation_board_t)
    (k : Nat) : (mark_skip_frame cs n c k).i_camera = (c k).i_camera := by
  rcases mark_skip_frame_cases cs n c k with h | h <;> rw [h]

/-- Marking a skipped frame leaves the pixel pointer of the records alone. -/
theorem mark_skip_frame_px (cs : Int) (n : Nat) (c : Nat → observation_board_t)
    (k : Nat) : (mark_skip_frame cs n c k).px = (c k).px := by
  rcases mark_skip_frame_cases cs n c k with h | h <;> rw [h]

/-- The indices and the pixel pointer of the records that the board loop has
written. -/
theorem board_loop_fields (stack : Nat → observation_board_t) (idx : List Int)
    (skipped : Option PyObject) (W : Int) (n : Nat) :
    ∀ k, k < n →
      ((board_loop stack idx skipped W n).c_observations_board k).i_frame =
        to_bitfield31 (index_of_observation idx k) ∧
      ((board_loop stack idx skipped W n).c_observations_board k).i_camera =
        to_bitfield31 (camera_of_observation idx k) ∧
      ((board_loop stack idx skipped W n).c_observations_board k).px = W * W * k := by
  induction n with
  | zero => intro k hk; omega
  | succ n ih =>
    have hstep : board_loop stack idx skipped W (n + 1) =
        board_loop_body idx skipped W n (board_loop stack idx skipped W n) := rfl
    rw [hstep]
    generalize board_loop stack idx skipped W n = s at ih ⊢
    intro k hk
    by_cases hkn : k = n
    · subst hkn
      have h := board_loop_body_at idx skipped W k s
      exact ⟨h.1, h.2.1, h.2.2.1⟩
    · have hkn' : k < n := by omega
      rw [board_loop_body_before idx skipped W n s k hkn']
      split
      · rw [mark_skip_frame_i_frame, mark_skip_frame_i_camera, mark_skip_frame_px]
        exact ih k hkn'
      · exact ih k hkn'

/-- The indices and the pixel pointer of the board records handed to the
solver. -/
theorem optimize_observations_board_fields (stack : Nat → observation_board_t) (N : Nat)
    (idx : List Int) (skipped : Option PyObject) (W : Int) (k : Nat) (hk : k < N) :
    (optimize_observations_board stack N idx skipped W k).i_frame =
      to_bitfield31 (index_of_observation idx k) ∧
    (optimize_observations_board stack N idx skipped W k).i_camera =
      to_bitfield31 (camera_of_observation idx k) ∧
    (optimize_observations_board stack N idx skipped W k).px = W * W * k := by
  unfold optimize_observations_board
  split
  · rw [mark_skip_frame_i_frame, mark_skip_frame_i_camera, mark_skip_frame_px]
    exact board_loop_fields stack idx skipped W N k hk
  · exact board_loop_fields stack idx skipped W N k hk

/-- The indices of the point records handed to the solver. -/
theorem optimize_observations_point_fields (stack : Nat → observation_point_t) (N : Nat)
    (idx : List Int) (obs : List double) (skipped : Option PyObject) (k : Nat) (hk : k < N) :
    (optimize_observations_point stack N idx obs skipped k).i_point =
      to_bitfield31 (index_of_observation idx k) ∧
    (optimize_observations_point stack N idx obs skipped k).i_camera =
      to_bitfield31 (camera_of_observation idx k) := by
  have hsim := optimize_observations_same_flags stack N idx obs skipped 0 k
  have hb := optimize_observations_board_fields
    (fun k => as_board_observation (stack k)) N idx skipped 0 k hk
  exact ⟨hsim.2.2.1.symm.trans hb.1, hsim.1.symm.trans hb.2.1⟩

/-- The board observations that an accepted call of `optimize` hands to the
solver: their number, the width of the calibration object, and the records
made from the index array of the call. -/
theorem optimize_accepted_board (L : mrcal_library) (S : mrcal_solver)
    (stack_board : Nat → observation_board_t) (stack_point : Nat → observation_point_t)
    (a : optimize_arguments) (m : distortion_model_t) (r : optimize_return)
    (ob idx : PyArrayObject)
    (hob : a.observations_board = PyArrayArg.array ob)
    (hidx : a.indices_frame_camera_board = PyArrayArg.array idx)
    (hok : optimize_validate_args L (optimize_set_size0 a) = Outcome.ok m)
    (hr : optimize L S stack_board stack_point a = Outcome.ok r) :
    ∃ call, r.solver_call = some call ∧
      call.NobservationsBoard = PyArray_DIMS ob 0 ∧
      call.calibration_object_width_n =
        optimize_calibration_object_width_n a (PyArray_DIMS ob 0) ∧
      call.observations_board =
        optimize_observations_board stack_board (PyArray_DIMS ob 0).toNat idx.int_data
          a.skipped_observations_board
          (optimize_calibration_object_width_n a (PyArray_DIMS ob 0)) := by
  obtain ⟨arrays, buffers, hd, -, hc, -⟩ :=
    optimize_accepted_full L S stack_board stack_point a m r hok hr
  obtain ⟨arrays1, hd1, -, -, -, -, hob1, hidx1, -⟩ := optimize_validated_deref L a m hok
  rw [hd] at hd1
  injection hd1 with hd1
  subst hd1
  have e1 : (optimize_set_size0 a).observations_board = PyArrayArg.array ob :=
    SET_SIZE0_IF_NONE_of_array _ _ _ _ hob
  have e2 : (optimize_set_size0 a).indices_frame_camera_board = PyArrayArg.array idx :=
    SET_SIZE0_IF_NONE_of_array _ _ _ _ hidx
  rw [e1] at hob1
  rw [e2] at hidx1
  injection hob1 with hob1
  injection hidx1 with hidx1
  refine ⟨_, hc, ?_, ?_, ?_⟩
  · show PyArray_DIMS arrays.observations_board 0 = _
    rw [← hob1]
  · show optimize_calibration_object_width_n (optimize_set_size0 a)
      (PyArray_DIMS arrays.observations_board 0) = _
    rw [← hob1]; rfl
  · show optimize_observations_board stack_board
      (PyArray_DIMS arrays.observations_board 0).toNat
      arrays.indices_frame_camera_board.int_data
      (optimize_set_size0 a).skipped_observations_board
      (optimize_calibration_object_width_n (optimize_set_size0 a)
        (PyArray_DIMS arrays.observations_board 0)) = _
    rw [← hob1, ← hidx1]; rfl

/-- The point observations that an accepted call of `optimize` hands to the
solver: their number, and the records made from the arrays of the call. -/
theorem optimize_accepted_point (L : mrcal_library) (S : mrcal_solver)
    (stack_board : Nat → observation_board_t) (stack_point : Nat → observation_point_t)
    (a : optimize_arguments) (m : distortion_model_t) (r : optimize_return)
    (op idp : PyArrayObject)
    (hop : a.observations_point = PyArrayArg.array op)
    (hidp : a.indices_point_camera_points = PyArrayArg.array idp)
    (hok : optimize_validate_args L (optimize_set_size0 a) = Outcome.ok m)
    (hr : optimize L S stack_board stack_point a = Outcome.ok r) :
    ∃ call, r.solver_call = some call ∧
      call.NobservationsPoint = PyArray_DIMS op 0 ∧
      call.observations_point =
        optimize_observations_point stack_point (PyArray_DIMS op 0).toNat idp.int_data
          op.double_data a.skipped_observations_point := by
  obtain ⟨arrays, buffers, hd, -, hc, -⟩ :=
    optimize_accepted_full L S stack_board stack_point a m r hok hr
  obtain ⟨arrays1, hd1, -, -, -, -, -, -, hop1, hidp1, -⟩ := optimize_validated_deref L a m hok
  rw [hd] at hd1
  injection hd1 with hd1
  subst hd1
  have e1 : (optimize_set_size0 a).observations_point = PyArrayArg.array op :=
    SET_SIZE0_IF_NONE_of_array _ _ _ _ hop
  have e2 : (optimize_set_size0 a).indices_point_camera_points = PyArrayArg.array idp :=
    SET_SIZE0_IF_NONE_of_array _ _ _ _ hidp
  rw [e1] at hop1
  rw [e2] at hidp1
  injection hop1 with hop1
  injection hidp1 with hidp1
  refine ⟨_, hc, ?_, ?_⟩
  · show PyArray_DIMS arrays.observations_point 0 = _
    rw [← hop1]
  · show optimize_observations_point stack_point
      (PyArray_DIMS arrays.observations_point 0).toNat
      arrays.indices_point_camera_points.int_data arrays.observations_point.double_data
      (optimize_set_size0 a).skipped_observations_point = _
    rw [← hop1, ← hidp1]; rfl

/-- The validation does not read the data of the two index arrays. -/
theorem validation_ignores_index_values (L : mrcal_library) (a : optimize_arguments)
    (idx idp : PyArrayObject) (data1 data2 : List Int) :
    optimize_validate_args L (optimize_set_size0
      { a with
        indices_frame_camera_board := PyArrayArg.array { idx with int_data := data1 }
        indices_point_camera_points := PyArrayArg.array { idp with int_data := data2 } }) =
    optimize_validate_args L (optimize_set_size0
      { a with
        indices_frame_camera_board := PyArrayArg.array idx
        indices_point_camera_points := PyArrayArg.array idp }) := rfl

/-- C30, amended: the validation of `optimize` does not read the values of
the two index arrays, so an accepted call stays accepted with any values in
them, and the records handed to the solver hold the values as given, stored
in the 31-bit fields, whatever their range. -/
theorem index_values_not_validated (L : mrcal_library) (S : mrcal_solver)
    (stack_board : Nat → observation_board_t) (stack_point : Nat → observation_point_t)
    (a : optimize_arguments) (m : distortion_model_t) (r : optimize_return)
    (ob idx op idp : PyArrayObject)
    (hob : a.observations_board = PyArrayArg.array ob)
    (hidx : a.indices_frame_camera_board = PyArrayArg.array idx)
    (hop : a.observations_point = PyArrayArg.array op)
    (hidp : a.indices_point_camera_points = PyArrayArg.array idp)
    (hok : optimize_validate_args L (optimize_set_size0 a) = Outcome.ok m)
    (hr : optimize L S stack_board stack_point a = Outcome.ok r) :
    (∀ data1 data2 : List Int,
      optimize_validate_args L (optimize_set_size0
        { a with
          indices_frame_camera_board := PyArrayArg.array { idx with int_data := data1 }
          indices_point_camera_points := PyArrayArg.array { idp with int_data := data2 } }) =
        Outcome.ok m) ∧
    ∃ call, r.solver_call = some call ∧
      (∀ i : Nat, (i : Int) < call.NobservationsBoard →
        (call.observations_board i).i_frame =
          to_bitfield31 (index_of_observation idx.int_data i) ∧
        (call.observations_board i).i_camera =
          to_bitfield31 (camera_of_observation idx.int_data i)) ∧
      (∀ i : Nat, (i : Int) < call.NobservationsPoint →
        (call.observations_point i).i_point =
          to_bitfield31 (index_of_observation idp.int_data i) ∧
        (call.observations_point i).i_camera =
          to_bitfield31 (camera_of_observation idp.int_data i)) := by
  constructor
  · intro data1 data2
    rw [validation_ignores_index_values]
    have ha : ({ a with
        indices_frame_camera_board := PyArrayArg.array idx
        indices_point_camera_points := PyArrayArg.array idp } : optimize_arguments) = a := by
      rw [← hidx, ← hidp]
    rw [ha]
    exact hok
  · obtain ⟨call, hc, hNB, -, hrec⟩ :=
      optimize_accepted_board L S stack_board stack_point a m r ob idx hob hidx hok hr
    obtain ⟨call1, hc1, hNP, hrecp⟩ :=
      optimize_accepted_point L S stack_board stack_point a m r op idp hop hidp hok hr
    rw [hc] at hc1
    injection hc1 with hc1
    subst hc1
    refine ⟨call, hc, ?_, ?_⟩
    · intro i hi
      rw [hNB] at hi
      have hi' : i < (PyArray_DIMS ob 0).toNat := by omega
      rw [hrec]
      have := optimize_observations_board_fields stack_board _ idx.int_data
        a.skipped_observations_board
        (optimize_calibration_object_width_n a (PyArray_DIMS ob 0)) i hi'
      exact ⟨this.1, this.2.1⟩
    · intro i hi
      rw [hNP] at hi
      have hi' : i < (PyArray_DIMS op 0).toNat := by omega
      rw [hrecp]
      exact optimize_observations_point_fields stack_point _ idp.int_data op.double_data
        a.skipped_observations_point i hi'


/-- C30, counterexample: an accepted call with 2 cameras and 3 frames hands
the solver board observations with `i_camera = 7`, `i_frame = 99` and
`i_camera = -1`. -/
theorem index_range_counterexample :
    optimize_validate_args library_of_list (optimize_set_size0 example_arguments_out_of_range) =
      Outcome.ok DISTORTION_OPENCV4 ∧
    solver_counts (optimize library_of_list example_solver stack_all_zeros stack_points_zeros
      example_arguments_out_of_range) = some (2, 3, 0) ∧
    (solver_board_observation (optimize library_of_list example_solver stack_all_zeros
      stack_points_zeros example_arguments_out_of_range) 0).map (fun o => o.i_camera) =
      some 7 ∧
    (solver_board_observation (optimize library_of_list example_solver stack_all_zeros
      stack_points_zeros example_arguments_out_of_range) 2).map (fun o => o.i_frame) =
      some 99 ∧
    (solver_board_observation (optimize library_of_list example_solver stack_all_zeros
      stack_points_zeros example_arguments_out_of_range) 3).map (fun o => o.i_camera) =
      some (-1) := by
  decide

/-- Witness of C30: the example call; its validation accepts any index
values. -/
theorem index_values_not_validated_witness :
    ∃ r call,
      optimize library_of_list example_solver stack_all_zeros stack_points_zeros
        example_arguments = Outcome.ok r ∧ r.solver_call = some call ∧
      (∀ data1 data2 : List Int,
        optimize_validate_args library_of_list (optimize_set_size0
          { example_arguments with
            indices_frame_camera_board := array_argument [4, 2] NPY_INT data1
            indices_point_camera_points := array_argument [0, 2] NPY_INT data2 }) =
          Outcome.ok DISTORTION_OPENCV4) ∧
      ∀ i : Nat, (i : Int) < call.NobservationsBoard →
        (call.observations_board i).i_frame =
          to_bitfield31 (index_of_observation [0, 0, 0, 1, 1, 0, 2, 1] i) ∧
        (call.observations_board i).i_camera =
          to_bitfield31 (camera_of_observation [0, 0, 0, 1, 1, 0, 2, 1] i) := by
  obtain ⟨r, call0, hr, -⟩ := reaches_solver_of_check_gradient _ _ example_optimize_check_gradient
  obtain ⟨hval, call, hc, hb, -⟩ :=
    index_values_not_validated library_of_list example_solver stack_all_zeros stack_points_zeros
      example_arguments DISTORTION_OPENCV4 r _ _ _ _ rfl rfl rfl rfl (by decide) hr
  exact ⟨r, call, hr, hc, hval, hb⟩


/-! ## `None` in place of an array -/

/-- The line `SET_SIZE0_IF_NONE` gives the same array for `None` as for a
zero-row array of the declared shape and type. -/
theorem SET_SIZE0_IF_NONE_same_or_None (x y : PyArrayArg) (trailing : List Nat)
    (type : NPY_TYPES) (h : same_or_None x y trailing type) :
    SET_SIZE0_IF_NONE x type (0 :: trailing) = SET_SIZE0_IF_NONE y type (0 :: trailing) := by
  rcases h with h | ⟨h | h, hy⟩
  · rw [h]
  · rw [h, hy]; rfl
  · rw [h, hy]; rfl

/-- The solver call does not depend on the trailing dimensions of a zero-row
`observations_board`. -/
theorem optimize_solve_zero_row_board (S : mrcal_solver) (sb : Nat → observation_board_t)
    (sp : Nat → observation_point_t) (c : optimize_arguments) (m : distortion_model_t)
    (t1 t2 : List Nat) :
    optimize_solve S sb sp { c with observations_board := zero_row_array t1 NPY_DOUBLE } m =
    optimize_solve S sb sp { c with observations_board := zero_row_array t2 NPY_DOUBLE } m := by
  unfold optimize_solve optimize_deref
  simp only [bind, Outcome.bind, deref, pure, zero_row_array]
  cases c.intrinsics <;> try rfl
  cases c.frames <;> try rfl
  cases c.points <;> try rfl
  cases c.observations_point <;> try rfl
  cases c.extrinsics <;> try rfl
  cases c.indices_frame_camera_board <;> try rfl
  cases c.indices_point_camera_points <;> try rfl
  cases c.imagersizes <;> try rfl

/-- The validation does not depend on the trailing dimensions of a zero-row
`observations_board`. -/
theorem optimize_validate_args_zero_row_board (L : mrcal_library) (c : optimize_arguments)
    (w1 w2 d3 v1 v2 e3 : Nat) :
    optimize_validate_args L
      { c with observations_board := zero_row_array [w1, w2, d3] NPY_DOUBLE } =
    optimize_validate_args L
      { c with observations_board := zero_row_array [v1, v2, e3] NPY_DOUBLE } := rfl

/-- A call that leaves out a required argument is not accepted by the
argument parser. -/
theorem arguments_present_missing (required keywords given : List String) (name : String)
    (h1 : name ∈ required) (h2 : name ∉ given) :
    arguments_present required keywords given = false := by
  unfold arguments_present
  have : (required.all fun name => given.contains name) = false := by
    rw [List.all_eq_false]
    exact ⟨name, h1, by simpa using h2⟩
  rw [this]
  rfl

/-- The arguments after the `SET_SIZE0_IF_NONE` lines are the same for `None`
and for a zero-row array, but for the trailing shape of `observations_board`. -/
theorem optimize_set_size0_same_or_None (a : optimize_arguments)
    (extrinsics frames observations_board indices_frame_camera_board points observations_point
      indices_point_camera_points imagersizes : PyArrayArg) (w1 w2 d3 : Nat)
    (h1 : same_or_None a.extrinsics extrinsics [6] NPY_DOUBLE)
    (h2 : same_or_None a.frames frames [6] NPY_DOUBLE)
    (h3 : same_or_None a.observations_board observations_board [w1, w2, d3] NPY_DOUBLE)
    (h4 : same_or_None a.indices_frame_camera_board indices_frame_camera_board [2] NPY_INT)
    (h5 : same_or_None a.points points [3] NPY_DOUBLE)
    (h6 : same_or_None a.observations_point observations_point [3] NPY_DOUBLE)
    (h7 : same_or_None a.indices_point_camera_points indices_point_camera_points [2] NPY_INT)
    (h8 : same_or_None a.imagersizes imagersizes [2] NPY_INT) :
    optimize_set_size0 a =
        optimize_set_size0 (with_arrays a extrinsics frames observations_board
          indices_frame_camera_board points observations_point indices_point_camera_points
          imagersizes) ∨
    ∃ c : optimize_arguments, optimize_set_size0 a =
        { c with observations_board := zero_row_array [179, 171, 2] NPY_DOUBLE } ∧
      optimize_set_size0 (with_arrays a extrinsics frames observations_board
          indices_frame_camera_board points observations_point indices_point_camera_points
          imagersizes) =
        { c with observations_board := zero_row_array [w1, w2, d3] NPY_DOUBLE } := by
  have e1 := SET_SIZE0_IF_NONE_same_or_None _ _ _ _ h1
  have e2 := SET_SIZE0_IF_NONE_same_or_None _ _ _ _ h2
  have e4 := SET_SIZE0_IF_NONE_same_or_None _ _ _ _ h4
  have e5 := SET_SIZE0_IF_NONE_same_or_None _ _ _ _ h5
  have e6 := SET_SIZE0_IF_NONE_same_or_None _ _ _ _ h6
  have e7 := SET_SIZE0_IF_NONE_same_or_None _ _ _ _ h7
  have e8 := SET_SIZE0_IF_NONE_same_or_None _ _ _ _ h8
  rcases h3 with h3 | ⟨h3, hy⟩
  · left
    unfold optimize_set_size0 with_arrays
    simp only [e1, e2, e4, e5, e6, e7, e8, h3]
  · right
    refine ⟨optimize_set_size0 a, ?_, ?_⟩
    · unfold optimize_set_size0
      rcases h3 with h3 | h3 <;> simp only [h3] <;> rfl
    · unfold optimize_set_size0 with_arrays
      simp only [e1, e2, e4, e5, e6, e7, e8, hy]
      rfl


/-- C27, counterexample: `points` is a required argument; leaving it out makes
`optimize` fail before the solver, while a zero-row array in its place is
accepted and reaches the solver. -/
theorem None_as_empty_counterexample :
    "points" ∈ optimize_required_keywords ∧
    fails_before_solver (optimize_from_entry library_of_list example_solver stack_all_zeros
      stack_points_zeros (example_given.erase "points")
      { example_arguments with points := PyArrayArg.NULL }) = true ∧
    optimize_validate_args library_of_list (optimize_set_size0
      { example_arguments with points := zero_row_array [3] NPY_DOUBLE }) =
      Outcome.ok DISTORTION_OPENCV4 ∧
    solver_check_gradient (optimize_from_entry library_of_list example_solver
      stack_all_zeros stack_points_zeros example_given
      { example_arguments with points := zero_row_array [3] NPY_DOUBLE }) = some false := by
  decide

/-- C27, amended: passing `None` for any of the eight arrays gives the same
validation verdict and the same solver call as a zero-row array of the
declared trailing shape and type; the eight arrays are required arguments, and
a call that omits a required argument returns `NULL` without validating or
calling the solver. -/
theorem None_as_empty (L : mrcal_library) (S : mrcal_solver)
    (stack_board : Nat → observation_board_t) (stack_point : Nat → observation_point_t)
    (a : optimize_arguments)
    (extrinsics frames observations_board indices_frame_camera_board points observations_point
      indices_point_camera_points imagersizes : PyArrayArg) (w1 w2 d3 : Nat)
    (h1 : same_or_None a.extrinsics extrinsics [6] NPY_DOUBLE)
    (h2 : same_or_None a.frames frames [6] NPY_DOUBLE)
    (h3 : same_or_None a.observations_board observations_board [w1, w2, d3] NPY_DOUBLE)
    (h4 : same_or_None a.indices_frame_camera_board indices_frame_camera_board [2] NPY_INT)
    (h5 : same_or_None a.points points [3] NPY_DOUBLE)
    (h6 : same_or_None a.observations_point observations_point [3] NPY_DOUBLE)
    (h7 : same_or_None a.indices_point_camera_points indices_point_camera_points [2] NPY_INT)
    (h8 : same_or_None a.imagersizes imagersizes [2] NPY_INT) :
    optimize_validate_args L (optimize_set_size0 a) =
      optimize_validate_args L (optimize_set_size0 (with_arrays a extrinsics frames
        observations_board indices_frame_camera_board points observations_point
        indices_point_camera_points imagersizes)) ∧
    (∀ m, optimize_solve S stack_board stack_point (optimize_set_size0 a) m =
      optimize_solve S stack_board stack_point (optimize_set_size0 (with_arrays a extrinsics
        frames observations_board indices_frame_camera_board points observations_point
        indices_point_camera_points imagersizes)) m) ∧
    (∀ name ∈ ["extrinsics", "frames", "observations_board", "indices_frame_camera_board",
        "points", "observations_point", "indices_point_camera_points", "imagersizes"],
      name ∈ optimize_required_keywords) ∧
    ∀ (given : List String) (name : String), name ∈ optimize_required_keywords →
      name ∉ given →
      optimize_from_entry L S stack_board stack_point given a =
        Outcome.ok
          ⟨none, none, a.intrinsics, a.extrinsics, a.frames, a.points, a.solver_context⟩ := by
  refine ⟨?_, ?_, by decide, ?_⟩
  · rcases optimize_set_size0_same_or_None a extrinsics frames observations_board
      indices_frame_camera_board points observations_point indices_point_camera_points
      imagersizes w1 w2 d3 h1 h2 h3 h4 h5 h6 h7 h8 with h | ⟨c, ha, hb⟩
    · rw [h]
    · rw [ha, hb]
      exact optimize_validate_args_zero_row_board L c _ _ _ _ _ _
  · intro m
    rcases optimize_set_size0_same_or_None a extrinsics frames observations_board
      indices_frame_camera_board points observations_point indices_point_camera_points
      imagersizes w1 w2 d3 h1 h2 h3 h4 h5 h6 h7 h8 with h | ⟨c, ha, hb⟩
    · rw [h]
    · rw [ha, hb]
      exact optimize_solve_zero_row_board S stack_board stack_point c m _ _
  · intro given name hreq hgiven
    unfold optimize_from_entry
    rw [arguments_present_missing _ _ given name hreq hgiven]
    rfl

/-- Witness of C27: a one-camera call with `None` for `extrinsics`, `points`,
`observations_point` and `indices_point_camera_points` is accepted, as is the
call with zero-row arrays in their place, with the same solver call. -/
theorem None_as_empty_witness :
    optimize_validate_args library_of_list (optimize_set_size0 example_arguments_None) =
      Outcome.ok DISTORTION_OPENCV4 ∧
    optimize_validate_args library_of_list (optimize_set_size0 example_arguments_None) =
      optimize_validate_args library_of_list (optimize_set_size0
        (with_arrays example_arguments_None
          (zero_row_array [6] NPY_DOUBLE) example_arguments_None.frames
          example_arguments_None.observations_board
          example_arguments_None.indices_frame_camera_board
          (zero_row_array [3] NPY_DOUBLE) (zero_row_array [3] NPY_DOUBLE)
          (zero_row_array [2] NPY_INT) example_arguments_None.imagersizes)) ∧
    ∀ m, optimize_solve example_solver stack_all_zeros stack_points_zeros
        (optimize_set_size0 example_arguments_None) m =
      optimize_solve example_solver stack_all_zeros stack_points_zeros
        (optimize_set_size0 (with_arrays example_arguments_None
          (zero_row_array [6] NPY_DOUBLE) example_arguments_None.frames
          example_arguments_None.observations_board
          example_arguments_None.indices_frame_camera_board
          (zero_row_array [3] NPY_DOUBLE) (zero_row_array [3] NPY_DOUBLE)
          (zero_row_array [2] NPY_INT) example_arguments_None.imagersizes)) m := by
  have h := None_as_empty library_of_list example_solver stack_all_zeros stack_points_zeros
    example_arguments_None
    (zero_row_array [6] NPY_DOUBLE) example_arguments_None.frames
    example_arguments_None.observations_board
    example_arguments_None.indices_frame_camera_board
    (zero_row_array [3] NPY_DOUBLE) (zero_row_array [3] NPY_DOUBLE)
    (zero_row_array [2] NPY_INT) example_arguments_None.imagersizes 10 10 2
    (Or.inr ⟨Or.inl rfl, rfl⟩) (Or.inl rfl) (Or.inl rfl) (Or.inl rfl)
    (Or.inr ⟨Or.inl rfl, rfl⟩) (Or.inr ⟨Or.inl rfl, rfl⟩) (Or.inr ⟨Or.inl rfl, rfl⟩)
    (Or.inl rfl)
  exact ⟨by decide, h.1, h.2.1⟩


/-! ## `getNextDistortionModel`, the problem details, the derivatives of `project` -/

/-- The function `getNextDistortionModel` on two strings, as one case
distinction. -/
theorem getNextDistortionModel_eq (L : mrcal_library) (R : mrcal_registry) (now final : String) :
    getNextDistortionModel L R (PyString now) (PyString final) =
      if L.mrcal_distortion_model_from_name now = DISTORTION_INVALID ∨
          L.mrcal_distortion_model_from_name final = DISTORTION_INVALID ∨
          R.mrcal_getNextDistortionModel (L.mrcal_distortion_model_from_name now)
            (L.mrcal_distortion_model_from_name final) = DISTORTION_INVALID then none
      else some (Py_BuildValue_s (R.mrcal_distortion_model_name
        (R.mrcal_getNextDistortionModel (L.mrcal_distortion_model_from_name now)
          (L.mrcal_distortion_model_from_name final)))) := by
  unfold getNextDistortionModel
  simp only [PyString_Check, PyString_AsString, Bool.and_self, Bool.not_true,
    Bool.false_eq_true, if_false]
  by_cases h1 : L.mrcal_distortion_model_from_name now = DISTORTION_INVALID
  · simp [h1]
  · by_cases h2 : L.mrcal_distortion_model_from_name final = DISTORTION_INVALID
    · simp [h1, h2]
    · by_cases h3 : R.mrcal_getNextDistortionModel (L.mrcal_distortion_model_from_name now)
          (L.mrcal_distortion_model_from_name final) = DISTORTION_INVALID
      · simp [h1, h2, h3]
      · simp [h1, h2, h3]

/-- C24: `getNextDistortionModel(now, final)` on two strings fails exactly
when `mrcal_distortion_model_from_name(now)` is invalid, or
`mrcal_distortion_model_from_name(final)` is invalid, or
`mrcal_getNextDistortionModel` of the two is invalid; otherwise it returns the
string object of the name that `mrcal_distortion_model_name` gives for that next
model (`None` if that name is `NULL`).  Arguments that are not strings make it
fail. -/
theorem next_distortion_model (L : mrcal_library) (R : mrcal_registry) (now final : String) :
    (getNextDistortionModel L R (PyString now) (PyString final) = none ↔
      L.mrcal_distortion_model_from_name now = DISTORTION_INVALID ∨
      L.mrcal_distortion_model_from_name final = DISTORTION_INVALID ∨
      R.mrcal_getNextDistortionModel (L.mrcal_distortion_model_from_name now)
        (L.mrcal_distortion_model_from_name final) = DISTORTION_INVALID) ∧
    (∀ name : String,
      L.mrcal_distortion_model_from_name now ≠ DISTORTION_INVALID →
      L.mrcal_distortion_model_from_name final ≠ DISTORTION_INVALID →
      R.mrcal_getNextDistortionModel (L.mrcal_distortion_model_from_name now)
        (L.mrcal_distortion_model_from_name final) ≠ DISTORTION_INVALID →
      R.mrcal_distortion_model_name
        (R.mrcal_getNextDistortionModel (L.mrcal_distortion_model_from_name now)
          (L.mrcal_distortion_model_from_name final)) = some name →
      getNextDistortionModel L R (PyString now) (PyString final) = some (PyString name)) ∧
    (L.mrcal_distortion_model_from_name now ≠ DISTORTION_INVALID →
      L.mrcal_distortion_model_from_name final ≠ DISTORTION_INVALID →
      R.mrcal_getNextDistortionModel (L.mrcal_distortion_model_from_name now)
        (L.mrcal_distortion_model_from_name final) ≠ DISTORTION_INVALID →
      R.mrcal_distortion_model_name
        (R.mrcal_getNextDistortionModel (L.mrcal_distortion_model_from_name now)
          (L.mrcal_distortion_model_from_name final)) = none →
      getNextDistortionModel L R (PyString now) (PyString final) = some Py_None) ∧
    (∀ x y : PyObject, (∀ s, x ≠ PyString s) ∨ (∀ s, y ≠ PyString s) →
      getNextDistortionModel L R x y = none) := by
  have heq := getNextDistortionModel_eq L R now final
  refine ⟨?_, ?_, ?_, ?_⟩
  · rw [heq]
    split_ifs with h
    · simp [h]
    · simp [h]
  · intro name h1 h2 h3 hn
    rw [heq, if_neg (by tauto), hn]
    rfl
  · intro h1 h2 h3 hn
    rw [heq, if_neg (by tauto), hn]
    rfl
  · intro x y h
    unfold getNextDistortionModel
    rcases h with h | h
    · cases x <;> simp [PyString_Check]
      exact absurd rfl (h _)
    · cases y <;> simp [PyString_Check]
      exact absurd rfl (h _)

/-- Witness of C24: with the example registry, the next model from
`DISTORTION_OPENCV4` to `DISTORTION_OPENCV12` is returned as the string
`DISTORTION_OPENCV5`; an unknown final name and a pair without a next model
make the call fail. -/
theorem next_distortion_model_witness :
    getNextDistortionModel library_of_list example_registry (PyString "DISTORTION_OPENCV4")
      (PyString "DISTORTION_OPENCV12") = some (PyString "DISTORTION_OPENCV5") ∧
    (getNextDistortionModel library_of_list example_registry (PyString "DISTORTION_OPENCV4")
      (PyString "DISTORTION_FISHEYE") = none) ∧
    (getNextDistortionModel library_of_list example_registry (PyString "DISTORTION_OPENCV8")
      (PyString "DISTORTION_OPENCV4") = none) :=
  ⟨(next_distortion_model library_of_list example_registry "DISTORTION_OPENCV4"
      "DISTORTION_OPENCV12").2.1 "DISTORTION_OPENCV5" (by decide) (by decide) (by decide)
      (by decide),
   (next_distortion_model library_of_list example_registry "DISTORTION_OPENCV4"
      "DISTORTION_FISHEYE").1.2 (Or.inr (Or.inl (by decide))),
   (next_distortion_model library_of_list example_registry "DISTORTION_OPENCV8"
      "DISTORTION_OPENCV4").1.2 (Or.inr (Or.inr (by decide)))⟩

/-- C26: `IS_OPTIMIZE_NONE(x)` holds exactly when the four `do_optimize_*`
flags of `x` are false, whatever `do_skip_regularization` is (and whatever
`cahvor_radial_only` is); it is false on `DO_OPTIMIZE_ALL` and true on the
record with only `do_skip_regularization` set. -/
theorem is_optimize_none (x : mrcal_variable_select) :
    (IS_OPTIMIZE_NONE x = true ↔
      x.do_optimize_intrinsic_core = false ∧ x.do_optimize_intrinsic_distortions = false ∧
      x.do_optimize_extrinsics = false ∧ x.do_optimize_frames = false) ∧
    (∀ skip cahvor : Bool,
      IS_OPTIMIZE_NONE { x with do_skip_regularization := skip, cahvor_radial_only := cahvor } =
        IS_OPTIMIZE_NONE x) ∧
    IS_OPTIMIZE_NONE DO_OPTIMIZE_ALL = false ∧
    IS_OPTIMIZE_NONE
      { do_optimize_intrinsic_core := false
        do_optimize_intrinsic_distortions := false
        do_optimize_extrinsics := false
        do_optimize_frames := false
        cahvor_radial_only := false
        do_skip_regularization := true } = true := by
  refine ⟨?_, fun _ _ => rfl, rfl, rfl⟩
  cases x with
  | mk a b c d e f => cases a <;> cases b <;> cases c <;> cases d <;> simp [IS_OPTIMIZE_NONE]

/-- C28, at the failing input: `project(points, model, intrinsics)` with
`get_gradients` left at its default `False` is accepted and returns the single
array of projections, yet the kernel was called with both derivative buffers
allocated, of shapes `(1, 2, 8)` and `(1, 2, 3)`. -/
theorem derivative_buffers_always :
    PyObject_IsTrue example_project_arguments.get_gradients = false ∧
    project_validate_args library_of_list example_project_arguments =
      Outcome.ok DISTORTION_OPENCV4 ∧
    ∃ r call b1 b2 out,
      project library_of_list example_solver example_project_arguments = Outcome.ok r ∧
      r.kernel_call = some call ∧ r.result = some (project_result.array out) ∧
      call.dxy_dintrinsics = some b1 ∧ b1.dims = [1, 2, 8] ∧
      call.dxy_dp = some b2 ∧ b2.dims = [1, 2, 3] := by
  refine ⟨rfl, by decide, ?_⟩
  obtain ⟨call, out, di, dp, b1, b2, hproj, -, hb1, hb2, hb1', hb2', -⟩ :=
    project_of_ok library_of_list example_solver example_project_arguments DISTORTION_OPENCV4
      _ _ rfl rfl (by decide)
  refine ⟨_, call, b1, b2, out, hproj, rfl, rfl, hb1, ?_, hb2, ?_⟩
  · rw [hb1']; rfl
  · rw [hb2']; rfl


/-- C25: when the four `do_optimize_*` arguments are at their default `True`
and `skip_regularization` is not given, the problem details handed to the
solver, and to `mrcal_getNmeasurements` for the size of `x`, have the four
optimize flags true and `do_skip_regularization` false: they are
`DO_OPTIMIZE_ALL` with the caller's `cahvor_radial_only`, and `DO_OPTIMIZE_ALL`
itself when that is at its default `False`. -/

theorem default_problem_details (L : mrcal_library) (S : mrcal_solver)
    (stack_board : Nat → observation_board_t) (stack_point : Nat → observation_point_t)
    (a : optimize_arguments) (m : distortion_model_t) (r : optimize_return)
    (h1 : a.do_optimize_intrinsic_core = Py_True)
    (h2 : a.do_optimize_intrinsic_distortions = Py_True)
    (h3 : a.do_optimize_extrinsics = Py_True)
    (h4 : a.do_optimize_frames = Py_True)
    (h5 : a.skip_regularization = none)
    (hok : optimize_validate_args L (optimize_set_size0 a) = Outcome.ok m)
    (hr : optimize L S stack_board stack_point a = Outcome.ok r) :
    ∃ call, r.solver_call = some call ∧
      call.problem_details =
        { DO_OPTIMIZE_ALL with cahvor_radial_only := PyObject_IsTrue a.cahvor_radial_only } ∧
      call.problem_details.do_optimize_intrinsic_core = true ∧
      call.problem_details.do_optimize_intrinsic_distortions = true ∧
      call.problem_details.do_optimize_extrinsics = true ∧
      call.problem_details.do_optimize_frames = true ∧
      call.problem_details.do_skip_regularization = false ∧
      (a.cahvor_radial_only = Py_False → call.problem_details = DO_OPTIMIZE_ALL) ∧
      call.x_final = PyArray_SimpleNew
        [(S.mrcal_getNmeasurements call.Ncameras call.NobservationsBoard
          call.observations_point call.NobservationsPoint call.calibration_object_width_n
          { DO_OPTIMIZE_ALL with cahvor_radial_only := PyObject_IsTrue a.cahvor_radial_only }
          call.distortion_model).toNat] NPY_DOUBLE := by
  obtain ⟨arrays, buffers, -, hb, hc, -⟩ :=
    optimize_accepted_full L S stack_board stack_point a m r hok hr
  obtain ⟨hN, hI, hP⟩ := optimize_allocate_ok S stack_point _ arrays m buffers hb
  have hI' : set_and_true (optimize_set_size0 a).get_intrinsic_covariances = true →
      0 ≤ S.mrcal_getNintrinsicParams m := by
    intro ht
    by_cases h0 : S.mrcal_getNintrinsicParams m = 0
    · omega
    · exact hI h0 ht
  have hb' := optimize_allocate_eq S stack_point _ arrays m hN hI' hP
  rw [hb] at hb'
  injection hb' with hb'
  have hpd : optimize_problem_details (optimize_set_size0 a) =
      { DO_OPTIMIZE_ALL with cahvor_radial_only := PyObject_IsTrue a.cahvor_radial_only } := by
    show optimize_problem_details a = _
    unfold optimize_problem_details
    rw [h1, h2, h3, h4, h5]
    rfl
  have hcall : (optimize_call stack_board stack_point (optimize_set_size0 a) arrays m
      buffers).problem_details =
      { DO_OPTIMIZE_ALL with cahvor_radial_only := PyObject_IsTrue a.cahvor_radial_only } := hpd
  refine ⟨_, hc, hcall, ?_, ?_, ?_, ?_, ?_, ?_, ?_⟩
  · rw [hcall]; rfl
  · rw [hcall]; rfl
  · rw [hcall]; rfl
  · rw [hcall]; rfl
  · rw [hcall]; rfl
  · intro h6
    rw [hcall, h6]
    rfl
  · show buffers.x_final = _
    rw [hb']
    show PyArray_SimpleNew [(optimize_Nmeasurements S stack_point (optimize_set_size0 a) arrays
      m).toNat] NPY_DOUBLE = _
    unfold optimize_Nmeasurements
    rw [hpd]
    rfl

/-- Witness of C25: the example call hands the solver `DO_OPTIMIZE_ALL`. -/

theorem default_problem_details_witness :
    ∃ r call, optimize library_of_list example_solver stack_all_zeros stack_points_zeros
        example_arguments = Outcome.ok r ∧ r.solver_call = some call ∧
      call.problem_details = DO_OPTIMIZE_ALL := by
  obtain ⟨r, call0, hr, -⟩ := reaches_solver_of_check_gradient _ _ example_optimize_check_gradient
  obtain ⟨call, hc, -, -, -, -, -, -, h, -⟩ :=
    default_problem_details library_of_list example_solver stack_all_zeros stack_points_zeros
      example_arguments DISTORTION_OPENCV4 r rfl rfl rfl rfl rfl (by decide) hr
  exact ⟨r, call, hr, hc, h rfl⟩

/-! ## The width of `intrinsics` -/

/-- The checks on the number of cameras, on a call whose extrinsics and imager
sizes are arrays, return `true` or `false`. -/
theorem validate_Ncameras_other_intrinsics (a : optimize_arguments) (y : PyArrayObject)
    (h : validate_Ncameras a = Outcome.ok ()) :
    validate_Ncameras { a with intrinsics := PyArrayArg.array y } = Outcome.ok () ∨
    validate_Ncameras { a with intrinsics := PyArrayArg.array y } = Outcome.fail := by
  unfold validate_Ncameras at h ⊢
  cases hi : a.intrinsics <;> simp only [hi, deref, bind, Outcome.bind] at h <;>
    try contradiction
  cases he : a.extrinsics <;> simp only [he] at h <;> try contradiction
  cases hs : a.imagersizes <;> simp only [hs] at h
  · exfalso; revert h; split_ifs <;> simp
  · exfalso; revert h; split_ifs <;> simp
  · simp only [he, hs, deref, bind, Outcome.bind]
    split_ifs
    · exact Or.inr rfl
    · exact Or.inr rfl
    · cases a.roi
      · exact Or.inl rfl
      · exact Or.inl rfl
      · simp only [pure]
        split_ifs
        · exact Or.inr rfl
        · exact Or.inl rfl

/-- On an otherwise accepted call of `optimize`, an `intrinsics` array of
another width makes the validation return `false`. -/
theorem optimize_validate_args_wrong_width (L : mrcal_library) (a : optimize_arguments)
    (f : distortion_model_t) (y : PyArrayObject)
    (hok : optimize_validate_args L a = Outcome.ok f)
    (hy : PyArray_DIMS y 1 ≠ 4 + L.mrcal_getNdistortionParams f) :
    optimize_validate_args L { a with intrinsics := PyArrayArg.array y } = Outcome.fail := by
  obtain ⟨-, h1, h2, h3, h4, -⟩ := (optimize_validate_args_ok_iff L a f).1 hok
  obtain ⟨name, x, hname, hf, hne, -, -⟩ := validate_distortion_model_ok L a f h4
  have e2 : validate_calibration_object { a with intrinsics := PyArrayArg.array y } =
      Outcome.ok () := h2
  have e3 : validate_NobservationsPoint { a with intrinsics := PyArrayArg.array y } =
      Outcome.ok () := h3
  have e4 : validate_distortion_model L { a with intrinsics := PyArrayArg.array y } =
      Outcome.fail := by
    unfold validate_distortion_model
    simp only [hname, PyString_AsString, ← hf, hne, if_false, deref, bind, Outcome.bind]
    rw [if_pos]
    rw [N_INTRINSICS_CORE_eq]
    exact fun h => hy h.symm
  unfold optimize_validate_args
  by_cases c0 : optimize_check_layout { a with intrinsics := PyArrayArg.array y } = true
  · rcases validate_Ncameras_other_intrinsics a y h1 with e1 | e1 <;>
      simp [c0, e1, e2, e3, e4, bind, Outcome.bind]
  · simp [c0]

/-- On an otherwise accepted call of `project`, an `intrinsics` array of
another length makes the validation return `false`. -/
theorem project_validate_args_wrong_width (L : mrcal_library) (p : project_arguments)
    (f : distortion_model_t) (y : PyArrayObject)
    (hok : project_validate_args L p = Outcome.ok f)
    (hy : PyArray_DIMS y 0 ≠ 4 + L.mrcal_getNdistortionParams f) :
    project_validate_args L { p with intrinsics := PyArrayArg.array y } = Outcome.fail := by
  obtain ⟨points, x, name, hp, -, hname, -, -, -, -, -, hf, -, -⟩ :=
    (project_validate_args_ok_iff L p f).1 hok
  cases hv : project_validate_args L { p with intrinsics := PyArrayArg.array y } with
  | fail => rfl
  | crash =>
    exact absurd hv (project_validate_args_defined L _ points y hp rfl)
  | ok g =>
    obtain ⟨-, y1, name1, -, hy1, hname1, -, -, -, -, -, hg, -, hw⟩ :=
      (project_validate_args_ok_iff L _ g).1 hv
    have hyy : PyArrayArg.array y = PyArrayArg.array y1 := hy1
    injection hyy with hyy
    subst hyy
    have hnn : p.distortion_model = PyString name1 := hname1
    rw [hname] at hnn
    injection hnn with hnn
    subst hnn
    rw [← hg, hf] at hw
    exact absurd hw hy

/-- The widths that the two validations accept. -/
theorem accepted_intrinsics_width (L : mrcal_library) (a : optimize_arguments)
    (p : project_arguments) (f : distortion_model_t) :
    (optimize_validate_args L a = Outcome.ok f →
      ∃ name intrinsics, a.distortion_model = PyString name ∧
        f = L.mrcal_distortion_model_from_name name ∧
        a.intrinsics = PyArrayArg.array intrinsics ∧
        PyArray_DIMS intrinsics 1 = 4 + L.mrcal_getNdistortionParams f) ∧
    (project_validate_args L p = Outcome.ok f →
      ∃ name intrinsics, p.distortion_model = PyString name ∧
        f = L.mrcal_distortion_model_from_name name ∧
        p.intrinsics = PyArrayArg.array intrinsics ∧
        PyArray_NDIM intrinsics = 1 ∧
        PyArray_DIMS intrinsics 0 = 4 + L.mrcal_getNdistortionParams f) := by
  constructor
  · intro hok
    rw [optimize_validate_args_ok_iff] at hok
    obtain ⟨name, intrinsics, h1, h2, -, h3, h4⟩ :=
      validate_distortion_model_ok L a f hok.2.2.2.2.1
    exact ⟨name, intrinsics, h1, h2, h3, by rw [h4, N_INTRINSICS_CORE_eq]⟩
  · intro hok
    unfold project_validate_args at hok
    by_cases c0 : (CHECK_LAYOUT p.points NPY_DOUBLE [] &&
        CHECK_LAYOUT p.intrinsics NPY_DOUBLE []) = true
    · simp only [c0, Bool.not_true, Bool.false_eq_true, if_false] at hok
      cases hi : p.intrinsics <;> simp only [hi, deref, bind, Outcome.bind] at hok <;>
        try (simp at hok; done)
      rename_i intrinsics
      by_cases c1 : PyArray_NDIM intrinsics ≠ 1
      · simp [c1] at hok
      simp only [c1, if_false] at hok
      cases hp : p.points <;> simp only [hp] at hok <;> try (simp at hok; done)
      rename_i points
      by_cases c2 : PyArray_NDIM points < 1
      · simp [c2] at hok
      simp only [c2, if_false] at hok
      by_cases c3 : 3 ≠ PyArray_DIMS points (PyArray_NDIM points - 1)
      · simp [c3] at hok
      simp only [c3, if_false] at hok
      cases hd : p.distortion_model <;> simp only [hd, PyString_AsString] at hok <;>
        try (simp at hok; done)
      rename_i name
      by_cases c4 : L.mrcal_distortion_model_from_name name = DISTORTION_INVALID
      · simp [c4] at hok
      simp only [c4, if_false] at hok
      by_cases c5 : N_INTRINSICS_CORE +
          L.mrcal_getNdistortionParams (L.mrcal_distortion_model_from_name name) ≠
          PyArray_DIMS intrinsics 0
      · simp [c5] at hok
      simp only [c5, if_false, pure] at hok
      injection hok with hok
      subst hok
      exact ⟨name, intrinsics, rfl, rfl, rfl, by simpa using c1,
        by rw [← N_INTRINSICS_CORE_eq]; simpa using (not_not.1 c5).symm⟩
    · simp [c0, bind, Outcome.bind] at hok

/-- C7: `optimize` accepts `intrinsics` only if its width is
`4 + paramCount(f)` and `project` accepts its 1-dimensional `intrinsics` only
if its length is `4 + paramCount(f)`, where `f` is the family that the
distortion model name maps to and `paramCount` is
`mrcal_getNdistortionParams`; on a call that is accepted with the right width,
an `intrinsics` array of any other width makes the validation return `false`,
in `optimize` and in `project`; and on any call at all, an `intrinsics` array
of another width than the named family asks for leaves the validation no
outcome but `false` and undefined behaviour. -/
theorem intrinsics_width (L : mrcal_library) (a : optimize_arguments) (p : project_arguments)
    (f : distortion_model_t) :
    (optimize_validate_args L a = Outcome.ok f →
      (∃ name intrinsics, a.distortion_model = PyString name ∧
        f = L.mrcal_distortion_model_from_name name ∧
        a.intrinsics = PyArrayArg.array intrinsics ∧
        PyArray_DIMS intrinsics 1 = 4 + L.mrcal_getNdistortionParams f) ∧
      ∀ other : PyArrayObject, PyArray_DIMS other 1 ≠ 4 + L.mrcal_getNdistortionParams f →
        optimize_validate_args L { a with intrinsics := PyArrayArg.array other } =
          Outcome.fail) ∧
    (project_validate_args L p = Outcome.ok f →
      (∃ name intrinsics, p.distortion_model = PyString name ∧
        f = L.mrcal_distortion_model_from_name name ∧
        p.intrinsics = PyArrayArg.array intrinsics ∧
        PyArray_NDIM intrinsics = 1 ∧
        PyArray_DIMS intrinsics 0 = 4 + L.mrcal_getNdistortionParams f) ∧
      ∀ other : PyArrayObject, PyArray_DIMS other 0 ≠ 4 + L.mrcal_getNdistortionParams f →
        project_validate_args L { p with intrinsics := PyArrayArg.array other } =
          Outcome.fail) ∧
    (∀ (name : String) (intrinsics : PyArrayObject), a.distortion_model = PyString name →
      a.intrinsics = PyArrayArg.array intrinsics →
      PyArray_DIMS intrinsics 1 ≠
        4 + L.mrcal_getNdistortionParams (L.mrcal_distortion_model_from_name name) →
      optimize_validate_args L a = Outcome.fail ∨ optimize_validate_args L a = Outcome.crash) ∧
    (∀ (name : String) (intrinsics : PyArrayObject), p.distortion_model = PyString name →
      p.intrinsics = PyArrayArg.array intrinsics →
      PyArray_DIMS intrinsics 0 ≠
        4 + L.mrcal_getNdistortionParams (L.mrcal_distortion_model_from_name name) →
      project_validate_args L p = Outcome.fail ∨ project_validate_args L p = Outcome.crash) := by
  refine ⟨fun hok => ⟨(accepted_intrinsics_width L a p f).1 hok,
      fun other h => optimize_validate_args_wrong_width L a f other hok h⟩,
    fun hok => ⟨(accepted_intrinsics_width L a p f).2 hok,
      fun other h => project_validate_args_wrong_width L p f other hok h⟩, ?_, ?_⟩
  · intro name x hname hx hw
    cases hv : optimize_validate_args L a with
    | fail => exact Or.inl rfl
    | crash => exact Or.inr rfl
    | ok g =>
      obtain ⟨name1, x1, hname1, hg, hx1, hw1⟩ := (accepted_intrinsics_width L a p g).1 hv
      rw [hname] at hname1
      rw [hx] at hx1
      injection hname1 with hname1
      injection hx1 with hx1
      subst hname1 hx1 hg
      exact absurd hw1 hw
  · intro name x hname hx hw
    cases hv : project_validate_args L p with
    | fail => exact Or.inl rfl
    | crash => exact Or.inr rfl
    | ok g =>
      obtain ⟨name1, x1, hname1, hg, hx1, -, hw1⟩ := (accepted_intrinsics_width L a p g).2 hv
      rw [hname] at hname1
      rw [hx] at hx1
      injection hname1 with hname1
      injection hx1 with hx1
      subst hname1 hx1 hg
      exact absurd hw1 hw

/-- Witness of C7: the example calls of `optimize` and of `project`, both with
`DISTORTION_OPENCV4`, are accepted with intrinsics 8 wide; with intrinsics 9
wide the validation of each returns `false`. -/
theorem intrinsics_width_witness :
    optimize_validate_args library_of_list example_arguments =
      Outcome.ok DISTORTION_OPENCV4 ∧
    optimize_validate_args library_of_list
      { example_arguments with
        intrinsics := PyArrayArg.array ⟨[2, 9], NPY_DOUBLE, true, [], []⟩ } = Outcome.fail ∧
    project_validate_args library_of_list example_project_arguments =
      Outcome.ok DISTORTION_OPENCV4 ∧
    project_validate_args library_of_list
      { example_project_arguments with
        intrinsics := PyArrayArg.array ⟨[9], NPY_DOUBLE, true, [], []⟩ } = Outcome.fail :=
  ⟨by decide,
   ((intrinsics_width library_of_list example_arguments example_project_arguments
      DISTORTION_OPENCV4).1 (by decide)).2 ⟨[2, 9], NPY_DOUBLE, true, [], []⟩ (by decide),
   by decide,
   ((intrinsics_width library_of_list example_arguments example_project_arguments
      DISTORTION_OPENCV4).2.1 (by decide)).2 ⟨[9], NPY_DOUBLE, true, [], []⟩ (by decide)⟩

end Mrcal
